import Mathlib

/-!
# XrdCl::Stream — a shallow embedding of `src/XrdCl/XrdClStream.cc`

The stream object is a record of its member variables.  Every collaborator the
stream talks to (transport, sockets, resolver, clock) is an oracle of `Env`;
every call the stream makes on a collaborator that has an observable effect
(socket calls, handler callbacks, task registration, notifications) is appended
to `Stream.trace` in program order.  Indexing `pSubStreams` outside its range,
which is undefined behaviour in the C++ code, makes an operation return `none`.

Integer widths: the member declarations live in `XrdClStream.hh`, which is not
part of the sources at hand; counters and windows are natural numbers and time
stamps are integers, without wrap-around.  One call of an operation reads one
clock value, `Env.now`, and an oracle answers two identical calls made within
one operation in the same way.  The stream mutex is not part of the state: an
operation is one atomic step, and a handler callback is a call in the trace.
-/

namespace XrdCl

/-! ## Status objects -/

/-- Modelled from the spec: the severity of a status (`XrdClStatus.hh` is absent);
`stError` is recoverable, `stFatal` is not. -/
inductive StatusLevel where
  | stOK
  | stError
  | stFatal
deriving DecidableEq, Repr

/-- Modelled from the spec: the error kinds of section 7 (`XrdClStatus.hh` is
absent), under the names the stream code uses for them. -/
inductive ErrCode where
  | errNone
  | errUninitialized
  | errInvalidSession
  | errOperationExpired
  | errAuthFailed
  | errConnectionError
  | errStreamDisconnect
  | errInvalidAddr
  | errQueryNotSupported
  | errOther (n : Nat)
deriving DecidableEq, Repr

open StatusLevel ErrCode

/-- Modelled from the spec: the status object `XRootDStatus` (severity, code, errno);
its class declaration is absent. -/
structure XRootDStatus where
  status : StatusLevel := stOK
  code : ErrCode := errNone
  errNo : Nat := 0
deriving DecidableEq, Repr

/-- Modelled from the spec: `XRootDStatus::IsOK`, true for the default (success) status. -/
def XRootDStatus.IsOK (st : XRootDStatus) : Bool := st.status == stOK

/-- Modelled from the spec: `XRootDStatus::IsFatal`, true for severity `Fatal`. -/
def XRootDStatus.IsFatal (st : XRootDStatus) : Bool := st.status == stFatal

/-! ## Messages, addresses, urls -/

/-- Modelled from the spec: a `Message` is an opaque payload (`id` stands for its
identity) with a mutable session tag; `hdrStatus`, `resptype`, `dlen` and `fhandle`
are the fields of a response the stream inspects (header status, body-level response
type, body length, and the file handle at the start of the body). -/
structure Message where
  id : Nat
  sessionId : Nat := 0
  hdrStatus : Nat := 0
  resptype : Nat := 0
  dlen : Nat := 0
  fhandle : Nat := 0
deriving DecidableEq, Repr

/-- The accessor `Message::GetSessionId`. -/
def Message.GetSessionId (m : Message) : Nat := m.sessionId

/-- Modelled from the spec: a resolved network address (`XrdNetAddr` is absent); two
addresses are the same when they are equal. -/
abbrev XrdNetAddr := Nat

/-- Modelled from the spec: an endpoint descriptor; `valid` is what `URL::IsValid`
answers. -/
structure URL where
  host : Nat
  valid : Bool := true
deriving DecidableEq, Repr

/-- The method `URL::IsValid`. -/
def URL.IsValid (u : URL) : Bool := u.valid

/-- Modelled from the spec: the address families of `Utils::AddressType`. -/
inductive AddressType where
  | IPv4
  | IPv6
  | IPAll
  | IPAuto
deriving DecidableEq, Repr

/-- Modelled from the spec: a `PathID` is the pair `(up, down)` of substream indices. -/
structure PathID where
  up : Nat
  down : Nat
deriving DecidableEq, Repr

/-- The three socket states of `Socket::SocketStatus`. -/
inductive SocketStatus where
  | Disconnected
  | Connecting
  | Connected
deriving DecidableEq, Repr

/-! ## Out-queues -/

/-- The record `OutQueue::MsgHelper`: a message (null pointer = `none`), its
handler (null pointer = `0`), its expiry and its stateful flag. -/
structure MsgHelper where
  msg : Option Message := none
  handler : Nat := 0
  expires : Int := 0
  stateful : Bool := false
deriving DecidableEq, Repr

/-- The method `MsgHelper::Reset`. -/
def MsgHelper.Reset (_h : MsgHelper) : MsgHelper := {}

/-- The record `InMessageHelper` of the source. -/
structure InMessageHelper where
  msg : Option Message := none
  handler : Nat := 0
  expires : Int := 0
  action : Nat := 0
deriving DecidableEq, Repr

/-- The method `InMessageHelper::Reset`. -/
def InMessageHelper.Reset (_h : InMessageHelper) : InMessageHelper := {}

/-- Kinds of stream event passed to `IncomingQueue::ReportStreamEvent` and to the
channel event handlers. -/
inductive StreamEvent where
  | Broken
  | FatalError
deriving DecidableEq, Repr

/-- The observable calls a stream makes on its collaborators. -/
inductive Event where
  | SetAddress (sub : Nat) (addr : XrdNetAddr)
  | Connect (sub : Nat) (window : Nat)
  | EnableUplink (sub : Nat)
  | DisableUplink (sub : Nat)
  | Close (sub : Nat)
  | GetHostAddresses (url : URL)
  | OnStatusReady (handler : Nat) (msg : Option Message) (st : XRootDStatus)
  | ReportStreamEvent (ev : StreamEvent) (st : XRootDStatus)
  | ChannelEvent (ev : StreamEvent) (st : XRootDStatus)
  | RegisterTask (time : Int)
  | NotifyConnErrHandler (url : URL) (st : XRootDStatus)
  | MonitorDisconnection (st : XRootDStatus)
  | RemoveMessageHandler (handler : Nat)
  | ReAddMessageHandler (handler : Nat) (expires : Int)
  | PartialReceived (handler : Nat)
  | AddMessageHandler (handler : Nat)
  | OnReadyToSend (handler : Nat) (msg : Option Message)
  | AssignTimeout (handler : Nat)
  | MessageSent (sub : Nat) (msg : Message) (bytes : Nat)
  | MessageReceived (sub : Nat) (msg : Message)
  | SendClose (fhandle : Nat) (sessionId : Nat)
  | QueueJob (handler : Nat)
  | QueueDataConnJob
  | ReportTimeout (now : Int)
  | ForceDisconnect (url : URL)
  | MonitorConnect (streams : Nat)
  | NotifyConnectHandler (url : URL)
deriving DecidableEq, Repr

/-- Modelled from the spec: an `OutQueue` is an ordered sequence of
`(msg, handler, expires, stateful)` entries, front first (`XrdClOutQueue.hh` is
absent). -/
abbrev OutQueue := List MsgHelper

namespace OutQueue

/-- Modelled from the spec: `PushBack` appends an entry at the back. -/
def PushBack (q : OutQueue) (msg : Message) (handler : Nat) (expires : Int)
    (stateful : Bool) : OutQueue :=
  q ++ [{ msg := some msg, handler := handler, expires := expires, stateful := stateful }]

/-- Modelled from the spec: `PushFront` re-queues an entry at the front. -/
def PushFront (q : OutQueue) (msg : Option Message) (handler : Nat) (expires : Int)
    (stateful : Bool) : OutQueue :=
  { msg := msg, handler := handler, expires := expires, stateful := stateful } :: q

/-- Modelled from the spec: `IsEmpty`. -/
def IsEmpty (q : OutQueue) : Bool := q.isEmpty

/-- Modelled from the spec: `GetSize`, the number of entries. -/
def GetSize (q : OutQueue) : Nat := q.length

/-- Modelled from the spec: `GetSizeStateless`, the number of stateless entries. -/
def GetSizeStateless (q : OutQueue) : Nat := (q.filter (fun e => !e.stateful)).length

/-- Modelled from the spec: `q.GrabItems(other)` moves all entries of `other` to the
back of `q`; the result is the new `q` and the new `other`. -/
def GrabItems (q other : OutQueue) : OutQueue × OutQueue := (q ++ other, [])

/-- Modelled from the spec: `q.GrabStateful(other)` moves only the stateful entries
of `other` to the back of `q`. -/
def GrabStateful (q other : OutQueue) : OutQueue × OutQueue :=
  (q ++ other.filter (fun e => e.stateful), other.filter (fun e => !e.stateful))

/-- Modelled from the spec: `q.GrabExpired(other, now)` moves the entries of `other`
whose `expires ≤ now` to the back of `q`. -/
def GrabExpired (now : Int) (q other : OutQueue) : OutQueue × OutQueue :=
  (q ++ other.filter (fun e => decide (e.expires ≤ now)),
   other.filter (fun e => !decide (e.expires ≤ now)))

/-- Modelled from the spec: `Report(status)` iterates over the queue, front first,
invoking each entry's handler failure callback with `status`. -/
def Report (q : OutQueue) (status : XRootDStatus) : List Event :=
  q.map (fun e => Event.OnStatusReady e.handler e.msg status)

end OutQueue

/-! ## The stream -/

/-- The record `SubStreamData`: the socket (its address; its calls are in the trace),
the out-queue, the two in-flight slots and the connection status. -/
structure SubStreamData where
  socketAddress : Option XrdNetAddr := none
  outQueue : OutQueue := []
  outMsgHelper : MsgHelper := {}
  inMsgHelper : InMessageHelper := {}
  status : SocketStatus := SocketStatus.Disconnected
deriving DecidableEq, Repr

/-- The member variables of `Stream`, and the trace of its calls on collaborators. -/
structure Stream where
  pUrl : URL
  pPrefer : URL := { host := 0, valid := false }
  pSubStreams : List SubStreamData := []
  pAddresses : List XrdNetAddr := []
  pAddressType : AddressType := AddressType.IPAll
  pLastStreamError : Int := 0
  pLastFatalError : XRootDStatus := {}
  pConnectionCount : Nat := 0
  pConnectionRetry : Nat := 0
  pConnectionInitTime : Int := 0
  pConnectionWindow : Nat := 0
  pStreamErrorWindow : Nat := 0
  pSessionId : Nat := 0
  pBytesSent : Nat := 0
  pBytesReceived : Nat := 0
  pConnectionStarted : Int := 0
  pConnectionDone : Int := 0
  pOnDataConnJob : Bool := false
  trace : List Event := []
deriving DecidableEq, Repr

/-- The collaborators of a stream, as oracles.  `MultiplexSubStream` is the transport's
first path choice; `MultiplexSubStreamHint` is the value the hint holds after the
finalising call; `GetHostAddresses` gives the status and the vector the resolver
leaves behind; `Connect` and `EnableUplink` give the status of the socket call on a
substream.  `SubStreamNumber`, `MessageReceived` (the action mask for a message on a
substream), `IsStreamTTLElapsed` and `IsStreamBroken` are the transport's answers;
`GetLastActivity` is a socket's; `GetHandlerForMessage` gives the handler the incoming
queue finds and the values it leaves in the expiry and action arguments;
`InspectStatusRsp` is a handler's answer; `SendMessage` is the status of posting a
request through the post master. -/
structure Env where
  now : Int := 0
  MultiplexSubStream : Message → PathID := fun _ => { up := 0, down := 0 }
  MultiplexSubStreamHint : Message → PathID → PathID := fun _ p => p
  GetHostAddresses : URL → AddressType → XRootDStatus × List XrdNetAddr :=
    fun _ _ => ({}, [])
  Connect : Nat → XrdNetAddr → XRootDStatus := fun _ _ => {}
  EnableUplink : Nat → XRootDStatus := fun _ => {}
  isXRootDMsgHandler : Nat → Bool := fun _ => true
  SubStreamNumber : Nat := 1
  MessageReceived : Message → Nat → Nat := fun _ _ => 0
  SendMessage : Message → XRootDStatus := fun _ => {}
  IsStreamTTLElapsed : Int → Bool := fun _ => false
  IsStreamBroken : Int → XRootDStatus := fun _ => {}
  GetLastActivity : Nat → Int := fun _ => 0
  GetHandlerForMessage : Message → Int → Nat → Nat × Int × Nat := fun _ e a => (0, e, a)
  InspectStatusRsp : Nat → Nat := fun _ => 0

/-- Append calls to the trace. -/
def Stream.emit (s : Stream) (evs : List Event) : Stream :=
  { s with trace := s.trace ++ evs }

/-- Overwrite substream `i` (an assignment through `pSubStreams[i]->`). -/
def Stream.setSub (s : Stream) (i : Nat) (d : SubStreamData) : Stream :=
  { s with pSubStreams := s.pSubStreams.set i d }

/-- The out-queues of all substreams, in substream order. -/
def Stream.outQueues (s : Stream) : List OutQueue :=
  s.pSubStreams.map (fun d => d.outQueue)

/-- Modelled from the spec: `HasNetAddr(addr, addresses)` (declared in the absent
`XrdClStream.hh`): whether `addr` is the same as one of `addresses`. -/
def HasNetAddr (addr : XrdNetAddr) (addresses : List XrdNetAddr) : Bool :=
  addresses.any (fun a => a == addr)

/-- Lines 232-238 of `EnableLink`: stamp `pConnectionStarted`, bump `pConnectionCount`
and resolve `pUrl` into `pAddresses`; the status is the resolver's. -/
def EnableLink.resolve (env : Env) (s : Stream) : XRootDStatus × Stream :=
  let r := env.GetHostAddresses s.pUrl s.pAddressType
  (r.1, ({ s with pConnectionStarted := env.now,
                  pConnectionCount := s.pConnectionCount + 1,
                  pAddresses := r.2 }).emit [Event.GetHostAddresses s.pUrl])

/-- Lines 249-274 of `EnableLink`: the optional re-ordering of `pAddresses` by the
preferred url. -/
def EnableLink.prefer (env : Env) (s : Stream) : Stream :=
  if s.pPrefer.IsValid then
    let r := env.GetHostAddresses s.pPrefer s.pAddressType
    if !r.1.IsOK then
      s.emit [Event.GetHostAddresses s.pPrefer]
    else
      ({ s with pAddresses := (s.pAddresses.filter (fun a => !HasNetAddr a r.2)) ++ r.2 }).emit
        [Event.GetHostAddresses s.pPrefer]
  else
    s

/-- One round of the connect loops: take `addr`, the back of `pAddresses` (of which
`rest` is what `pop_back` leaves, back first), set it on socket 0, stamp
`pConnectionInitTime` and call `Connect`. -/
def connectStep (env : Env) (s : Stream) (addr : XrdNetAddr) (rest : List XrdNetAddr) :
    Option (XRootDStatus × Stream) :=
  match s.pSubStreams[0]? with
  | none => none
  | some d0 =>
    let s1 := s.setSub 0 { d0 with socketAddress := some addr }
    let s2 := { s1 with pAddresses := rest.reverse, pConnectionInitTime := env.now }
    some (env.Connect 0 addr,
      s2.emit [Event.SetAddress 0 addr, Event.Connect 0 s.pConnectionWindow])

/-- Lines 279-290 of `EnableLink`: `while( !pAddresses.empty() )`.  The list argument
is `pAddresses` back first, so that the loop is a structural recursion; `st` is the
status held before the round. -/
def connectLoop (env : Env) : XRootDStatus → Stream → List XrdNetAddr →
    Option (XRootDStatus × Stream)
  | st, s, [] => some (st, s)
  | _, s, addr :: rest =>
    match connectStep env s addr rest with
    | none => none
    | some (st1, s1) =>
      if st1.IsOK then
        match s1.pSubStreams[0]? with
        | none => none
        | some d0 => some (st1, s1.setSub 0 { d0 with status := SocketStatus.Connecting })
      else
        connectLoop env st1 s1 rest

/-- Lines 206-218 of `EnableLink`: substream 0 is connected; fall back to substream 0
for a `down` that is not connected and for an `up` that is disconnected, and enable
the uplink. -/
def EnableLink.uplink (env : Env) (s : Stream) (path : PathID) :
    Option (XRootDStatus × Stream × PathID) :=
  match s.pSubStreams[path.down]? with
  | none => none
  | some dDown =>
    let path1 : PathID :=
      if dDown.status ≠ SocketStatus.Connected then { path with down := 0 } else path
    match s.pSubStreams[path1.up]? with
    | none => none
    | some dUp =>
      if dUp.status = SocketStatus.Disconnected then
        some (env.EnableUplink 0, s.emit [Event.EnableUplink 0], { path1 with up := 0 })
      else if dUp.status = SocketStatus.Connected then
        some (env.EnableUplink path1.up, s.emit [Event.EnableUplink path1.up], path1)
      else
        some ({}, s, path1)

/-- Lines 232-291 of `EnableLink`: resolve, re-order and try the addresses. -/
def EnableLink.connect (env : Env) (s : Stream) (path : PathID) :
    Option (XRootDStatus × Stream × PathID) :=
  let r := EnableLink.resolve env s
  if !r.1.IsOK then
    let st : XRootDStatus := { r.1 with status := stFatal }
    some (st, { r.2 with pLastStreamError := env.now, pLastFatalError := st }, path)
  else
    let s3 := EnableLink.prefer env r.2
    match connectLoop env r.1 s3 s3.pAddresses.reverse with
    | none => none
    | some (st, s4) => some (st, s4, path)

/-- The method `Stream::EnableLink( PathID &path )`: the status returned, the stream
afterwards and the path as left in the caller's variable. -/
def EnableLink (env : Env) (s : Stream) (path : PathID) :
    Option (XRootDStatus × Stream × PathID) :=
  match s.pSubStreams[0]? with
  | none => none
  | some d0 =>
    if d0.status = SocketStatus.Connecting then
      some ({}, s, path)
    else if d0.status = SocketStatus.Connected then
      EnableLink.uplink env s path
    else if env.now - s.pLastStreamError < (s.pStreamErrorWindow : Int) then
      some (s.pLastFatalError, s, path)
    else
      EnableLink.connect env s path

/-- Lines 316-323 of `Send`: the transport's path choice, with `up` set to 0 when it
is not the index of a substream. -/
def Send.path (env : Env) (s : Stream) (msg : Message) : PathID :=
  let path := env.MultiplexSubStream msg
  if s.pSubStreams.length ≤ path.up then { path with up := 0 } else path

/-- Lines 313-341 of `Send`: the path choice, `EnableLink` and the enqueueing. -/
def Send.enqueue (env : Env) (s : Stream) (msg : Message) (handler : Nat)
    (stateful : Bool) (expires : Int) : Option (XRootDStatus × Stream) :=
  match EnableLink env s (Send.path env s msg) with
  | none => none
  | some (st, s1, path2) =>
    if st.IsOK then
      let path3 := env.MultiplexSubStreamHint msg path2
      match s1.pSubStreams[path3.up]? with
      | none => none
      | some d =>
        some (st, s1.setSub path3.up
          { d with outQueue := d.outQueue.PushBack msg handler expires stateful })
    else
      some ({ st with status := stFatal }, s1)

/-- Lines 308-310 of `Send`: whether the session check bounces the message; substream
0 is only looked at when the message carries a session id. -/
def Send.bounce (s : Stream) (msg : Message) : Option Bool :=
  if msg.GetSessionId ≠ 0 then
    match s.pSubStreams[0]? with
    | none => none
    | some d0 =>
      some (decide (d0.status ≠ SocketStatus.Connected) ||
            decide (s.pSessionId ≠ msg.GetSessionId))
  else
    some false

/-- The method `Stream::Send( msg, handler, stateful, expires )`. -/
def Send (env : Env) (s : Stream) (msg : Message) (handler : Nat)
    (stateful : Bool) (expires : Int) : Option (XRootDStatus × Stream) :=
  match Send.bounce s msg with
  | none => none
  | some true => some ({ status := stError, code := errInvalidSession }, s)
  | some false => Send.enqueue env s msg handler stateful expires

/-- The loop `for( it = pSubStreams.begin(); it != pSubStreams.end(); ++it )
q.Grab...( *(*it)->outQueue )` over all substreams, for one of the `Grab` methods:
the scratch queue at the end and the substreams with what was left to them. -/
def grabLoop (grab : OutQueue → OutQueue → OutQueue × OutQueue) :
    OutQueue → List SubStreamData → OutQueue × List SubStreamData
  | q, [] => (q, [])
  | q, d :: rest =>
    let g := grab q d.outQueue
    let r := grabLoop grab g.1 rest
    (r.1, { d with outQueue := g.2 } :: r.2)

/-- The method `Stream::OnFatalError( subStream, status, lock )`. -/
def OnFatalError (env : Env) (s : Stream) (subStream : Nat) (status : XRootDStatus) :
    Option Stream :=
  match s.pSubStreams[subStream]? with
  | none => none
  | some d =>
    let s1 := s.setSub subStream { d with status := SocketStatus.Disconnected }
    let s2 : Stream :=
      if status.code ≠ errAuthFailed then
        { s1 with pConnectionCount := 0, pLastStreamError := env.now,
                  pLastFatalError := status }
      else s1
    let g := grabLoop OutQueue.GrabItems [] s2.pSubStreams
    let s3 := { s2 with pSubStreams := g.2 }
    let status1 : XRootDStatus := { status with status := stFatal }
    some (s3.emit (g.1.Report status1 ++
      [Event.ReportStreamEvent StreamEvent.FatalError status1,
       Event.ChannelEvent StreamEvent.FatalError status1]))

/-- Lines 832-860 of `OnError`: close the socket, mark the substream disconnected,
put the in-flight outbound message back at the front of the out-queue and hand the
in-flight inbound handler back to the incoming queue. -/
def OnError.recover (env : Env) (s : Stream) (subStream : Nat) : Option Stream :=
  match s.pSubStreams[subStream]? with
  | none => none
  | some d =>
    let d1 := { d with status := SocketStatus.Disconnected }
    let h := d1.outMsgHelper
    let r2 : SubStreamData × List Event :=
      if h.msg.isSome then
        ({ d1 with outQueue := d1.outQueue.PushFront h.msg h.handler h.expires h.stateful,
                   outMsgHelper := h.Reset },
         [Event.RemoveMessageHandler h.handler])
      else (d1, [])
    let hin := r2.1.inMsgHelper
    let r3 : SubStreamData × List Event :=
      if hin.handler ≠ 0 then
        ({ r2.1 with inMsgHelper := hin.Reset },
         Event.ReAddMessageHandler hin.handler hin.expires ::
           (if env.isXRootDMsgHandler hin.handler then [Event.PartialReceived hin.handler]
            else []))
      else (r2.1, [])
    some ((s.setSub subStream r3.1).emit (Event.Close subStream :: (r2.2 ++ r3.2)))

/-- Lines 916-926 of `OnError`: drain the stateful entries of every substream into a
scratch queue and report the broken status on it, to the incoming queue and to the
channel event handlers. -/
def OnError.report (s : Stream) (status : XRootDStatus) : Stream :=
  let g := grabLoop OutQueue.GrabStateful [] s.pSubStreams
  ({ s with pSubStreams := g.2 }).emit (g.1.Report status ++
    [Event.ReportStreamEvent StreamEvent.Broken status,
     Event.ChannelEvent StreamEvent.Broken status])

/-- Lines 896-899 of `OnError`: the number of stateless entries over all out-queues. -/
def outstanding (s : Stream) : Nat :=
  s.pSubStreams.foldl (fun n d => n + d.outQueue.GetSizeStateless) 0

/-- The method `Stream::OnError( subStream, status )`. -/
def OnError (env : Env) (s : Stream) (subStream : Nat) (status : XRootDStatus) :
    Option Stream :=
  match OnError.recover env s subStream with
  | none => none
  | some s1 =>
    if subStream > 0 then
      match s1.pSubStreams[subStream]?, s1.pSubStreams[0]? with
      | some d, some d0 =>
        if d.outQueue.IsEmpty then some s1
        else if d0.status ≠ SocketStatus.Disconnected then
          let g := OutQueue.GrabItems d0.outQueue d.outQueue
          let s2 := (s1.setSub 0 { d0 with outQueue := g.1 }).setSub subStream
            { d with outQueue := g.2 }
          if d0.status = SocketStatus.Connected then
            let st := env.EnableUplink 0
            let s3 := s2.emit [Event.EnableUplink 0]
            if !st.IsOK then OnFatalError env s3 0 st else some s3
          else OnFatalError env s2 subStream status
        else OnFatalError env s1 subStream status
      | _, _ => none
    else
      let s2 := s1.emit [Event.MonitorDisconnection status]
      if outstanding s2 ≠ 0 then
        match EnableLink env s2 { up := 0, down := 0 } with
        | none => none
        | some (st, s3, _) =>
          if !st.IsOK then OnFatalError env s3 0 st
          else some (OnError.report s3 status)
      else some (OnError.report s2 status)

/-- Lines 776-783 of `OnConnectError`: `do ... while( !pAddresses.empty() && !st.IsOK() )`.
The list argument is `pAddresses` back first; the caller has checked that it is not
empty (on the empty list the status is the default-constructed `st`). -/
def OnConnectError.retry (env : Env) : Stream → List XrdNetAddr →
    Option (XRootDStatus × Stream)
  | s, [] => some ({}, s)
  | s, addr :: rest =>
    match connectStep env s addr rest with
    | none => none
    | some (st, s1) =>
      if !rest.isEmpty && !st.IsOK then OnConnectError.retry env s1 rest
      else some (st, s1)

/-- The method `Stream::OnConnectError( subStream, status )`. -/
def OnConnectError (env : Env) (s : Stream) (subStream : Nat) (status : XRootDStatus) :
    Option Stream :=
  match s.pSubStreams[subStream]? with
  | none => none
  | some d =>
    let s1 := s.emit [Event.Close subStream, Event.NotifyConnErrHandler s.pUrl status]
    if subStream > 0 then
      match s1.pSubStreams[0]? with
      | none => none
      | some d0 =>
        let g := OutQueue.GrabItems d0.outQueue d.outQueue
        let s2 := (s1.setSub subStream
          { d with status := SocketStatus.Disconnected, outQueue := g.2 }).setSub 0
          { d0 with outQueue := g.1 }
        if d0.status = SocketStatus.Connected then
          let st := env.EnableUplink 0
          let s3 := s2.emit [Event.EnableUplink 0]
          if !st.IsOK then OnFatalError env s3 0 st else some s3
        else if d0.status = SocketStatus.Connecting then some s2
        else OnFatalError env s2 subStream status
    else
      let elapsed : Int := env.now - s1.pConnectionInitTime
      if !s1.pAddresses.isEmpty then
        match OnConnectError.retry env s1 s1.pAddresses.reverse with
        | none => none
        | some (st, s2) =>
          if !st.IsOK then OnFatalError env s2 subStream st else some s2
      else if elapsed < (s1.pConnectionWindow : Int) ∧
          s1.pConnectionCount < s1.pConnectionRetry ∧ !status.IsFatal then
        some (s1.emit [Event.RegisterTask (s1.pConnectionInitTime + s1.pConnectionWindow)])
      else if s1.pConnectionCount < s1.pConnectionRetry ∧ !status.IsFatal then
        let s2 := ({ s1 with pAddresses := [] }).setSub 0
          { d with status := SocketStatus.Disconnected }
        match EnableLink env s2 { up := 0, down := 0 } with
        | none => none
        | some (st, s3, _) =>
          if !st.IsOK then OnFatalError env s3 subStream st else some s3
      else OnFatalError env s1 subStream status

/-! ## Protocol constants -/

/-- Modelled from the spec: the response header status `kXR_oksofar` (`XProtocol.hh`
is absent). -/
def kXR_oksofar : Nat := 4000

/-- Modelled from the spec: the response header status `kXR_status`. -/
def kXR_status : Nat := 4007

/-- Modelled from the spec: the body-level response type `XrdProto::kXR_PartialResult`. -/
def kXR_PartialResult : Nat := 1

/-- Modelled from the spec: the bit `TransportHandler::DigestMsg` of the transport's
action mask (`XrdClPostMasterInterfaces.hh` is absent). -/
def TransportHandler.DigestMsg : Nat := 1

/-- Modelled from the spec: the bit `TransportHandler::RequestClose` of the transport's
action mask. -/
def TransportHandler.RequestClose : Nat := 32

/-- Modelled from the spec: the bit `MsgHandler::Ignore` of a handler's action. -/
def MsgHandler.Ignore : Nat := 1

/-- Modelled from the spec: the bit `MsgHandler::RemoveHandler` of a handler's action. -/
def MsgHandler.RemoveHandler : Nat := 2

/-- Modelled from the spec: the bit `MsgHandler::Raw` of a handler's action. -/
def MsgHandler.Raw : Nat := 4

/-- Modelled from the spec: the bit `MsgHandler::NoProcess` of a handler's action. -/
def MsgHandler.NoProcess : Nat := 8

/-- Modelled from the spec: the bit `MsgHandler::Corrupted` of a handler's action. -/
def MsgHandler.Corrupted : Nat := 16

/-- Modelled from the spec: the bit `MsgHandler::More` of a handler's action. -/
def MsgHandler.More : Nat := 32

/-- Modelled from the spec: the action `MsgHandler::None`. -/
def MsgHandler.None : Nat := 0

/-! ## Timed expiry -/

/-- The method `Stream::Tick( now )`. -/
def Tick (s : Stream) (now : Int) : Stream :=
  let g := grabLoop (OutQueue.GrabExpired now) [] s.pSubStreams
  ({ s with pSubStreams := g.2 }).emit
    (g.1.Report { status := stError, code := errOperationExpired } ++
      [Event.ReportTimeout now])

/-! ## Incoming messages -/

/-- The method `Stream::IsPartial( msg )`. -/
def IsPartial (msg : Message) : Bool :=
  if msg.hdrStatus = kXR_oksofar then true
  else if msg.hdrStatus = kXR_status then
    if msg.resptype = kXR_PartialResult then true else false
  else false

/-- The method `Stream::RequestClose( response )`: the status returned and the request
posted, a `kXR_close` on the file handle of the response, stamped with the session. -/
def RequestClose (env : Env) (s : Stream) (response : Message) :
    XRootDStatus × List Event :=
  if response.dlen < 4 then ({ status := stError }, [])
  else (env.SendMessage response, [Event.SendClose response.fhandle s.pSessionId])

/-- Lines 501-538 of `OnIncoming`: what is done with the handler and the action taken
from the in-slot. -/
def OnIncoming.dispatch (env : Env) (s : Stream) (msg : Message) (handler action : Nat) :
    Stream :=
  if handler = 0 then s
  else if action &&& (MsgHandler.NoProcess ||| MsgHandler.Ignore) ≠ 0 then
    if IsPartial msg then
      if env.isXRootDMsgHandler handler then s.emit [Event.PartialReceived handler] else s
    else s
  else s.emit [Event.QueueJob handler]

/-- The method `Stream::OnIncoming( subStream, msg, bytesReceived )`: the stream and the
message after the call. -/
def OnIncoming (env : Env) (s : Stream) (subStream : Nat) (msg : Message)
    (bytesReceived : Nat) : Option (Stream × Message) :=
  let msg1 : Message := { msg with sessionId := s.pSessionId }
  let s1 : Stream := { s with pBytesReceived := s.pBytesReceived + bytesReceived }
  match s1.pSubStreams[subStream]? with
  | none => none
  | some d =>
    let handler := d.inMsgHelper.handler
    let action := d.inMsgHelper.action
    let s2 := s1.setSub subStream { d with inMsgHelper := d.inMsgHelper.Reset }
    if !IsPartial msg1 then
      let streamAction := env.MessageReceived msg1 subStream
      let s3 := s2.emit [Event.MessageReceived subStream msg1]
      if streamAction &&& TransportHandler.DigestMsg ≠ 0 then some (s3, msg1)
      else if streamAction &&& TransportHandler.RequestClose ≠ 0 then
        some (s3.emit (RequestClose env s3 msg1).2, msg1)
      else some (OnIncoming.dispatch env s3 msg1 handler action, msg1)
    else some (OnIncoming.dispatch env s2 msg1 handler action, msg1)

/-! ## Idle time-out -/

/-- Lines 1071-1077 of `OnReadTimeout`: the latest `GetLastActivity` over the sockets
of the substreams from index `i` on, starting from `lastActivity`. -/
def lastActivityLoop (env : Env) : Nat → Int → List SubStreamData → Int
  | _, lastActivity, [] => lastActivity
  | i, lastActivity, _ :: rest =>
    lastActivityLoop env (i + 1)
      (if lastActivity < env.GetLastActivity i then env.GetLastActivity i else lastActivity)
      rest

/-- Lines 1069-1073 of `OnReadTimeout`: the 32-bit count of queued messages. -/
def outgoingMessages (s : Stream) : Nat :=
  s.pSubStreams.foldl (fun n d => (n + d.outQueue.GetSize) % 2 ^ 32) 0

/-- The method `Stream::OnReadTimeout( substream )`: the value returned and the stream
afterwards. -/
def OnReadTimeout (env : Env) (s : Stream) (substream : Nat) : Option (Bool × Stream) :=
  if substream ≠ 0 then some (true, s)
  else
    let lastActivity := lastActivityLoop env 0 0 s.pSubStreams
    if outgoingMessages s = 0 ∧ env.IsStreamTTLElapsed (env.now - lastActivity) = true then
      some (false, s.emit [Event.ForceDisconnect s.pUrl])
    else
      let st := env.IsStreamBroken (env.now - lastActivity)
      if !st.IsOK then
        match OnError env s substream st with
        | none => none
        | some s1 => some (false, s1)
      else some (true, s)

/-! ## Connection completion -/

/-- Lines 665-678 of `OnConnect`: the loop over the extra substreams, from index `i`
on.  Every extra gets the address of socket 0 (`addr`; a socket whose address was
never set holds the default address, written 0) and is connected; on failure its
queued items go to out-queue 0 (`q0`) and its socket is closed, on success it is
`Connecting`.  The result is out-queue 0, the extras and the calls made. -/
def OnConnect.extras (env : Env) (window : Nat) (addr : Option XrdNetAddr) :
    Nat → OutQueue → List SubStreamData → OutQueue × List SubStreamData × List Event
  | _, q0, [] => (q0, [], [])
  | i, q0, d :: rest =>
    let d1 : SubStreamData := { d with socketAddress := addr }
    let st := env.Connect i (addr.getD 0)
    if !st.IsOK then
      let g := OutQueue.GrabItems q0 d1.outQueue
      let r := OnConnect.extras env window addr (i + 1) g.1 rest
      (r.1, { d1 with outQueue := g.2 } :: r.2.1,
        [Event.SetAddress i (addr.getD 0), Event.Connect i window, Event.Close i] ++ r.2.2)
    else
      let r := OnConnect.extras env window addr (i + 1) q0 rest
      (r.1, { d1 with status := SocketStatus.Connecting } :: r.2.1,
        [Event.SetAddress i (addr.getD 0), Event.Connect i window] ++ r.2.2)

/-- Lines 635-715 of `OnConnect`: the completion of substream 0.  `sSessCntGen` is the
process-wide 64-bit session counter before the call; the result is the stream and the
counter afterwards.  (On a stream with substream 0 only, the loop over the extras does
nothing, as in the source, where it is skipped.) -/
def OnConnect.main (env : Env) (sSessCntGen : Nat) (s : Stream) : Option (Stream × Nat) :=
  let numSub := env.SubStreamNumber % 2 ^ 16
  let cnt := (sSessCntGen + 1) % 2 ^ 64
  let s2 : Stream :=
    { s with pLastStreamError := 0, pLastFatalError := {}, pConnectionCount := 0,
             pSessionId := cnt }
  let s3 : Stream :=
    if s2.pSubStreams.length = 1 ∧ numSub > 1 then
      { s2 with pSubStreams := s2.pSubStreams ++ List.replicate (numSub - 1) {} }
    else s2
  match s3.pSubStreams with
  | [] => none
  | d0 :: rest =>
    let r := OnConnect.extras env s3.pConnectionWindow d0.socketAddress 1 d0.outQueue rest
    let s4 : Stream :=
      { s3 with pSubStreams := { d0 with outQueue := r.1 } :: r.2.1,
                pBytesSent := 0, pBytesReceived := 0, pConnectionDone := env.now }
    some (s4.emit (r.2.2 ++ [Event.MonitorConnect s4.pSubStreams.length,
      Event.NotifyConnectHandler s4.pUrl]), cnt)

/-- The method `Stream::OnConnect( subStream )`, with the session counter threaded
through. -/
def OnConnect (env : Env) (sSessCntGen : Nat) (s : Stream) (subStream : Nat) :
    Option (Stream × Nat) :=
  match s.pSubStreams[subStream]? with
  | none => none
  | some d =>
    let s1 := s.setSub subStream { d with status := SocketStatus.Connected }
    if subStream = 0 then OnConnect.main env sSessCntGen s1
    else if s1.pOnDataConnJob then some (s1.emit [Event.QueueDataConnJob], sSessCntGen)
    else some (s1, sSessCntGen)

/-! ## The remaining operations -/

/-- The method `Stream::Initialize`; `attached` tells whether the transport, the poller
and the channel data have been set.  The new substream goes to the back, and the new
socket becomes the socket of substream 0. -/
def Initialize (attached : Bool) (s : Stream) : Option (XRootDStatus × Stream) :=
  if !attached then some ({ status := stError, code := errUninitialized }, s)
  else
    let subs := s.pSubStreams ++ [{}]
    match subs[0]? with
    | none => none
    | some d0 =>
      some ({}, { s with pSubStreams := subs.set 0 { d0 with socketAddress := none } })

/-- The method `Stream::ForceConnect`. -/
def ForceConnect (env : Env) (s : Stream) : Option Stream :=
  match s.pSubStreams[0]? with
  | none => none
  | some d0 =>
    if d0.status = SocketStatus.Connecting then
      let s1 := s.setSub 0 { d0 with status := SocketStatus.Disconnected }
      match EnableLink env s1 { up := 0, down := 0 } with
      | none => none
      | some (st, s2, _) =>
        if !st.IsOK then OnConnectError env s2 0 st else some s2
    else some s

/-- The method `Stream::Disconnect`. -/
def Disconnect (s : Stream) : Stream :=
  ({ s with pSubStreams := (s.pSubStreams.map
      (fun d : SubStreamData => { d with status := SocketStatus.Disconnected })) }).emit
    ((List.range s.pSubStreams.length).map Event.Close)

/-- Modelled from the spec: `PopMessage` takes the front entry off the queue and hands
out its message, handler, expiry and stateful flag; on an empty queue it hands out a
null message and leaves the other three as they are. -/
def OutQueue.PopMessage (q : OutQueue) (h : MsgHelper) : MsgHelper × OutQueue :=
  match q with
  | [] => ({ h with msg := none }, [])
  | e :: rest => (e, rest)

/-- The method `Stream::OnReadyToWrite( subStream )`: the pair returned and the stream
afterwards. -/
def OnReadyToWrite (s : Stream) (subStream : Nat) :
    Option ((Option Message × Nat) × Stream) :=
  match s.pSubStreams[subStream]? with
  | none => none
  | some d =>
    if d.outQueue.IsEmpty then
      some ((none, 0), s.emit [Event.DisableUplink subStream])
    else
      let r := d.outQueue.PopMessage d.outMsgHelper
      let s1 := s.setSub subStream { d with outQueue := r.2, outMsgHelper := r.1 }
      let evs : List Event :=
        if r.1.handler ≠ 0 then
          [Event.AddMessageHandler r.1.handler, Event.OnReadyToSend r.1.handler r.1.msg]
        else []
      some ((r.1.msg, r.1.handler), s1.emit evs)

/-- The method `Stream::DisableIfEmpty( subStream )`. -/
def DisableIfEmpty (s : Stream) (subStream : Nat) : Option Stream :=
  match s.pSubStreams[subStream]? with
  | none => none
  | some d =>
    if d.outQueue.IsEmpty then some (s.emit [Event.DisableUplink subStream]) else some s

/-- The method `Stream::OnMessageSent( subStream, msg, bytesSent )`. -/
def OnMessageSent (s : Stream) (subStream : Nat) (msg : Message) (bytesSent : Nat) :
    Option Stream :=
  match s.pSubStreams[subStream]? with
  | none => none
  | some d =>
    let h := d.outMsgHelper
    let s1 : Stream :=
      { (s.emit [Event.MessageSent subStream msg bytesSent]) with
        pBytesSent := s.pBytesSent + bytesSent }
    let s2 : Stream :=
      if h.handler ≠ 0 then
        s1.emit [Event.AssignTimeout h.handler, Event.OnStatusReady h.handler (some msg) {}]
      else s1
    some (s2.setSub subStream { d with outMsgHelper := h.Reset })

/-- Lines 939-969 of `ForceError`: what is done to substream `i`. -/
def ForceError.rescue (env : Env) (i : Nat) (d : SubStreamData) :
    SubStreamData × List Event :=
  if d.status ≠ SocketStatus.Connected then (d, [])
  else
    let d1 := { d with status := SocketStatus.Disconnected }
    let h := d1.outMsgHelper
    let r2 : SubStreamData × List Event :=
      if h.msg.isSome then
        ({ d1 with outQueue := d1.outQueue.PushFront h.msg h.handler h.expires h.stateful,
                   outMsgHelper := h.Reset },
         [Event.RemoveMessageHandler h.handler])
      else (d1, [])
    let hin := r2.1.inMsgHelper
    let r3 : SubStreamData × List Event :=
      if hin.handler ≠ 0 then
        ({ r2.1 with inMsgHelper := hin.Reset },
         Event.ReAddMessageHandler hin.handler hin.expires ::
           (if env.isXRootDMsgHandler hin.handler then [Event.PartialReceived hin.handler]
            else []))
      else (r2.1, [])
    (r3.1, Event.Close i :: (r2.2 ++ r3.2))

/-- Lines 937-970 of `ForceError`: the loop over the substreams, from index `i` on. -/
def ForceError.loop (env : Env) : Nat → List SubStreamData →
    List SubStreamData × List Event
  | _, [] => ([], [])
  | i, d :: rest =>
    let r := ForceError.rescue env i d
    let rr := ForceError.loop env (i + 1) rest
    (r.1 :: rr.1, r.2 ++ rr.2)

/-- The method `Stream::ForceError( status, hush )`; `hush` only silences a log line. -/
def ForceError (env : Env) (s : Stream) (status : XRootDStatus) (_hush : Bool) : Stream :=
  let r := ForceError.loop env 0 s.pSubStreams
  let s1 := ({ s with pSubStreams := r.1, pConnectionCount := 0 }).emit r.2
  let g := grabLoop OutQueue.GrabItems [] s1.pSubStreams
  ({ s1 with pSubStreams := g.2 }).emit (g.1.Report status ++
    [Event.ReportStreamEvent StreamEvent.Broken status,
     Event.ChannelEvent StreamEvent.Broken status])

/-- The method `Stream::OnWriteTimeout`. -/
def OnWriteTimeout (s : Stream) (_substream : Nat) : Bool × Stream := (true, s)

/-- The method `Stream::InstallIncHandler( msg, stream )`: the handler returned and the
stream afterwards. -/
def InstallIncHandler (env : Env) (s : Stream) (msg : Message) (stream : Nat) :
    Option (Nat × Stream) :=
  match s.pSubStreams[stream]? with
  | none => none
  | some d =>
    let mh := d.inMsgHelper
    let mh1 : InMessageHelper :=
      if mh.handler = 0 then
        let r := env.GetHandlerForMessage msg mh.expires mh.action
        { mh with handler := r.1, expires := r.2.1, action := r.2.2 }
      else mh
    let s1 := s.setSub stream { d with inMsgHelper := mh1 }
    if mh1.handler = 0 then some (0, s1)
    else if mh1.action &&& MsgHandler.Raw ≠ 0 then some (mh1.handler, s1)
    else some (0, s1)

/-- The method `Stream::InspectStatusRsp( stream, incHandler )`: the action returned,
the value of `incHandler` and the stream afterwards. -/
def InspectStatusRsp (env : Env) (s : Stream) (stream : Nat) (incHandler : Nat) :
    Option (Nat × Nat × Stream) :=
  match s.pSubStreams[stream]? with
  | none => none
  | some d =>
    let mh := d.inMsgHelper
    if mh.handler = 0 then some (MsgHandler.RemoveHandler, incHandler, s)
    else
      let action := env.InspectStatusRsp mh.handler
      let s1 := s.setSub stream
        { d with inMsgHelper := { mh with action := (mh.action ||| action) % 2 ^ 16 } }
      let s2 : Stream :=
        if action &&& MsgHandler.RemoveHandler ≠ 0 then
          s1.emit [Event.RemoveMessageHandler mh.handler]
        else s1
      if action &&& MsgHandler.Raw ≠ 0 then some (MsgHandler.Raw, mh.handler, s2)
      else if action &&& MsgHandler.Corrupted ≠ 0 then
        some (MsgHandler.Corrupted, incHandler, s2)
      else if action &&& MsgHandler.More ≠ 0 then some (MsgHandler.More, incHandler, s2)
      else some (MsgHandler.None, incHandler, s2)

/-! ## The stream as a state machine -/

/-- The calls that can be made on a stream: its public methods, the socket callbacks
and `OnFatalError`. -/
inductive Call where
  | Initialize (attached : Bool)
  | EnableLink (path : PathID)
  | Send (msg : Message) (handler : Nat) (stateful : Bool) (expires : Int)
  | ForceConnect
  | Disconnect
  | Tick (now : Int)
  | OnIncoming (subStream : Nat) (msg : Message) (bytesReceived : Nat)
  | OnReadyToWrite (subStream : Nat)
  | DisableIfEmpty (subStream : Nat)
  | OnMessageSent (subStream : Nat) (msg : Message) (bytesSent : Nat)
  | OnConnect (subStream : Nat)
  | OnConnectError (subStream : Nat) (status : XRootDStatus)
  | OnError (subStream : Nat) (status : XRootDStatus)
  | ForceError (status : XRootDStatus) (hush : Bool)
  | OnFatalError (subStream : Nat) (status : XRootDStatus)
  | OnReadTimeout (substream : Nat)
  | OnWriteTimeout (substream : Nat)
  | InstallIncHandler (msg : Message) (stream : Nat)
  | InspectStatusRsp (stream : Nat) (incHandler : Nat)
deriving DecidableEq, Repr

/-- One call on the stream: the session counter and the stream afterwards (the value a
call returns is dropped). -/
def step (env : Env) (sSessCntGen : Nat) (s : Stream) : Call → Option (Nat × Stream)
  | Call.Initialize attached => (Initialize attached s).map (fun r => (sSessCntGen, r.2))
  | Call.EnableLink path => (EnableLink env s path).map (fun r => (sSessCntGen, r.2.1))
  | Call.Send msg handler stateful expires =>
    (Send env s msg handler stateful expires).map (fun r => (sSessCntGen, r.2))
  | Call.ForceConnect => (ForceConnect env s).map (fun r => (sSessCntGen, r))
  | Call.Disconnect => some (sSessCntGen, Disconnect s)
  | Call.Tick now => some (sSessCntGen, Tick s now)
  | Call.OnIncoming subStream msg bytesReceived =>
    (OnIncoming env s subStream msg bytesReceived).map (fun r => (sSessCntGen, r.1))
  | Call.OnReadyToWrite subStream =>
    (OnReadyToWrite s subStream).map (fun r => (sSessCntGen, r.2))
  | Call.DisableIfEmpty subStream =>
    (DisableIfEmpty s subStream).map (fun r => (sSessCntGen, r))
  | Call.OnMessageSent subStream msg bytesSent =>
    (OnMessageSent s subStream msg bytesSent).map (fun r => (sSessCntGen, r))
  | Call.OnConnect subStream =>
    (OnConnect env sSessCntGen s subStream).map (fun r => (r.2, r.1))
  | Call.OnConnectError subStream status =>
    (OnConnectError env s subStream status).map (fun r => (sSessCntGen, r))
  | Call.OnError subStream status =>
    (OnError env s subStream status).map (fun r => (sSessCntGen, r))
  | Call.ForceError status hush => some (sSessCntGen, ForceError env s status hush)
  | Call.OnFatalError subStream status =>
    (OnFatalError env s subStream status).map (fun r => (sSessCntGen, r))
  | Call.OnReadTimeout substream =>
    (OnReadTimeout env s substream).map (fun r => (sSessCntGen, r.2))
  | Call.OnWriteTimeout substream => some (sSessCntGen, (OnWriteTimeout s substream).2)
  | Call.InstallIncHandler msg stream =>
    (InstallIncHandler env s msg stream).map (fun r => (sSessCntGen, r.2))
  | Call.InspectStatusRsp stream incHandler =>
    (InspectStatusRsp env s stream incHandler).map (fun r => (sSessCntGen, r.2.2))

/-! ## Closed forms and example states -/

/-- The addresses a connect loop goes through, given `pAddresses` back first: those up
to and including the first one on which `Connect` succeeds. -/
def attempted (env : Env) : List XrdNetAddr → List XrdNetAddr
  | [] => []
  | a :: rest => if (env.Connect 0 a).IsOK then [a] else a :: attempted env rest

/-- The socket calls made on substream 0 for a list of attempted addresses. -/
def attemptCalls (window : Nat) (l : List XrdNetAddr) : List Event :=
  l.flatMap (fun a => [Event.SetAddress 0 a, Event.Connect 0 window])

/-- The stream a connect loop leaves behind, in closed form: `d0` is substream 0
before the loop, `rev` is `pAddresses` back first. -/
def loopStream (env : Env) (s : Stream) (d0 : SubStreamData) (rev : List XrdNetAddr) :
    Stream :=
  { s with
    pSubStreams := s.pSubStreams.set 0
      { d0 with
        socketAddress :=
          (match (attempted env rev).getLast? with
            | none => d0.socketAddress
            | some a => some a),
        status :=
          (match (attempted env rev).getLast? with
            | none => d0.status
            | some a =>
              if (env.Connect 0 a).IsOK then SocketStatus.Connecting else d0.status) },
    pAddresses :=
      if rev = [] then s.pAddresses else (rev.drop (attempted env rev).length).reverse,
    pConnectionInitTime := if rev = [] then s.pConnectionInitTime else env.now,
    trace := s.trace ++ attemptCalls s.pConnectionWindow (attempted env rev) }

/-- The status a connect loop ends with: that of the last attempt, or the one held
before the loop when there is no address. -/
def loopStatus (env : Env) (st0 : XRootDStatus) (rev : List XrdNetAddr) : XRootDStatus :=
  match (attempted env rev).getLast? with
  | none => st0
  | some a => env.Connect 0 a

/-- A stream with one connected substream in session 7. -/
def exConnected : Stream :=
  { pUrl := { host := 1 },
    pSubStreams := [{ status := SocketStatus.Connected }],
    pSessionId := 7 }

/-- A stream with one disconnected substream whose error window (10 s after the fatal
error recorded at time 95) is still open at time 100. -/
def exWindow : Stream :=
  { pUrl := { host := 1 },
    pSubStreams := [{ outQueue := [{ msg := some { id := 4 }, handler := 4 }] }],
    pLastStreamError := 95,
    pLastFatalError := { status := stError, code := errConnectionError },
    pStreamErrorWindow := 10 }

/-- An environment whose clock reads 100. -/
def exEnv : Env := { now := 100 }

/-- The address work-list `EnableLink` builds before its connect loop: the primary
resolution, re-ordered by the preferred url. -/
def workList (env : Env) (s : Stream) : List XrdNetAddr :=
  (EnableLink.prefer env (EnableLink.resolve env s).2).pAddresses

/-- A stream with one disconnected substream and an error window of 10 s after the
fatal error recorded at time 50. -/
def exIdle : Stream :=
  { pUrl := { host := 1 },
    pSubStreams := [{}],
    pLastStreamError := 50,
    pLastFatalError := { status := stFatal, code := errConnectionError },
    pConnectionWindow := 30,
    pStreamErrorWindow := 10 }

/-- An environment at time 100 in which the host name does not resolve. -/
def exEnvNoDns : Env :=
  { now := 100,
    GetHostAddresses := fun _ _ => ({ status := stError, code := errInvalidAddr }, []) }

/-- An environment at time 100 in which every url resolves to the addresses 11, 12. -/
def exEnvDns : Env :=
  { now := 100,
    GetHostAddresses := fun _ _ => ({}, [11, 12]) }

/-- Whether a call is a handler callback `OnStatusReady`. -/
def Event.isStatusReady : Event → Bool
  | Event.OnStatusReady _ _ _ => true
  | _ => false

/-- A stream with two substreams, the second one connecting, with three queued
entries and a message in flight on substream 0. -/
def exBusy : Stream :=
  { pUrl := { host := 1 },
    pSubStreams :=
      [{ status := SocketStatus.Connected,
         outQueue := [{ msg := some { id := 1 }, handler := 1, expires := 60 },
                      { msg := some { id := 2, sessionId := 7 }, handler := 2, expires := 70,
                        stateful := true }],
         outMsgHelper := { msg := some { id := 5, sessionId := 7 }, handler := 5,
                           expires := 55, stateful := true } },
       { status := SocketStatus.Connecting,
         outQueue := [{ msg := some { id := 3 }, handler := 3, expires := 80 }] }],
    pLastStreamError := 0,
    pConnectionCount := 2,
    pConnectionRetry := 5,
    pConnectionInitTime := 90,
    pConnectionWindow := 30,
    pStreamErrorWindow := 10,
    pSessionId := 7 }

/-- A stream whose single substream is connecting, with one queued stateless entry, all
resolved addresses used up, 12 s into a connection window of 30 s (at time 100). -/
def exConnecting : Stream :=
  { pUrl := { host := 1 },
    pSubStreams :=
      [{ status := SocketStatus.Connecting,
         socketAddress := some 11,
         outQueue := [{ msg := some { id := 1 }, handler := 1, expires := 160 }] }],
    pConnectionCount := 1,
    pConnectionRetry := 5,
    pConnectionInitTime := 88,
    pConnectionWindow := 30,
    pStreamErrorWindow := 10 }

/-- Whether a call is a `RegisterTask` on the task manager. -/
def Event.isRegisterTask : Event → Bool
  | Event.RegisterTask _ => true
  | _ => false

/-- The address a `SetAddress` call hands to a socket. -/
def Event.address? : Event → Option XrdNetAddr
  | Event.SetAddress _ a => some a
  | _ => none

/-- A stream with one disconnected substream and a valid preferred url (host 2). -/
def exPrefer : Stream :=
  { pUrl := { host := 1 },
    pPrefer := { host := 2 },
    pSubStreams := [{}],
    pConnectionWindow := 30,
    pStreamErrorWindow := 10 }

/-- An environment at time 100: host 1 resolves to 11, 12, 13, host 2 to 12, and no
connect succeeds at once except the one to 11. -/
def exEnvPrefer : Env :=
  { now := 100,
    GetHostAddresses := fun u _ => if u.host = 1 then ({}, [11, 12, 13]) else ({}, [12]),
    Connect := fun _ a =>
      if a = 11 then {} else { status := stError, code := errConnectionError } }

/-- An environment at time 100: host 1 resolves to 11, 11 and host 2 to 11. -/
def exEnvTwice : Env :=
  { now := 100,
    GetHostAddresses := fun u _ => if u.host = 1 then ({}, [11, 11]) else ({}, [11]) }

/-- An environment at time 100 in which the host resolves to 11, 12, 13 and only the
connect to 12 succeeds. -/
def exEnvSecond : Env :=
  { now := 100,
    GetHostAddresses := fun _ _ => ({}, [11, 12, 13]),
    Connect := fun _ a =>
      if a = 12 then {} else { status := stError, code := errConnectionError, errNo := a } }

/-- An environment at time 100 in which the host resolves to 11, 12, 13 and no connect
succeeds; the error of an attempt carries the address in its errno. -/
def exEnvNone : Env :=
  { now := 100,
    GetHostAddresses := fun _ _ => ({}, [11, 12, 13]),
    Connect := fun _ a => { status := stError, code := errConnectionError, errNo := a } }

/-- A stream in session 7 whose two substreams are connected, each with one stateless
entry queued. -/
def exBoth : Stream :=
  { pUrl := { host := 1 },
    pSubStreams :=
      [{ status := SocketStatus.Connected, socketAddress := some 12,
         outQueue := [{ msg := some { id := 1 }, handler := 1, expires := 160 }] },
       { status := SocketStatus.Connected, socketAddress := some 12,
         outQueue := [{ msg := some { id := 2 }, handler := 2, expires := 170 }] }],
    pConnectionRetry := 5,
    pConnectionWindow := 30,
    pStreamErrorWindow := 10,
    pSessionId := 7 }

/-- An environment at time 100 whose transport routes every message to the path (5, 1). -/
def exEnvUp5 : Env :=
  { now := 100, MultiplexSubStream := fun _ => { up := 5, down := 1 } }

/-- Whether a call queues a job for a handler on the job manager. -/
def Event.isQueueJob : Event → Bool
  | Event.QueueJob _ => true
  | _ => false

/-- A stream in session 7 with one connected substream whose in-slot holds handler 4. -/
def exInSlot : Stream :=
  { pUrl := { host := 1 },
    pSubStreams :=
      [{ status := SocketStatus.Connected,
         inMsgHelper := { handler := 4, expires := 150 } }],
    pSessionId := 7 }

/-- An environment at time 100 whose transport reports the stream TTL elapsed and the
stream broken. -/
def exEnvTTL : Env :=
  { now := 100,
    IsStreamTTLElapsed := fun _ => true,
    IsStreamBroken := fun _ => { status := stError, code := errConnectionError },
    GetHostAddresses := fun _ _ => ({}, [11, 12]) }

/-- The entries the loop over the extras moves to out-queue 0: the out-queues of the
extras (from index `i` on) whose `Connect` fails, in substream order. -/
def OnConnect.moved (env : Env) (addr : Option XrdNetAddr) :
    Nat → List SubStreamData → OutQueue
  | _, [] => []
  | i, d :: rest =>
    (if (env.Connect i (addr.getD 0)).IsOK then [] else d.outQueue) ++
      OnConnect.moved env addr (i + 1) rest

/-- A connecting stream with substream 0 only, its socket on address 12. -/
def exSingle : Stream :=
  { pUrl := { host := 1 },
    pSubStreams :=
      [{ status := SocketStatus.Connecting, socketAddress := some 12,
         outQueue := [{ msg := some { id := 1 }, handler := 1, expires := 160 }] }],
    pLastStreamError := 40,
    pConnectionCount := 2,
    pConnectionWindow := 30,
    pSessionId := 3 }

/-- An environment at time 100 whose transport asks for 4 substreams; the connect of
substream 2 fails. -/
def exEnvFour : Env :=
  { now := 100,
    SubStreamNumber := 4,
    Connect := fun i _ =>
      if i = 2 then { status := stError, code := errConnectionError } else {} }

/-- The extra substreams `OnConnect(0)` connects: those it has just created when the
stream had substream 0 only and the transport asks for more than one, else those that
exist (`rest`). -/
def OnConnect.extrasBefore (env : Env) (rest : List SubStreamData) : List SubStreamData :=
  if rest = [] ∧ 1 < env.SubStreamNumber % 2 ^ 16 then
    List.replicate (env.SubStreamNumber % 2 ^ 16 - 1) {}
  else rest

/-- The stream `exSingle` after its main substream connected, with the session counter
at 41 before the call. -/
def exSingleUp : Stream :=
  ((OnConnect exEnvFour 41 exSingle 0).map (fun r => r.1)).getD exSingle

/-- A sequence of calls on one stream, threading the shared session counter. -/
def run (env : Env) : Nat → Stream → List Call → Option (Nat × Stream)
  | cnt, s, [] => some (cnt, s)
  | cnt, s, c :: cs =>
    match step env cnt s c with
    | none => none
    | some r => run env r.1 r.2 cs

/-- A partial response: its header status is `kXR_oksofar`. -/
def exPartial : Message := { id := 9, hdrStatus := kXR_oksofar }

/-- The stream `exInSlot` with the action `NoProcess` in the in-slot of substream 0. -/
def exInSlotNoProcess : Stream :=
  { pUrl := { host := 1 },
    pSubStreams :=
      [{ status := SocketStatus.Connected,
         inMsgHelper := { handler := 4, expires := 150, action := MsgHandler.NoProcess } }],
    pSessionId := 7 }

/-- What a substream holds of messages and handlers: its out-queue and its two
in-flight slots. -/
def SubStreamData.slots (d : SubStreamData) : OutQueue × MsgHelper × InMessageHelper :=
  (d.outQueue, d.outMsgHelper, d.inMsgHelper)

/-- The out-queues and in-flight slots of all substreams, in substream order. -/
def Stream.slots (s : Stream) : List (OutQueue × MsgHelper × InMessageHelper) :=
  s.pSubStreams.map SubStreamData.slots

/-! ## Trace directives of the file system layer (`src/XrdOfs/XrdOfsConfig.cc`) -/

/-- The table `tropts` of `XrdOfs::xtrace`: the option names, in table order, each with
its trace mask.  The `TRACE_` masks are defined in `XrdOfsTrace.hh`, which is not among
the sources; `opval` gives the mask that stands next to a name in the table. -/
def XrdOfs.tropts (opval : String → Nat) : List (String × Nat) :=
  ["aio", "all", "chmod", "close", "closedir", "debug", "delay", "dir", "exists",
   "getstats", "fsctl", "io", "mkdir", "most", "open", "opendir", "qscan", "read",
   "readdir", "redirect", "remove", "rename", "sync", "truncate", "write"].map
    (fun n => (n, opval n))

/-- The test `val[0] == '-' && val[1]` of `xtrace`: a minus sign followed by at least
one more character. -/
def XrdOfs.xtrace.neg (val : String) : Bool :=
  match val.data with
  | c :: _ :: _ => c == '-'
  | _ => false

/-- The body of the `while (val)` loop of `xtrace` for one word: the mask `trval`
afterwards and the message issued, if any.  Masks are 32-bit patterns. -/
def XrdOfs.xtrace.word (opval : String → Nat) (trval : Nat) (val : String) :
    Nat × List String :=
  if val = "off" then (0, [])
  else
    let neg := XrdOfs.xtrace.neg val
    let val1 : String := if neg then String.mk val.data.tail else val
    match (XrdOfs.tropts opval).find? (fun o => o.1 == val1) with
    | some o =>
      if neg then (trval &&& ((2 ^ 32 - 1) ^^^ o.2), [])
      else (trval ||| o.2, [])
    | none => (trval, ["invalid trace option -" ++ val1])

/-- The `while (val)` loop of `xtrace` over the words of the directive. -/
def XrdOfs.xtrace.loop (opval : String → Nat) : Nat → List String → Nat × List String
  | trval, [] => (trval, [])
  | trval, val :: rest =>
    let r := XrdOfs.xtrace.word opval trval val
    let rr := XrdOfs.xtrace.loop opval r.1 rest
    (rr.1, r.2 ++ rr.2)

/-- The method `XrdOfs::xtrace( Config, Eroute )` on the words left on the directive
line: the value returned, `OfsTrace.What` afterwards (`What` before) and the messages
issued. -/
def XrdOfs.xtrace (opval : String → Nat) (What : Nat) (words : List String) :
    Nat × Nat × List String :=
  match words with
  | [] => (1, What, ["trace option not specified"])
  | _ :: _ =>
    let r := XrdOfs.xtrace.loop opval 0 words
    (0, r.1, r.2)

/-- Two successive `trace` directives: `OfsTrace.What` after both. -/
def XrdOfs.xtraceTwice (opval : String → Nat) (What : Nat) (first second : List String) :
    Nat :=
  (XrdOfs.xtrace opval (XrdOfs.xtrace opval What first).2.1 second).2.1

/-- An environment at time 100 whose transport routes every message to the path (0, 5). -/
def exEnvDown5 : Env :=
  { now := 100, MultiplexSubStream := fun _ => { up := 0, down := 5 } }

/-- An environment at time 100 whose transport routes every message to the path (5, 0). -/
def exEnvUp5Down0 : Env :=
  { now := 100, MultiplexSubStream := fun _ => { up := 5, down := 0 } }

/-- A stream in session 7 whose single substream is connected with three stateless
entries queued and nothing in flight. -/
def exThree : Stream :=
  { pUrl := { host := 1 },
    pSubStreams :=
      [{ status := SocketStatus.Connected, socketAddress := some 12,
         outQueue := [{ msg := some { id := 1 }, handler := 1, expires := 160 },
                      { msg := some { id := 2 }, handler := 2, expires := 170 },
                      { msg := some { id := 3 }, handler := 3, expires := 180 }] }],
    pConnectionRetry := 5,
    pConnectionWindow := 30,
    pStreamErrorWindow := 10,
    pSessionId := 7 }

/-- The stream `exThree` after `OnReadyToWrite(0)`: the first entry is in the out slot. -/
def exThreePopped : Stream :=
  ((OnReadyToWrite exThree 0).map (fun r => r.2)).getD exThree

/-- The stream `exThreePopped` after the recovery of the slots of substream 0. -/
def exThreeRecovered : Stream :=
  (OnError.recover exEnvDns exThreePopped 0).getD exThree

/-- A sequence of calls on one stream, each with the environment (clock and
collaborators) it meets, threading the shared session counter. -/
def exec : Nat → Stream → List (Env × Call) → Option (Nat × Stream)
  | cnt, s, [] => some (cnt, s)
  | cnt, s, c :: cs =>
    match step c.1 cnt s c.2 with
    | none => none
    | some r => exec r.1 r.2 cs

/-- A stream as its constructor leaves it: no substream yet. -/
def exNew : Stream :=
  { pUrl := { host := 1 },
    pConnectionRetry := 5,
    pConnectionWindow := 30,
    pStreamErrorWindow := 10 }

/-- An environment at time 100: the host resolves to 11, 12, every connect call succeeds
and the transport asks for 2 substreams. -/
def exEnvTwo : Env :=
  { now := 100,
    GetHostAddresses := fun _ _ => ({}, [11, 12]),
    SubStreamNumber := 2 }

/-- The environment `exEnvTwo` at time 200, with the connect call of substream 1
failing. -/
def exEnvTwoFail : Env :=
  { now := 200,
    GetHostAddresses := fun _ _ => ({}, [11, 12]),
    SubStreamNumber := 2,
    Connect := fun i _ =>
      if i = 1 then { status := stError, code := errConnectionError } else {} }

/-- A run from `Initialize`: a message is sent, both substreams connect, substream 0 is
lost and reconnects, and on its second completion the connect call of substream 1
fails. -/
def exReconnect : List (Env × Call) :=
  [(exEnvTwo, Call.Initialize true),
   (exEnvTwo, Call.Send { id := 1 } 1 false 900),
   (exEnvTwo, Call.OnConnect 0),
   (exEnvTwo, Call.OnConnect 1),
   (exEnvTwoFail, Call.OnError 0 { status := stError, code := errConnectionError }),
   (exEnvTwoFail, Call.OnConnect 0)]

/-- The stream at the end of the run `exReconnect`. -/
def exReconnected : Stream :=
  ((exec 0 exNew exReconnect).map (fun r => r.2)).getD exNew

/-- An environment at time 200 whose transport routes every message to the path (1, 1). -/
def exEnvPath1 : Env :=
  { now := 200, MultiplexSubStream := fun _ => { up := 1, down := 1 } }

/-- The connection status of every substream, in substream order. -/
def Stream.statuses (s : Stream) : List SocketStatus :=
  s.pSubStreams.map (fun d => d.status)

/-- The branch of `OnConnectError` at lines 794-803: the error is on substream 0, no
address is left, the connection window is still open, retries remain and the status is
not fatal, so that a reconnect task is registered and nothing else is done. -/
def OnConnectError.waits (env : Env) (s : Stream) (subStream : Nat)
    (status : XRootDStatus) : Bool :=
  decide (subStream = 0) && s.pAddresses.isEmpty &&
    decide (env.now - s.pConnectionInitTime < (s.pConnectionWindow : Int)) &&
    decide (s.pConnectionCount < s.pConnectionRetry) && !status.IsFatal

/-- The stream `exConnected` after `OnError(0, ConnectionError)` at time 100. -/
def exConnectedLost : Stream :=
  (OnError exEnv exConnected 0 { status := stError, code := errConnectionError }).getD
    exConnected

/-! ## The stream mutex as a hold count -/

/-- Modelled from the spec: the re-entrant stream mutex as the hold count of the calling
thread (`pMutex` and `XrdSysMutexHelper` are declared in headers that are absent).
Constructing a scoped lock adds one to the count; `UnLock` on a helper that still holds
the mutex takes one off, as does the destructor of such a helper.  This is
`OnFatalError( subStream, status, lock )` entered with hold count `held`, `lock` being a
helper of the caller that still holds the mutex: line 1020 releases it, and line 1023
reports on the scratch queue.  The result lists the hold count at every moment a status
is reported on a scratch queue or a handler is called back. -/
def OnFatalError.holds (held : Nat) : List Nat := [held - 1]

/-- The hold counts at the report moments of `OnConnectError( subStream, status )`,
entered with hold count `held`: line 730 takes the mutex, and every call of
`OnFatalError` is handed that scoped lock.  (`EnableLink` takes and releases the mutex
once more and reports nothing.) -/
def OnConnectError.holds (env : Env) (s : Stream) (subStream : Nat)
    (status : XRootDStatus) (held : Nat) : Option (List Nat) :=
  match s.pSubStreams[subStream]? with
  | none => none
  | some d =>
    let held1 := held + 1
    let s1 := s.emit [Event.Close subStream, Event.NotifyConnErrHandler s.pUrl status]
    if subStream > 0 then
      match s1.pSubStreams[0]? with
      | none => none
      | some d0 =>
        if d0.status = SocketStatus.Connected then
          if !(env.EnableUplink 0).IsOK then some (OnFatalError.holds held1) else some []
        else if d0.status = SocketStatus.Connecting then some []
        else some (OnFatalError.holds held1)
    else
      let elapsed : Int := env.now - s1.pConnectionInitTime
      if !s1.pAddresses.isEmpty then
        match OnConnectError.retry env s1 s1.pAddresses.reverse with
        | none => none
        | some (st, _) => if !st.IsOK then some (OnFatalError.holds held1) else some []
      else if elapsed < (s1.pConnectionWindow : Int) ∧
          s1.pConnectionCount < s1.pConnectionRetry ∧ !status.IsFatal then
        some []
      else if s1.pConnectionCount < s1.pConnectionRetry ∧ !status.IsFatal then
        let s2 := ({ s1 with pAddresses := [] }).setSub 0
          { d with status := SocketStatus.Disconnected }
        match EnableLink env s2 { up := 0, down := 0 } with
        | none => none
        | some (st, _, _) => if !st.IsOK then some (OnFatalError.holds held1) else some []
      else some (OnFatalError.holds held1)

/-- The hold counts at the report moments of `ForceConnect`, entered with hold count
`held`: line 349 takes the mutex and keeps it while `OnConnectError` runs. -/
def ForceConnect.holds (env : Env) (s : Stream) (held : Nat) : Option (List Nat) :=
  match s.pSubStreams[0]? with
  | none => none
  | some d0 =>
    let held1 := held + 1
    if d0.status = SocketStatus.Connecting then
      let s1 := s.setSub 0 { d0 with status := SocketStatus.Disconnected }
      match EnableLink env s1 { up := 0, down := 0 } with
      | none => none
      | some (st, s2, _) =>
        if !st.IsOK then OnConnectError.holds env s2 0 st held1 else some []
    else some []

/-! ## Where a message is -/

/-- The number of entries of an out-queue that hold the message `m`. -/
def OutQueue.copies (m : Message) (q : OutQueue) : Nat :=
  q.countP (fun e => e.msg == some m)

/-- The number of places of a substream that hold the message `m`: entries of its
out-queue, and its out slot. -/
def SubStreamData.copies (m : Message) (d : SubStreamData) : Nat :=
  d.outQueue.copies m + (if d.outMsgHelper.msg = some m then 1 else 0)

/-- Whether a call is a completion `OnStatusReady` for the message `m`, with whatever
status (the success completion of `OnMessageSent` or a failure report). -/
def Event.completes (m : Message) : Event → Bool
  | Event.OnStatusReady _ (some m1) _ => m1 == m
  | _ => false

/-- The number of out-queue entries and out slots, over all substreams, that hold `m`. -/
def Stream.live (m : Message) (s : Stream) : Nat :=
  (s.pSubStreams.map (SubStreamData.copies m)).sum

/-- The number of completions made so far for `m`. -/
def Stream.completed (m : Message) (s : Stream) : Nat :=
  s.trace.countP (Event.completes m)

/-- The places that hold `m` plus the completions made for `m`. -/
def Stream.copies (m : Message) (s : Stream) : Nat := s.live m + s.completed m

/-- The constructor `Stream::Stream( url, prefer )` (lines 96-148): no substream, no
address, all counters and time stamps 0 (`pLastStreamError( 0 )`, line 105) and the
default, OK, status in `pLastFatalError`.  The three values `Utils::GetIntParameter`
reads for the url and the address type the network stack gives are arguments. -/
def Stream.Stream (url prefer : URL)
    (connectionWindow connectionRetry streamErrorWindow : Nat) (addressType : AddressType) :
    Stream :=
  { pUrl := url,
    pPrefer := prefer,
    pLastStreamError := 0,
    pConnectionCount := 0,
    pConnectionInitTime := 0,
    pAddressType := addressType,
    pSessionId := 0,
    pBytesSent := 0,
    pBytesReceived := 0,
    pConnectionStarted := 0,
    pConnectionDone := 0,
    pConnectionWindow := connectionWindow,
    pConnectionRetry := connectionRetry,
    pStreamErrorWindow := streamErrorWindow }

theorem map_set_of_eq {α β : Type} (f : α → β) (l : List α) (i : Nat) (d d1 : α)
    (h : l[i]? = some d) (hf : f d1 = f d) : (l.set i d1).map f = l.map f := by
  induction l generalizing i with
  | nil => simp
  | cons x xs ih =>
    cases i with
    | zero =>
      simp at h
      simp [hf, h]
    | succ n =>
      simp at h
      simp [ih n h]

theorem emit_outQueues (s : Stream) (evs : List Event) :
    (s.emit evs).outQueues = s.outQueues := rfl

theorem setSub_outQueues (s : Stream) (i : Nat) (d d1 : SubStreamData)
    (h : s.pSubStreams[i]? = some d) (hq : d1.outQueue = d.outQueue) :
    (s.setSub i d1).outQueues = s.outQueues := by
  unfold Stream.outQueues Stream.setSub
  exact map_set_of_eq (fun d => d.outQueue) s.pSubStreams i d d1 h hq

theorem connectStep_outQueues (env : Env) (s : Stream) (addr : XrdNetAddr)
    (rest : List XrdNetAddr) (st : XRootDStatus) (s1 : Stream)
    (h : connectStep env s addr rest = some (st, s1)) : s1.outQueues = s.outQueues := by
  unfold connectStep at h
  split at h
  · simp at h
  · rename_i d0 h0
    simp only [Option.some.injEq, Prod.mk.injEq] at h
    rw [← h.2]
    exact setSub_outQueues s 0 d0 _ h0 rfl

theorem connectLoop_outQueues (env : Env) (rev : List XrdNetAddr) :
    ∀ (st0 : XRootDStatus) (s : Stream) (st : XRootDStatus) (s1 : Stream),
      connectLoop env st0 s rev = some (st, s1) → s1.outQueues = s.outQueues := by
  induction rev with
  | nil =>
    intro st0 s st s1 h
    simp [connectLoop] at h
    rw [h.2]
  | cons a rest ih =>
    intro st0 s st s1 h
    simp only [connectLoop] at h
    split at h
    · simp at h
    · rename_i st1 s2 hstep
      have hq := connectStep_outQueues env s a rest st1 s2 hstep
      split at h
      · split at h
        · simp at h
        · rename_i d0 h0
          simp only [Option.some.injEq, Prod.mk.injEq] at h
          rw [← h.2, ← hq]
          exact setSub_outQueues s2 0 d0 _ h0 rfl
      · rw [ih st1 s2 st s1 h, hq]

theorem EnableLink.uplink_outQueues (env : Env) (s : Stream) (path : PathID)
    (st : XRootDStatus) (s1 : Stream) (p : PathID)
    (h : EnableLink.uplink env s path = some (st, s1, p)) : s1.outQueues = s.outQueues := by
  unfold EnableLink.uplink at h
  split at h
  · simp at h
  · dsimp only at h
    split at h
    · simp at h
    · split at h
      · simp only [Option.some.injEq, Prod.mk.injEq] at h
        rw [← h.2.1]; rfl
      · split at h
        · simp only [Option.some.injEq, Prod.mk.injEq] at h
          rw [← h.2.1]; rfl
        · simp only [Option.some.injEq, Prod.mk.injEq] at h
          rw [← h.2.1]

theorem EnableLink.resolve_outQueues (env : Env) (s : Stream) :
    (EnableLink.resolve env s).2.outQueues = s.outQueues := rfl

theorem EnableLink.prefer_outQueues (env : Env) (s : Stream) :
    (EnableLink.prefer env s).outQueues = s.outQueues := by
  unfold EnableLink.prefer
  split
  · dsimp only
    split <;> rfl
  · rfl

theorem EnableLink.connect_outQueues (env : Env) (s : Stream) (path : PathID)
    (st : XRootDStatus) (s1 : Stream) (p : PathID)
    (h : EnableLink.connect env s path = some (st, s1, p)) : s1.outQueues = s.outQueues := by
  unfold EnableLink.connect at h
  dsimp only at h
  split at h
  · simp only [Option.some.injEq, Prod.mk.injEq] at h
    rw [← h.2.1]; rfl
  · split at h
    · simp at h
    · rename_i st4 s4 hloop
      simp only [Option.some.injEq, Prod.mk.injEq] at h
      rw [← h.2.1, connectLoop_outQueues env _ _ _ _ _ hloop, EnableLink.prefer_outQueues,
        EnableLink.resolve_outQueues]

/-- The method `EnableLink` never touches an out-queue. -/
theorem EnableLink_outQueues (env : Env) (s : Stream) (path : PathID)
    (st : XRootDStatus) (s1 : Stream) (p : PathID)
    (h : EnableLink env s path = some (st, s1, p)) : s1.outQueues = s.outQueues := by
  unfold EnableLink at h
  split at h
  · simp at h
  · split at h
    · simp only [Option.some.injEq, Prod.mk.injEq] at h
      rw [← h.2.1]
    · split at h
      · exact EnableLink.uplink_outQueues env s path st s1 p h
      · split at h
        · simp only [Option.some.injEq, Prod.mk.injEq] at h
          rw [← h.2.1]
        · exact EnableLink.connect_outQueues env s path st s1 p h

theorem set_of_getElem? {α : Type} (l : List α) (i : Nat) (d : α) (h : l[i]? = some d) :
    l.set i d = l := by
  induction l generalizing i with
  | nil => simp
  | cons x xs ih =>
    cases i with
    | zero =>
      simp at h
      simp [h]
    | succ n =>
      simp at h
      simp [ih n h]

theorem getElem?_set_zero {α : Type} (l : List α) (d d1 : α) (h : l[0]? = some d) :
    (l.set 0 d1)[0]? = some d1 := by
  cases l with
  | nil => simp at h
  | cons x xs => simp

theorem attempted_ne_nil (env : Env) (b : XrdNetAddr) (rest : List XrdNetAddr) :
    attempted env (b :: rest) ≠ [] := by
  simp only [attempted]; split <;> simp

theorem getLast?_cons_attempted (env : Env) (a b : XrdNetAddr) (rest : List XrdNetAddr) :
    (a :: attempted env (b :: rest)).getLast? = (attempted env (b :: rest)).getLast? := by
  have h := attempted_ne_nil env b rest
  cases hl : attempted env (b :: rest) with
  | nil => exact absurd hl h
  | cons x xs => simp [List.getLast?_cons_cons]

/-- What the connect loop of `EnableLink` does, in closed form: it returns, the calls
it makes are the attempts on the addresses of `attempted`, the addresses left are those
not attempted, the status is that of the last attempt, and substream 0 is `Connecting`
exactly when that attempt succeeded. -/
theorem connectLoop_shape (env : Env) (rev : List XrdNetAddr) :
    ∀ (st0 : XRootDStatus) (s : Stream) (d0 : SubStreamData),
      s.pSubStreams[0]? = some d0 →
      connectLoop env st0 s rev = some (loopStatus env st0 rev, loopStream env s d0 rev) := by
  induction rev with
  | nil =>
    intro st0 s d0 h0
    simp [connectLoop, attempted, attemptCalls, loopStatus, loopStream,
      set_of_getElem? _ _ _ h0]
  | cons a rest ih =>
    intro st0 s d0 h0
    simp only [connectLoop, connectStep, h0]
    by_cases hok : (env.Connect 0 a).IsOK = true
    · simp [hok, attempted, attemptCalls, Stream.emit, Stream.setSub, loopStatus, loopStream,
        getElem?_set_zero _ _ _ h0]
    · have h1 : (Stream.emit
          { (s.setSub 0 { d0 with socketAddress := some a }) with
            pAddresses := rest.reverse, pConnectionInitTime := env.now }
          [Event.SetAddress 0 a, Event.Connect 0 s.pConnectionWindow]).pSubStreams[0]? =
          some { d0 with socketAddress := some a } := by
        simp [Stream.emit, Stream.setSub, getElem?_set_zero _ _ _ h0]
      simp only [hok, Bool.false_eq_true, if_false]
      rw [ih (env.Connect 0 a) _ _ h1]
      cases rest with
      | nil =>
        simp [attempted, attemptCalls, hok, Stream.emit, Stream.setSub, loopStatus, loopStream]
      | cons b rest2 =>
        have hne := attempted_ne_nil env b rest2
        have hl := getLast?_cons_attempted env a b rest2
        simp only [loopStatus, loopStream, Stream.emit, Stream.setSub]
        simp only [attempted, hok, Bool.false_eq_true, if_false] at hl ⊢
        rw [hl]
        cases hlast : (if (env.Connect 0 b).IsOK = true then [b]
            else b :: attempted env rest2).getLast? with
        | none =>
          simp only [attempted] at hne
          simp [List.getLast?_eq_none_iff] at hlast
          exact absurd hlast hne
        | some x =>
          simp [attemptCalls]

/-! ## Sending -/

/-- C1: a message that carries a session id is bounced by `Send` with an error status
of code `errInvalidSession`, the stream (and so every out-queue) being left as it was,
whenever substream 0 is not connected or the session id is not the stream's; a message
without a session id is never bounced by the check: `Send` goes on to the path choice. -/
theorem Send_invalid_session (env : Env) (s : Stream) (msg : Message) (handler : Nat)
    (stateful : Bool) (expires : Int) :
    (∀ d0, msg.GetSessionId ≠ 0 → s.pSubStreams[0]? = some d0 →
      (d0.status ≠ SocketStatus.Connected ∨ msg.GetSessionId ≠ s.pSessionId) →
      ∃ st s1, Send env s msg handler stateful expires = some (st, s1) ∧
        st.status = stError ∧ st.code = errInvalidSession ∧ st.IsOK = false ∧
        s1.outQueues = s.outQueues ∧ s1 = s) ∧
    (msg.GetSessionId = 0 → Send.bounce s msg = some false ∧
      Send env s msg handler stateful expires =
        Send.enqueue env s msg handler stateful expires) := by
  constructor
  · intro d0 hm h0 hc
    have hb : Send.bounce s msg = some true := by
      unfold Send.bounce
      rw [if_pos hm, h0]
      rcases hc with hc | hc
      · simp [hc]
      · have : s.pSessionId ≠ msg.GetSessionId := fun e => hc e.symm
        simp [this]
    refine ⟨{ status := stError, code := errInvalidSession }, s, ?_, rfl, rfl, rfl, rfl, rfl⟩
    unfold Send
    rw [hb]
  · intro hm
    have hb : Send.bounce s msg = some false := by
      unfold Send.bounce
      simp [hm]
    refine ⟨hb, ?_⟩
    unfold Send
    rw [hb]

theorem Send_invalid_session_witness :
    (∃ st s1, Send exEnv exConnected { id := 1, sessionId := 5 } 9 true 50 = some (st, s1) ∧
        st.status = stError ∧ st.code = errInvalidSession ∧ st.IsOK = false ∧
        s1.outQueues = exConnected.outQueues ∧ s1 = exConnected) ∧
    (∃ st s1, Send exEnv exWindow { id := 1, sessionId := 5 } 9 true 50 = some (st, s1) ∧
        st.status = stError ∧ st.code = errInvalidSession ∧ st.IsOK = false ∧
        s1.outQueues = exWindow.outQueues ∧ s1 = exWindow) ∧
    (Send.bounce exConnected { id := 2 } = some false ∧
      Send exEnv exConnected { id := 2 } 9 false 50 =
        Send.enqueue exEnv exConnected { id := 2 } 9 false 50) :=
  ⟨(Send_invalid_session exEnv exConnected { id := 1, sessionId := 5 } 9 true 50).1
      { status := SocketStatus.Connected } (by decide) rfl (Or.inr (by decide)),
   (Send_invalid_session exEnv exWindow { id := 1, sessionId := 5 } 9 true 50).1
      _ (by decide) rfl (Or.inl (by decide)),
   (Send_invalid_session exEnv exConnected { id := 2 } 9 false 50).2 rfl⟩

/-- C3: when the session check lets the message through and `EnableLink` returns a
status that is not OK, `Send` returns that status with severity `stFatal` (code and
errno as they were), and no out-queue has changed: the message is not enqueued. -/
theorem Send_EnableLink_failure (env : Env) (s : Stream) (msg : Message) (handler : Nat)
    (stateful : Bool) (expires : Int) (st : XRootDStatus) (s1 : Stream) (p : PathID)
    (hb : Send.bounce s msg = some false)
    (hl : EnableLink env s (Send.path env s msg) = some (st, s1, p))
    (hf : st.IsOK = false) :
    ∃ r s2, Send env s msg handler stateful expires = some (r, s2) ∧
      r = { st with status := stFatal } ∧ r.status = stFatal ∧ r.code = st.code ∧
      s2 = s1 ∧ s2.outQueues = s.outQueues := by
  refine ⟨{ st with status := stFatal }, s1, ?_, rfl, rfl, rfl, rfl,
    EnableLink_outQueues env s _ st s1 p hl⟩
  unfold Send
  rw [hb]
  unfold Send.enqueue
  rw [hl]
  simp [hf]

theorem Send_EnableLink_failure_witness :
    ∃ r s2, Send exEnv exWindow { id := 3 } 9 false 50 = some (r, s2) ∧
      r = { status := stFatal, code := errConnectionError } ∧ r.status = stFatal ∧
      r.code = errConnectionError ∧
      s2 = exWindow ∧ s2.outQueues = exWindow.outQueues :=
  Send_EnableLink_failure exEnv exWindow { id := 3 } 9 false 50
    { status := stError, code := errConnectionError } exWindow { up := 0, down := 0 }
    rfl (by decide) rfl

/-! ## The error window -/

theorem EnableLink.prefer_frame (env : Env) (s : Stream) :
    (EnableLink.prefer env s).pSubStreams = s.pSubStreams ∧
    (EnableLink.prefer env s).pConnectionCount = s.pConnectionCount ∧
    (EnableLink.prefer env s).pConnectionWindow = s.pConnectionWindow ∧
    (EnableLink.prefer env s).trace =
      s.trace ++ (if s.pPrefer.IsValid then [Event.GetHostAddresses s.pPrefer] else []) := by
  unfold EnableLink.prefer
  split
  · dsimp only
    split <;> simp [Stream.emit]
  · simp

theorem attemptCalls_head (env : Env) (window : Nat) (a : XrdNetAddr)
    (rest : List XrdNetAddr) :
    Event.SetAddress 0 a ∈ attemptCalls window (attempted env (a :: rest)) ∧
    Event.Connect 0 window ∈ attemptCalls window (attempted env (a :: rest)) := by
  simp only [attempted]
  split <;> simp [attemptCalls]

theorem attemptCalls_no_report (window : Nat) (l : List XrdNetAddr) :
    (attemptCalls window l).filter Event.isStatusReady = [] := by
  unfold attemptCalls
  induction l with
  | nil => rfl
  | cons a rest ih =>
    rw [List.flatMap_cons, List.filter_append, ih]
    rfl

/-- With substream 0 disconnected, `EnableLink` is the error-window test followed by
the resolve-and-connect part. -/
theorem EnableLink_of_disconnected (env : Env) (s : Stream) (path : PathID)
    (d0 : SubStreamData) (h0 : s.pSubStreams[0]? = some d0)
    (hd : d0.status = SocketStatus.Disconnected) :
    EnableLink env s path =
      if env.now - s.pLastStreamError < (s.pStreamErrorWindow : Int) then
        some (s.pLastFatalError, s, path)
      else EnableLink.connect env s path := by
  unfold EnableLink
  rw [h0]
  simp [hd]

/-- What the resolve-and-connect part of `EnableLink` does: it returns, bumps the
connection count and calls the resolver; when the resolution fails that is the only
call, and when it succeeds the last address of the work-list is tried.  No handler is
called back. -/
theorem EnableLink.connect_shape (env : Env) (s : Stream) (path : PathID)
    (d0 : SubStreamData) (h0 : s.pSubStreams[0]? = some d0) :
    ∃ st s1 evs, EnableLink.connect env s path = some (st, s1, path) ∧
      s1.pConnectionCount = s.pConnectionCount + 1 ∧
      s1.trace = s.trace ++ Event.GetHostAddresses s.pUrl :: evs ∧
      evs.filter Event.isStatusReady = [] ∧
      ((env.GetHostAddresses s.pUrl s.pAddressType).1.IsOK = false →
        evs = [] ∧
        st = { (env.GetHostAddresses s.pUrl s.pAddressType).1 with status := stFatal } ∧
        s1.pLastStreamError = env.now ∧ s1.pLastFatalError = st ∧
        s1.pSubStreams = s.pSubStreams) ∧
      ((env.GetHostAddresses s.pUrl s.pAddressType).1.IsOK = true →
        ∀ a, (workList env s).getLast? = some a →
          Event.SetAddress 0 a ∈ evs ∧ Event.Connect 0 s.pConnectionWindow ∈ evs) := by
  unfold EnableLink.connect
  dsimp only
  cases hr : (env.GetHostAddresses s.pUrl s.pAddressType).1.IsOK with
  | false =>
    have hr2 : (EnableLink.resolve env s).1.IsOK = false := hr
    simp only [hr2, Bool.not_false, if_true]
    refine ⟨_, _, [], rfl, rfl, rfl, rfl, fun _ => ⟨rfl, rfl, rfl, rfl, rfl⟩, ?_⟩
    intro h; simp at h
  | true =>
    have hr2 : (EnableLink.resolve env s).1.IsOK = true := hr
    simp only [hr2, Bool.not_true, Bool.false_eq_true, if_false]
    obtain ⟨hp1, hp2, hp3, hp4⟩ := EnableLink.prefer_frame env (EnableLink.resolve env s).2
    have h3 : (EnableLink.prefer env (EnableLink.resolve env s).2).pSubStreams[0]? =
        some d0 := by
      rw [hp1]; exact h0
    rw [connectLoop_shape env _ _ _ d0 h3]
    refine ⟨_, _, (if (EnableLink.resolve env s).2.pPrefer.IsValid then
        [Event.GetHostAddresses (EnableLink.resolve env s).2.pPrefer] else []) ++
        attemptCalls s.pConnectionWindow (attempted env (workList env s).reverse),
        rfl, ?_, ?_, ?_, ?_, ?_⟩
    · simp only [loopStream]
      rw [hp2]; rfl
    · simp only [loopStream]
      rw [hp4, hp3]
      simp [EnableLink.resolve, Stream.emit, workList]
    · rw [List.filter_append, attemptCalls_no_report]
      split <;> rfl
    · intro h; simp at h
    · intro _ a ha
      rw [← List.head?_reverse] at ha
      cases hrev : (workList env s).reverse with
      | nil => simp [hrev] at ha
      | cons x xs =>
        simp [hrev] at ha
        subst ha
        have := attemptCalls_head env s.pConnectionWindow x xs
        exact ⟨List.mem_append_right _ this.1, List.mem_append_right _ this.2⟩

/-- The call of C2's witness, evaluated: after the window, with the host resolving to
11 and 12, address 12 is tried first and substream 0 is connecting. -/
theorem EnableLink_after_window_example :
    (EnableLink exEnvDns exIdle { up := 0, down := 0 }).map
      (fun r => (r.1, r.2.1.pConnectionCount, r.2.1.pAddresses, r.2.1.trace,
        r.2.1.pSubStreams.map (fun d => d.status))) =
    some ({}, 1, [11],
      [Event.GetHostAddresses { host := 1 }, Event.SetAddress 0 12, Event.Connect 0 30],
      [SocketStatus.Connecting]) := by
  rfl

/-! ## Draining the out-queues -/

theorem grabLoop_GrabItems (l : List SubStreamData) :
    ∀ q : OutQueue, grabLoop OutQueue.GrabItems q l =
      (q ++ (l.map (fun d => d.outQueue)).flatten,
       l.map (fun d => { d with outQueue := [] })) := by
  induction l with
  | nil => intro q; simp [grabLoop]
  | cons d rest ih =>
    intro q
    simp [grabLoop, OutQueue.GrabItems, ih]

theorem grabLoop_GrabStateful (l : List SubStreamData) :
    ∀ q : OutQueue, grabLoop OutQueue.GrabStateful q l =
      (q ++ (l.map (fun d => d.outQueue.filter (fun e => e.stateful))).flatten,
       l.map (fun d => { d with outQueue := d.outQueue.filter (fun e => !e.stateful) })) := by
  induction l with
  | nil => intro q; simp [grabLoop]
  | cons d rest ih =>
    intro q
    simp [grabLoop, OutQueue.GrabStateful, ih]

theorem filter_isStatusReady_Report (q : OutQueue) (st : XRootDStatus) :
    (q.Report st).filter Event.isStatusReady = q.Report st := by
  unfold OutQueue.Report
  induction q with
  | nil => rfl
  | cons e rest ih => simp [Event.isStatusReady, ih]

/-- What `OnFatalError` does, field by field. -/
theorem OnFatalError_shape (env : Env) (s : Stream) (subStream : Nat)
    (status : XRootDStatus) (d : SubStreamData) (h : s.pSubStreams[subStream]? = some d) :
    ∃ s1, OnFatalError env s subStream status = some s1 ∧
      s1.pSubStreams = (s.pSubStreams.set subStream
        { d with status := SocketStatus.Disconnected }).map
          (fun d => { d with outQueue := [] }) ∧
      s1.trace = s.trace ++
        ((s.outQueues.flatten.map (fun e =>
            Event.OnStatusReady e.handler e.msg { status with status := stFatal })) ++
         [Event.ReportStreamEvent StreamEvent.FatalError { status with status := stFatal },
          Event.ChannelEvent StreamEvent.FatalError { status with status := stFatal }]) ∧
      s1.pStreamErrorWindow = s.pStreamErrorWindow ∧
      s1.pUrl = s.pUrl ∧
      (status.code ≠ errAuthFailed →
        s1.pLastStreamError = env.now ∧ s1.pLastFatalError = status ∧
        s1.pConnectionCount = 0) ∧
      (status.code = errAuthFailed →
        s1.pLastStreamError = s.pLastStreamError ∧
        s1.pLastFatalError = s.pLastFatalError ∧
        s1.pConnectionCount = s.pConnectionCount) := by
  have hq : ((s.pSubStreams.set subStream
      { d with status := SocketStatus.Disconnected }).map
        (fun x : SubStreamData => x.outQueue)) = s.outQueues :=
    map_set_of_eq (fun x : SubStreamData => x.outQueue) s.pSubStreams subStream d
      { d with status := SocketStatus.Disconnected } h rfl
  unfold OnFatalError
  rw [h]
  dsimp only
  by_cases hc : status.code = errAuthFailed
  · simp only [hc, ne_eq, not_true_eq_false, if_false, grabLoop_GrabItems]
    refine ⟨_, rfl, rfl, ?_, rfl, rfl, fun hn => hn.elim, fun _ => ⟨rfl, rfl, rfl⟩⟩
    simp [Stream.emit, Stream.setSub, OutQueue.Report, ← hq]
  · simp only [hc, ne_eq, not_false_eq_true, if_true, grabLoop_GrabItems]
    refine ⟨_, rfl, rfl, ?_, rfl, rfl, fun _ => ⟨rfl, rfl, rfl⟩, fun hn => hn.elim⟩
    simp [Stream.emit, Stream.setSub, OutQueue.Report, ← hq]

/-- C5: for every state and every existing substream index, `OnFatalError` returns,
every out-queue is empty afterwards, and the handler callbacks it makes are exactly one
per entry that was in an out-queue (in substream order, front first, stateful or not),
each with the status at severity `stFatal`. -/
theorem OnFatalError_drain (env : Env) (s : Stream) (subStream : Nat)
    (status : XRootDStatus) (d : SubStreamData) (h : s.pSubStreams[subStream]? = some d) :
    ∃ s1 evs, OnFatalError env s subStream status = some s1 ∧
      s1.outQueues.length = s.outQueues.length ∧
      (∀ q ∈ s1.outQueues, q = []) ∧
      s1.trace = s.trace ++ evs ∧
      evs.filter Event.isStatusReady =
        s.outQueues.flatten.map (fun e =>
          Event.OnStatusReady e.handler e.msg { status with status := stFatal }) ∧
      ({ status with status := stFatal } : XRootDStatus).IsFatal = true := by
  obtain ⟨s1, h1, hsub, htr, -, -, -, -⟩ := OnFatalError_shape env s subStream status d h
  refine ⟨s1, _, h1, ?_, ?_, htr, ?_, rfl⟩
  · simp [Stream.outQueues, hsub]
  · intro q hq
    simp only [Stream.outQueues, hsub, List.map_map, List.mem_map] at hq
    obtain ⟨_, _, rfl⟩ := hq
    rfl
  · rw [List.filter_append]
    have := filter_isStatusReady_Report s.outQueues.flatten { status with status := stFatal }
    unfold OutQueue.Report at this
    rw [this]
    simp [Event.isStatusReady]

theorem OnFatalError_drain_witness :
    ∃ s1 evs, OnFatalError exEnv exBusy 1 { status := stError, code := errConnectionError }
        = some s1 ∧
      s1.outQueues.length = exBusy.outQueues.length ∧
      (∀ q ∈ s1.outQueues, q = []) ∧
      s1.trace = exBusy.trace ++ evs ∧
      evs.filter Event.isStatusReady =
        exBusy.outQueues.flatten.map (fun e =>
          Event.OnStatusReady e.handler e.msg
            { status := stFatal, code := errConnectionError }) ∧
      ({ status := stFatal, code := errConnectionError } : XRootDStatus).IsFatal = true :=
  OnFatalError_drain exEnv exBusy 1 { status := stError, code := errConnectionError } _ rfl

/-! ## Arming the error window -/

/-- C6: `OnFatalError` arms the error window exactly when the failure is not an
authentication failure.  For a code other than `errAuthFailed`, afterwards
`pLastStreamError = now`, `pLastFatalError = status`, `pConnectionCount = 0`, and an
`EnableLink` call at the same time on the disconnected stream is answered with that
status (for a positive window).  For `errAuthFailed` the three fields are left as they
were, and an `EnableLink` call afterwards, at any time at which the window of the
earlier error has passed, is not blocked: it bumps the connection count and calls the
resolver. -/
theorem OnFatalError_arms_window (env : Env) (s : Stream) (subStream : Nat)
    (status : XRootDStatus) (d : SubStreamData) (h : s.pSubStreams[subStream]? = some d) :
    ∃ s1, OnFatalError env s subStream status = some s1 ∧
      (status.code ≠ errAuthFailed →
        s1.pLastStreamError = env.now ∧ s1.pLastFatalError = status ∧
        s1.pConnectionCount = 0 ∧
        ∀ path d0, s1.pSubStreams[0]? = some d0 → d0.status = SocketStatus.Disconnected →
          0 < s.pStreamErrorWindow → EnableLink env s1 path = some (status, s1, path)) ∧
      (status.code = errAuthFailed →
        s1.pLastStreamError = s.pLastStreamError ∧
        s1.pLastFatalError = s.pLastFatalError ∧
        s1.pConnectionCount = s.pConnectionCount ∧
        ∀ env1 path d0, s1.pSubStreams[0]? = some d0 →
          d0.status = SocketStatus.Disconnected →
          (s.pStreamErrorWindow : Int) ≤ env1.now - s.pLastStreamError →
          ∃ st s2 evs, EnableLink env1 s1 path = some (st, s2, path) ∧
            s2.pConnectionCount = s.pConnectionCount + 1 ∧
            s2.trace = s1.trace ++ Event.GetHostAddresses s.pUrl :: evs) := by
  obtain ⟨s1, h1, -, -, hw, hu, hna, ha⟩ := OnFatalError_shape env s subStream status d h
  refine ⟨s1, h1, ?_, ?_⟩
  · intro hc
    obtain ⟨e1, e2, e3⟩ := hna hc
    refine ⟨e1, e2, e3, ?_⟩
    intro path d0 h0 hd hpos
    rw [EnableLink_of_disconnected env s1 path d0 h0 hd, e1, e2, hw, if_pos]
    simp
    exact hpos
  · intro hc
    obtain ⟨e1, e2, e3⟩ := ha hc
    refine ⟨e1, e2, e3, ?_⟩
    intro env1 path d0 h0 hd hpast
    rw [EnableLink_of_disconnected env1 s1 path d0 h0 hd, e1, hw, if_neg (not_lt.mpr hpast)]
    obtain ⟨st, s2, evs, hE, hcnt, htr, -, -, -⟩ :=
      EnableLink.connect_shape env1 s1 path d0 h0
    rw [e3, hu] at *
    exact ⟨st, s2, evs, hE, hcnt, htr⟩

theorem OnFatalError_arms_window_witness :
    (∃ s1, OnFatalError exEnv exBusy 0 { status := stError, code := errConnectionError }
        = some s1 ∧
      s1.pLastStreamError = 100 ∧
      s1.pLastFatalError = { status := stError, code := errConnectionError } ∧
      s1.pConnectionCount = 0) ∧
    (∃ s1, OnFatalError exEnv exBusy 0 { status := stError, code := errAuthFailed }
        = some s1 ∧
      s1.pLastStreamError = 0 ∧ s1.pLastFatalError = {} ∧ s1.pConnectionCount = 2) :=
  ⟨(OnFatalError_arms_window exEnv exBusy 0
      { status := stError, code := errConnectionError } _ rfl).elim
      (fun s1 hs => ⟨s1, hs.1, (hs.2.1 (by decide)).1, (hs.2.1 (by decide)).2.1,
        (hs.2.1 (by decide)).2.2.1⟩),
   (OnFatalError_arms_window exEnv exBusy 0
      { status := stError, code := errAuthFailed } _ rfl).elim
      (fun s1 hs => ⟨s1, hs.1, (hs.2.2 rfl).1, (hs.2.2 rfl).2.1, (hs.2.2 rfl).2.2.1⟩)⟩

/-- An authentication failure on substream 0 at time 100, then `EnableLink` at the same
time: the resolver is called, the address 12 is tried and substream 0 is connecting. -/
theorem OnFatalError_auth_then_EnableLink :
    ((OnFatalError exEnvDns exBusy 0 { status := stError, code := errAuthFailed }).bind
      (fun s1 => EnableLink exEnvDns s1 { up := 0, down := 0 })).map
      (fun r => (r.1, r.2.1.pConnectionCount, r.2.1.pAddresses,
        r.2.1.pSubStreams.map (fun d => d.status))) =
    some ({}, 3, [11], [SocketStatus.Connecting, SocketStatus.Connecting]) := by
  decide

/-- A connection failure on substream 0 at time 100, then `EnableLink` at the same
time: the call is answered with the recorded error and no address is tried. -/
theorem OnFatalError_error_then_EnableLink :
    ((OnFatalError exEnvDns exBusy 0 { status := stError, code := errConnectionError }).bind
      (fun s1 => EnableLink exEnvDns s1 { up := 0, down := 0 })).map
      (fun r => (r.1, r.2.1.pConnectionCount, r.2.1.pAddresses,
        r.2.1.pSubStreams.map (fun d => d.status))) =
    some ({ status := stError, code := errConnectionError }, 0, [],
      [SocketStatus.Disconnected, SocketStatus.Connecting]) := by
  decide

/-! ## Losing substream 0 -/

/-- What lines 832-860 of `OnError` do to substream `i` and to the trace. -/
theorem OnError.recover_shape (env : Env) (s : Stream) (i : Nat) (d : SubStreamData)
    (h : s.pSubStreams[i]? = some d) :
    ∃ d1 evs, OnError.recover env s i =
        some { s with pSubStreams := s.pSubStreams.set i d1, trace := s.trace ++ evs } ∧
      d1.status = SocketStatus.Disconnected ∧
      d1.outQueue =
        (if d.outMsgHelper.msg.isSome then d.outMsgHelper :: d.outQueue else d.outQueue) ∧
      d1.outMsgHelper = (if d.outMsgHelper.msg.isSome then {} else d.outMsgHelper) ∧
      d1.inMsgHelper = (if d.inMsgHelper.handler ≠ 0 then {} else d.inMsgHelper) ∧
      d1.socketAddress = d.socketAddress ∧
      evs.filter Event.isStatusReady = [] := by
  unfold OnError.recover
  rw [h]
  dsimp only
  by_cases hm : d.outMsgHelper.msg.isSome = true <;>
    by_cases hh : d.inMsgHelper.handler = 0 <;>
    by_cases hx : env.isXRootDMsgHandler d.inMsgHelper.handler = true <;>
    simp only [hm, hh, hx, if_true, if_false, ne_eq, not_true_eq_false, not_false_eq_true,
      Bool.false_eq_true] <;>
    exact ⟨_, _, rfl, rfl, rfl, rfl, rfl, rfl, rfl⟩

theorem OnError.report_shape (s : Stream) (status : XRootDStatus) :
    (OnError.report s status).outQueues =
      s.outQueues.map (fun q => q.filter (fun e => !e.stateful)) ∧
    (OnError.report s status).trace = s.trace ++
      ((s.outQueues.flatten.filter (fun e => e.stateful)).map
          (fun e => Event.OnStatusReady e.handler e.msg status) ++
        [Event.ReportStreamEvent StreamEvent.Broken status,
         Event.ChannelEvent StreamEvent.Broken status]) := by
  unfold OnError.report
  simp only [grabLoop_GrabStateful, Stream.emit, Stream.outQueues]
  constructor
  · simp [List.map_map, Function.comp]
  · simp [OutQueue.Report, List.filter_flatten, List.map_map, Function.comp]
    rfl

theorem outstanding_emit (s : Stream) (evs : List Event) :
    outstanding (s.emit evs) = outstanding s := rfl

/-- With substream 0 disconnected `EnableLink` returns, and calls back no handler. -/
theorem EnableLink_disconnected_total (env : Env) (s : Stream) (path : PathID)
    (d0 : SubStreamData) (h0 : s.pSubStreams[0]? = some d0)
    (hd : d0.status = SocketStatus.Disconnected) :
    ∃ st s1 evs, EnableLink env s path = some (st, s1, path) ∧
      s1.trace = s.trace ++ evs ∧ evs.filter Event.isStatusReady = [] := by
  rw [EnableLink_of_disconnected env s path d0 h0 hd]
  split
  · exact ⟨_, _, [], rfl, by simp, rfl⟩
  · obtain ⟨st, s1, evs, h1, -, h3, h4, -, -⟩ := EnableLink.connect_shape env s path d0 h0
    refine ⟨st, s1, Event.GetHostAddresses s.pUrl :: evs, h1, h3, ?_⟩
    simp [List.filter_cons, Event.isStatusReady, h4]

/-- C4: when substream 0 is lost (`OnError(0, status)`) and the reconnect does not fail
(there is no stateless backlog, or `EnableLink` returns an OK status), `OnError` returns
and, `s1` being the stream after the in-flight message was put back at the front of
out-queue 0: every out-queue keeps exactly its stateless entries, in their order, and
the handler callbacks made are exactly one per stateful entry (in substream order,
front first), with `status`; no stateless entry is reported. -/
theorem OnError_session_loss (env : Env) (s : Stream) (status : XRootDStatus)
    (d : SubStreamData) (s1 : Stream)
    (h0 : s.pSubStreams[0]? = some d)
    (hrec : OnError.recover env s 0 = some s1)
    (hlink : outstanding s1 ≠ 0 → ∀ st s3 p,
      EnableLink env (s1.emit [Event.MonitorDisconnection status]) { up := 0, down := 0 } =
        some (st, s3, p) → st.IsOK = true) :
    ∃ s2 evs, OnError env s 0 status = some s2 ∧
      s1.outQueues = s.outQueues.set 0
        (if d.outMsgHelper.msg.isSome then d.outMsgHelper :: d.outQueue else d.outQueue) ∧
      s2.outQueues = s1.outQueues.map (fun q => q.filter (fun e => !e.stateful)) ∧
      s2.trace = s.trace ++ evs ∧
      evs.filter Event.isStatusReady =
        (s1.outQueues.flatten.filter (fun e => e.stateful)).map
          (fun e => Event.OnStatusReady e.handler e.msg status) := by
  obtain ⟨d1, evs1, hr, hst, hq, -, -, -, hf1⟩ := OnError.recover_shape env s 0 d h0
  rw [hrec] at hr
  have hs1 := Option.some.inj hr
  have h10 : (s1.emit [Event.MonitorDisconnection status]).pSubStreams[0]? = some d1 := by
    rw [hs1]; exact getElem?_set_zero _ _ _ h0
  have hq1 : s1.outQueues = s.outQueues.set 0
      (if d.outMsgHelper.msg.isSome then d.outMsgHelper :: d.outQueue else d.outQueue) := by
    rw [hs1]
    simp [Stream.outQueues, List.map_set, hq]
  have ht1 : s1.trace = s.trace ++ evs1 := by rw [hs1]
  have key : ∀ (s3 : Stream) (evs3 : List Event), s3.outQueues = s1.outQueues →
      s3.trace = s.trace ++ evs3 → evs3.filter Event.isStatusReady = [] →
      ∃ s2 evs, some (OnError.report s3 status) = some s2 ∧
        s1.outQueues = s.outQueues.set 0
          (if d.outMsgHelper.msg.isSome then d.outMsgHelper :: d.outQueue else d.outQueue) ∧
        s2.outQueues = s1.outQueues.map (fun q => q.filter (fun e => !e.stateful)) ∧
        s2.trace = s.trace ++ evs ∧
        evs.filter Event.isStatusReady =
          (s1.outQueues.flatten.filter (fun e => e.stateful)).map
            (fun e => Event.OnStatusReady e.handler e.msg status) := by
    intro s3 evs3 hq3 ht3 hf3
    obtain ⟨ha, hb⟩ := OnError.report_shape s3 status
    refine ⟨_, evs3 ++ ((s3.outQueues.flatten.filter (fun e => e.stateful)).map
          (fun e => Event.OnStatusReady e.handler e.msg status) ++
        [Event.ReportStreamEvent StreamEvent.Broken status,
         Event.ChannelEvent StreamEvent.Broken status]), rfl, hq1, ?_, ?_, ?_⟩
    · rw [ha, hq3]
    · rw [hb, ht3, List.append_assoc]
    · rw [List.filter_append, hf3, List.filter_append, hq3]
      have := filter_isStatusReady_Report
        (s1.outQueues.flatten.filter (fun e => e.stateful)) status
      unfold OutQueue.Report at this
      rw [this]
      simp [Event.isStatusReady]
  unfold OnError
  rw [hrec]
  simp only [gt_iff_lt, lt_self_iff_false, if_false]
  by_cases ho : outstanding (s1.emit [Event.MonitorDisconnection status]) = 0
  · simp only [ho, ne_eq, not_true_eq_false, if_false]
    refine key _ (evs1 ++ [Event.MonitorDisconnection status]) rfl ?_ ?_
    · simp [Stream.emit, ht1]
    · simp [List.filter_append, hf1, Event.isStatusReady]
  · simp only [ho, ne_eq, not_false_eq_true, if_true]
    obtain ⟨st, s3, evs3, hE, ht3, hf3⟩ := EnableLink_disconnected_total env
      (s1.emit [Event.MonitorDisconnection status]) { up := 0, down := 0 } d1 h10 hst
    have hok := hlink ho st s3 _ hE
    rw [hE]
    simp only [hok, Bool.not_true, Bool.false_eq_true, if_false]
    refine key s3 (evs1 ++ [Event.MonitorDisconnection status] ++ evs3)
      (EnableLink_outQueues env (s1.emit [Event.MonitorDisconnection status]) _ st s3 _ hE)
      ?_ ?_
    · rw [ht3]
      simp [Stream.emit, ht1]
    · simp [List.filter_append, hf1, hf3, Event.isStatusReady]

theorem OnError_session_loss_witness :
    ∃ s2 evs, OnError exEnvDns exBusy 0 { status := stError, code := errConnectionError }
        = some s2 ∧
      s2.outQueues =
        [[{ msg := some { id := 1 }, handler := 1, expires := 60 }],
         [{ msg := some { id := 3 }, handler := 3, expires := 80 }]] ∧
      s2.trace = exBusy.trace ++ evs ∧
      evs.filter Event.isStatusReady =
        [Event.OnStatusReady 5 (some { id := 5, sessionId := 7 })
           { status := stError, code := errConnectionError },
         Event.OnStatusReady 2 (some { id := 2, sessionId := 7 })
           { status := stError, code := errConnectionError }] := by
  have hlink : ∀ st s3 p,
      EnableLink exEnvDns
        (Stream.emit
          { exBusy with
            pSubStreams := exBusy.pSubStreams.set 0
              { status := SocketStatus.Disconnected,
                outQueue := [{ msg := some { id := 5, sessionId := 7 }, handler := 5,
                               expires := 55, stateful := true },
                             { msg := some { id := 1 }, handler := 1, expires := 60 },
                             { msg := some { id := 2, sessionId := 7 }, handler := 2,
                               expires := 70, stateful := true }] },
            trace := [Event.Close 0, Event.RemoveMessageHandler 5] }
          [Event.MonitorDisconnection { status := stError, code := errConnectionError }])
        { up := 0, down := 0 } = some (st, s3, p) → st.IsOK = true := by
    intro st s3 p h
    have h2 := congrArg (Option.map (fun r => r.1.IsOK)) h
    exact Option.some.inj h2.symm
  obtain ⟨s2, evs, h1, -, h3, h4, h5⟩ :=
    OnError_session_loss exEnvDns exBusy { status := stError, code := errConnectionError }
      _ _ rfl rfl (fun _ => hlink)
  exact ⟨s2, evs, h1, h3, h4, h5⟩

/-! ## Connection failures on substream 0 -/

/-- C7: for `OnConnectError(0, status)` with no address left and
`pConnectionCount ≥ pConnectionRetry`, whatever the severity of `status`: the failure
goes to `OnFatalError`; every out-queue is drained and each entry reported once with
`status` at severity `stFatal`; the calls made are the socket close, the connect-error
notification, those reports and the two fatal stream events, so no task is registered,
no address resolved and no connect attempted. -/
theorem OnConnectError_retry_limit (env : Env) (s : Stream) (status : XRootDStatus)
    (d : SubStreamData) (h0 : s.pSubStreams[0]? = some d) (ha : s.pAddresses = [])
    (hc : s.pConnectionRetry ≤ s.pConnectionCount) :
    ∃ s1 evs, OnConnectError env s 0 status = some s1 ∧
      s1.outQueues.length = s.outQueues.length ∧
      (∀ q ∈ s1.outQueues, q = []) ∧
      s1.trace = s.trace ++ evs ∧
      evs = Event.Close 0 :: Event.NotifyConnErrHandler s.pUrl status ::
        (s.outQueues.flatten.map (fun e =>
            Event.OnStatusReady e.handler e.msg { status with status := stFatal }) ++
         [Event.ReportStreamEvent StreamEvent.FatalError { status with status := stFatal },
          Event.ChannelEvent StreamEvent.FatalError { status with status := stFatal }]) ∧
      (∀ t, Event.RegisterTask t ∉ evs) ∧
      (∀ sub w, Event.Connect sub w ∉ evs) ∧
      (∀ sub a, Event.SetAddress sub a ∉ evs) ∧
      (∀ u, Event.GetHostAddresses u ∉ evs) := by
  have hE : OnConnectError env s 0 status =
      OnFatalError env (s.emit [Event.Close 0, Event.NotifyConnErrHandler s.pUrl status])
        0 status := by
    unfold OnConnectError
    rw [h0]
    have hn : ¬ s.pConnectionCount < s.pConnectionRetry := Nat.not_lt.mpr hc
    simp [Stream.emit, ha, hn]
  have h0e : (s.emit [Event.Close 0, Event.NotifyConnErrHandler s.pUrl status]).pSubStreams[0]?
      = some d := h0
  obtain ⟨s1, h1, hsub, htr, -, -, -, -⟩ := OnFatalError_shape env _ 0 status d h0e
  refine ⟨s1, _, hE.trans h1, ?_, ?_, ?_, rfl, ?_, ?_, ?_, ?_⟩
  · simp [Stream.outQueues, hsub, Stream.emit]
  · intro q hq
    simp only [Stream.outQueues, hsub, List.map_map, List.mem_map] at hq
    obtain ⟨_, _, rfl⟩ := hq
    rfl
  · rw [htr]
    simp [Stream.emit, Stream.outQueues]
  · intro t h
    simp at h
  · intro sub w h
    simp at h
  · intro sub a h
    simp at h
  · intro u h
    simp at h

theorem OnConnectError_retry_limit_witness :
    ∃ s1 evs, OnConnectError exEnv { exConnecting with pConnectionCount := 5 } 0
        { status := stError, code := errConnectionError } = some s1 ∧
      s1.outQueues.length = 1 ∧
      (∀ q ∈ s1.outQueues, q = []) ∧
      s1.trace = [] ++ evs ∧
      evs = Event.Close 0 ::
        Event.NotifyConnErrHandler { host := 1 }
          { status := stError, code := errConnectionError } ::
        ([Event.OnStatusReady 1 (some { id := 1 })
            { status := stFatal, code := errConnectionError }] ++
         [Event.ReportStreamEvent StreamEvent.FatalError
            { status := stFatal, code := errConnectionError },
          Event.ChannelEvent StreamEvent.FatalError
            { status := stFatal, code := errConnectionError }]) ∧
      (∀ t, Event.RegisterTask t ∉ evs) ∧
      (∀ sub w, Event.Connect sub w ∉ evs) ∧
      (∀ sub a, Event.SetAddress sub a ∉ evs) ∧
      (∀ u, Event.GetHostAddresses u ∉ evs) :=
  OnConnectError_retry_limit exEnv { exConnecting with pConnectionCount := 5 }
    { status := stError, code := errConnectionError } _ rfl rfl (by decide)

/-- C8: for `OnConnectError(0, status)` with no address left, less than
`pConnectionWindow` elapsed since `pConnectionInitTime`, retries left and a status that
is not fatal, the stream after the call is the stream before it with three calls added
to the trace: the socket close and the connect-error notification every
`OnConnectError` starts with, and one `RegisterTask` at
`pConnectionInitTime + pConnectionWindow`.  So no out-queue changes, no message handler
is called back and no connect is attempted. -/
theorem OnConnectError_reconnect_task (env : Env) (s : Stream) (status : XRootDStatus)
    (d : SubStreamData) (h0 : s.pSubStreams[0]? = some d) (ha : s.pAddresses = [])
    (hel : env.now - s.pConnectionInitTime < (s.pConnectionWindow : Int))
    (hc : s.pConnectionCount < s.pConnectionRetry) (hnf : status.IsFatal = false) :
    ∃ s1 evs, OnConnectError env s 0 status = some s1 ∧
      s1 = { s with trace := s.trace ++ evs } ∧
      evs = [Event.Close 0, Event.NotifyConnErrHandler s.pUrl status,
        Event.RegisterTask (s.pConnectionInitTime + s.pConnectionWindow)] ∧
      (evs.filter Event.isRegisterTask).length = 1 ∧
      s1.outQueues = s.outQueues ∧
      s1.pSubStreams = s.pSubStreams ∧
      evs.filter Event.isStatusReady = [] ∧
      (∀ sub w, Event.Connect sub w ∉ evs) ∧
      (∀ sub a, Event.SetAddress sub a ∉ evs) := by
  refine ⟨_, _, ?_, rfl, rfl, rfl, rfl, rfl, rfl, ?_, ?_⟩
  · unfold OnConnectError
    rw [h0]
    simp [Stream.emit, ha, hel, hc, hnf]
  · intro sub w h
    simp at h
  · intro sub a h
    simp at h

theorem OnConnectError_reconnect_task_witness :
    ∃ s1 evs, OnConnectError exEnv exConnecting 0
        { status := stError, code := errConnectionError } = some s1 ∧
      s1 = { exConnecting with trace := exConnecting.trace ++ evs } ∧
      evs = [Event.Close 0,
        Event.NotifyConnErrHandler { host := 1 }
          { status := stError, code := errConnectionError },
        Event.RegisterTask 118] ∧
      (evs.filter Event.isRegisterTask).length = 1 ∧
      s1.outQueues = exConnecting.outQueues ∧
      s1.pSubStreams = exConnecting.pSubStreams ∧
      evs.filter Event.isStatusReady = [] ∧
      (∀ sub w, Event.Connect sub w ∉ evs) ∧
      (∀ sub a, Event.SetAddress sub a ∉ evs) :=
  OnConnectError_reconnect_task exEnv exConnecting
    { status := stError, code := errConnectionError } _ rfl rfl (by decide) (by decide) rfl

/-! ## The address work-list -/

theorem attempted_append_drop (env : Env) (l : List XrdNetAddr) :
    attempted env l ++ l.drop (attempted env l).length = l := by
  induction l with
  | nil => rfl
  | cons a rest ih =>
    simp only [attempted]
    split
    · simp
    · simp [ih]

theorem filterMap_address_attemptCalls (window : Nat) (l : List XrdNetAddr) :
    (attemptCalls window l).filterMap Event.address? = l := by
  unfold attemptCalls
  induction l with
  | nil => rfl
  | cons a rest ih =>
    rw [List.flatMap_cons, List.filterMap_append, ih]
    rfl

theorem HasNetAddr_iff (a : XrdNetAddr) (l : List XrdNetAddr) :
    HasNetAddr a l = true ↔ a ∈ l := by
  unfold HasNetAddr
  rw [List.any_eq_true]
  constructor
  · rintro ⟨x, hx, he⟩
    have hxa : x = a := by simpa using he
    exact hxa ▸ hx
  · intro h
    exact ⟨a, h, by simp⟩

/-- The work-list in terms of the two resolutions. -/
theorem workList_eq (env : Env) (s : Stream) :
    workList env s =
      if s.pPrefer.IsValid = true ∧
          (env.GetHostAddresses s.pPrefer s.pAddressType).1.IsOK = true then
        (env.GetHostAddresses s.pUrl s.pAddressType).2.filter
            (fun a => decide (a ∉ (env.GetHostAddresses s.pPrefer s.pAddressType).2)) ++
          (env.GetHostAddresses s.pPrefer s.pAddressType).2
      else (env.GetHostAddresses s.pUrl s.pAddressType).2 := by
  unfold workList EnableLink.prefer EnableLink.resolve
  simp only [Stream.emit]
  by_cases hv : s.pPrefer.IsValid = true
  · by_cases hk : (env.GetHostAddresses s.pPrefer s.pAddressType).1.IsOK = true
    · simp only [hv, hk, and_self, if_true, Bool.not_true, Bool.false_eq_true, if_false]
      congr 1
      apply List.filter_congr
      intro a _
      cases hh : HasNetAddr a (env.GetHostAddresses s.pPrefer s.pAddressType).2 with
      | true => simp [(HasNetAddr_iff _ _).mp hh]
      | false =>
        have : a ∉ (env.GetHostAddresses s.pPrefer s.pAddressType).2 := by
          intro hm
          rw [(HasNetAddr_iff _ _).mpr hm] at hh
          exact Bool.noConfusion hh
        simp [this]
    · simp [hv, hk]
  · simp [hv]

/-- When the primary resolution succeeds, the resolve-and-connect part of `EnableLink`
is the connect loop run on the work-list. -/
theorem EnableLink.connect_ok (env : Env) (s : Stream) (path : PathID)
    (d0 : SubStreamData) (h0 : s.pSubStreams[0]? = some d0)
    (hr : (env.GetHostAddresses s.pUrl s.pAddressType).1.IsOK = true) :
    EnableLink.connect env s path =
      some (loopStatus env (EnableLink.resolve env s).1 (workList env s).reverse,
        loopStream env (EnableLink.prefer env (EnableLink.resolve env s).2) d0
          (workList env s).reverse, path) := by
  unfold EnableLink.connect
  dsimp only
  have hr2 : (EnableLink.resolve env s).1.IsOK = true := hr
  simp only [hr2, Bool.not_true, Bool.false_eq_true, if_false]
  have h3 : (EnableLink.prefer env (EnableLink.resolve env s).2).pSubStreams[0]? =
      some d0 := by
    rw [(EnableLink.prefer_frame env (EnableLink.resolve env s).2).1]; exact h0
  rw [connectLoop_shape env _ _ _ d0 h3]
  rfl

/-- C9: when `EnableLink` gets to resolve (substream 0 disconnected, error window
passed) and the primary resolution succeeds, the work-list it builds is: with a valid
preferred url that resolves, the primary addresses that do not occur in the preferred
list, in primary order, followed by all preferred addresses in resolved order;
otherwise the primary resolution.  It is the list `EnableLink` works on: the addresses
left in `pAddresses` followed by the addresses handed to socket 0, last one first, make
up the work-list. -/
theorem EnableLink_workList_order (env : Env) (s : Stream) (path : PathID)
    (d0 : SubStreamData) (h0 : s.pSubStreams[0]? = some d0)
    (hd : d0.status = SocketStatus.Disconnected)
    (hw : (s.pStreamErrorWindow : Int) ≤ env.now - s.pLastStreamError)
    (hr : (env.GetHostAddresses s.pUrl s.pAddressType).1.IsOK = true) :
    (s.pPrefer.IsValid = true →
      (env.GetHostAddresses s.pPrefer s.pAddressType).1.IsOK = true →
      workList env s =
        (env.GetHostAddresses s.pUrl s.pAddressType).2.filter
            (fun a => decide (a ∉ (env.GetHostAddresses s.pPrefer s.pAddressType).2)) ++
          (env.GetHostAddresses s.pPrefer s.pAddressType).2) ∧
    (s.pPrefer.IsValid = false ∨
        (env.GetHostAddresses s.pPrefer s.pAddressType).1.IsOK = false →
      workList env s = (env.GetHostAddresses s.pUrl s.pAddressType).2) ∧
    ∃ st s1 evs, EnableLink env s path = some (st, s1, path) ∧
      s1.trace = s.trace ++ evs ∧
      s1.pAddresses ++ (evs.filterMap Event.address?).reverse = workList env s := by
  refine ⟨?_, ?_, ?_⟩
  · intro hv hk
    rw [workList_eq, if_pos ⟨hv, hk⟩]
  · intro hv
    rw [workList_eq, if_neg]
    intro hc
    rcases hv with hv | hv
    · rw [hv] at hc; exact Bool.noConfusion hc.1
    · rw [hv] at hc; exact Bool.noConfusion hc.2
  · rw [EnableLink_of_disconnected env s path d0 h0 hd, if_neg (not_lt.mpr hw),
      EnableLink.connect_ok env s path d0 h0 hr]
    obtain ⟨-, -, hp3, hp4⟩ := EnableLink.prefer_frame env (EnableLink.resolve env s).2
    refine ⟨_, _, ([Event.GetHostAddresses s.pUrl] ++
        (if (EnableLink.resolve env s).2.pPrefer.IsValid then
          [Event.GetHostAddresses (EnableLink.resolve env s).2.pPrefer] else [])) ++
        attemptCalls (EnableLink.prefer env (EnableLink.resolve env s).2).pConnectionWindow
          (attempted env (workList env s).reverse), rfl, ?_, ?_⟩
    · simp only [loopStream]
      rw [hp4]
      simp [EnableLink.resolve, Stream.emit]
    · have hfm : ∀ (l : List Event) (w : Nat) (t : List XrdNetAddr),
          l.filterMap Event.address? = [] →
          ((l ++ attemptCalls w t).filterMap Event.address?) = t := by
        intro l w t hl
        rw [List.filterMap_append, hl, filterMap_address_attemptCalls]
        rfl
      rw [hfm]
      · simp only [loopStream]
        by_cases hnil : (workList env s).reverse = []
        · have hW : workList env s = [] := List.reverse_eq_nil_iff.mp hnil
          simp only [hnil, if_true, attempted]
          rw [List.reverse_nil, List.append_nil]
          rfl
        · simp only [hnil, if_false]
          rw [← List.reverse_append, attempted_append_drop, List.reverse_reverse]
      · split <;> rfl

theorem EnableLink_workList_order_witness :
    workList exEnvPrefer exPrefer = [11, 13, 12] ∧
    workList exEnvPrefer { exPrefer with pPrefer := { host := 2, valid := false } } =
      [11, 12, 13] ∧
    ∃ st s1 evs, EnableLink exEnvPrefer exPrefer { up := 0, down := 0 } =
        some (st, s1, { up := 0, down := 0 }) ∧
      s1.trace = exPrefer.trace ++ evs ∧
      s1.pAddresses ++ (evs.filterMap Event.address?).reverse =
        workList exEnvPrefer exPrefer :=
  ⟨(EnableLink_workList_order exEnvPrefer exPrefer { up := 0, down := 0 } _ rfl rfl
      (by decide) rfl).1 rfl rfl,
   (EnableLink_workList_order exEnvPrefer
      { exPrefer with pPrefer := { host := 2, valid := false } } { up := 0, down := 0 } _
      rfl rfl (by decide) rfl).2.1 (Or.inl rfl),
   (EnableLink_workList_order exEnvPrefer exPrefer { up := 0, down := 0 } _ rfl rfl
      (by decide) rfl).2.2⟩

/-- The call of C9's witness, evaluated: the preferred address 12 is tried first, then
13, then 11, which connects; nothing is left in `pAddresses`. -/
theorem EnableLink_prefer_example :
    (EnableLink exEnvPrefer exPrefer { up := 0, down := 0 }).map
      (fun r => (r.1, r.2.1.pAddresses, r.2.1.trace)) =
    some ({}, [],
      [Event.GetHostAddresses { host := 1 }, Event.GetHostAddresses { host := 2 },
       Event.SetAddress 0 12, Event.Connect 0 30,
       Event.SetAddress 0 13, Event.Connect 0 30,
       Event.SetAddress 0 11, Event.Connect 0 30]) := by
  rfl

/-- The re-ordered list is a permutation of the primary list exactly when every
preferred address occurs in the primary list as often as in the preferred list. -/
theorem filter_append_perm_iff (P Q : List XrdNetAddr) :
    (P.filter (fun a => decide (a ∉ Q)) ++ Q).Perm P ↔ ∀ a ∈ Q, Q.count a = P.count a := by
  rw [List.perm_iff_count]
  constructor
  · intro h a ha
    have h1 := h a
    rw [List.count_append] at h1
    have h2 : List.count a (P.filter (fun a => decide (a ∉ Q))) = 0 := by
      apply List.count_eq_zero.mpr
      intro hm
      have := (List.mem_filter.mp hm).2
      simp [ha] at this
    rw [h2, Nat.zero_add] at h1
    exact h1
  · intro h a
    rw [List.count_append]
    by_cases ha : a ∈ Q
    · have h2 : List.count a (P.filter (fun a => decide (a ∉ Q))) = 0 := by
        apply List.count_eq_zero.mpr
        intro hm
        have := (List.mem_filter.mp hm).2
        simp [ha] at this
      rw [h2, Nat.zero_add]
      exact h a ha
    · have h2 : List.count a (P.filter (fun a => decide (a ∉ Q))) = List.count a P := by
        apply List.count_filter
        simp [ha]
      rw [h2, List.count_eq_zero.mpr ha, Nat.add_zero]

/-- C10, as stated, fails: host 1 resolves to 11, 11 and the preferred host 2 to 11, so
every preferred address occurs in the primary list; the work-list built with the
preference is 11 alone, the one built without it is 11, 11, and the first is not a
permutation of the second. -/
theorem workList_not_perm :
    (∀ a ∈ (exEnvTwice.GetHostAddresses exPrefer.pPrefer exPrefer.pAddressType).2,
      a ∈ (exEnvTwice.GetHostAddresses exPrefer.pUrl exPrefer.pAddressType).2) ∧
    workList exEnvTwice exPrefer = [11] ∧
    workList exEnvTwice { exPrefer with pPrefer := { host := 2, valid := false } } =
      [11, 11] ∧
    ¬ (workList exEnvTwice exPrefer).Perm
        (workList exEnvTwice { exPrefer with pPrefer := { host := 2, valid := false } }) := by
  refine ⟨by decide, rfl, rfl, ?_⟩
  intro h
  have := h.length_eq
  revert this
  decide

/-- C10, amended: when the preferred url is set and resolves, the work-list built with
the preference is a permutation of the work-list built without it (the primary
resolution) if and only if every preferred address occurs in the primary resolution
exactly as often as in the preferred one; in particular when neither resolution lists
an address twice and every preferred address occurs in the primary resolution. -/
theorem workList_perm (env : Env) (s : Stream)
    (hv : s.pPrefer.IsValid = true)
    (hk : (env.GetHostAddresses s.pPrefer s.pAddressType).1.IsOK = true) :
    workList env { s with pPrefer := { s.pPrefer with valid := false } } =
      (env.GetHostAddresses s.pUrl s.pAddressType).2 ∧
    ((workList env s).Perm
        (workList env { s with pPrefer := { s.pPrefer with valid := false } }) ↔
      ∀ a ∈ (env.GetHostAddresses s.pPrefer s.pAddressType).2,
        (env.GetHostAddresses s.pPrefer s.pAddressType).2.count a =
          (env.GetHostAddresses s.pUrl s.pAddressType).2.count a) ∧
    ((env.GetHostAddresses s.pUrl s.pAddressType).2.Nodup →
      (env.GetHostAddresses s.pPrefer s.pAddressType).2.Nodup →
      (∀ a ∈ (env.GetHostAddresses s.pPrefer s.pAddressType).2,
        a ∈ (env.GetHostAddresses s.pUrl s.pAddressType).2) →
      (workList env s).Perm
        (workList env { s with pPrefer := { s.pPrefer with valid := false } })) := by
  have h1 : workList env { s with pPrefer := { s.pPrefer with valid := false } } =
      (env.GetHostAddresses s.pUrl s.pAddressType).2 := by
    rw [workList_eq, if_neg]
    · intro hc
      exact Bool.noConfusion hc.1
  have h2 : workList env s =
      (env.GetHostAddresses s.pUrl s.pAddressType).2.filter
          (fun a => decide (a ∉ (env.GetHostAddresses s.pPrefer s.pAddressType).2)) ++
        (env.GetHostAddresses s.pPrefer s.pAddressType).2 := by
    rw [workList_eq, if_pos ⟨hv, hk⟩]
  refine ⟨h1, ?_, ?_⟩
  · rw [h1, h2]
    exact filter_append_perm_iff _ _
  · intro hP hQ hsub
    rw [h1, h2]
    apply (filter_append_perm_iff _ _).mpr
    intro a ha
    rw [List.count_eq_one_of_mem hQ ha, List.count_eq_one_of_mem hP (hsub a ha)]

theorem workList_perm_witness :
    (workList exEnvPrefer exPrefer).Perm
      (workList exEnvPrefer { exPrefer with pPrefer := { host := 2, valid := false } }) ∧
    workList exEnvPrefer exPrefer = [11, 13, 12] ∧
    workList exEnvPrefer { exPrefer with pPrefer := { host := 2, valid := false } } =
      [11, 12, 13] :=
  ⟨(workList_perm exEnvPrefer exPrefer rfl rfl).2.2 (by decide) (by decide) (by decide),
   rfl, (workList_perm exEnvPrefer exPrefer rfl rfl).1⟩

/-! ## The order of connection attempts -/

theorem attempted_of_first_ok (env : Env) (l1 : List XrdNetAddr) (a : XrdNetAddr)
    (l2 : List XrdNetAddr) (hf : ∀ x ∈ l1, (env.Connect 0 x).IsOK = false)
    (hok : (env.Connect 0 a).IsOK = true) :
    attempted env (l1 ++ a :: l2) = l1 ++ [a] := by
  induction l1 with
  | nil => simp [attempted, hok]
  | cons x xs ih =>
    have hx : (env.Connect 0 x).IsOK = false := hf x (List.mem_cons_self _ _)
    have hxs : ∀ y ∈ xs, (env.Connect 0 y).IsOK = false :=
      fun y hy => hf y (List.mem_cons_of_mem _ hy)
    simp [attempted, hx, ih hxs]

theorem attempted_of_all_fail (env : Env) (l : List XrdNetAddr)
    (hf : ∀ x ∈ l, (env.Connect 0 x).IsOK = false) : attempted env l = l := by
  induction l with
  | nil => rfl
  | cons x xs ih =>
    have hx : (env.Connect 0 x).IsOK = false := hf x (List.mem_cons_self _ _)
    have hxs : ∀ y ∈ xs, (env.Connect 0 y).IsOK = false :=
      fun y hy => hf y (List.mem_cons_of_mem _ hy)
    simp [attempted, hx, ih hxs]

/-- What `EnableLink` does once the primary resolution has succeeded, in terms of the
addresses attempted: the status, the addresses left, the addresses handed to socket 0
and the status of substream 0. -/
theorem EnableLink_resolved (env : Env) (s : Stream) (path : PathID)
    (d0 : SubStreamData) (h0 : s.pSubStreams[0]? = some d0)
    (hd : d0.status = SocketStatus.Disconnected)
    (hw : (s.pStreamErrorWindow : Int) ≤ env.now - s.pLastStreamError)
    (hr : (env.GetHostAddresses s.pUrl s.pAddressType).1.IsOK = true) :
    ∃ s1 evs d1, EnableLink env s path =
        some (loopStatus env (env.GetHostAddresses s.pUrl s.pAddressType).1
          (workList env s).reverse, s1, path) ∧
      s1.trace = s.trace ++ evs ∧
      evs.filterMap Event.address? = attempted env (workList env s).reverse ∧
      s1.pAddresses =
        ((workList env s).reverse.drop (attempted env (workList env s).reverse).length).reverse ∧
      s1.pSubStreams[0]? = some d1 ∧
      d1.status =
        (match (attempted env (workList env s).reverse).getLast? with
          | none => SocketStatus.Disconnected
          | some a =>
            if (env.Connect 0 a).IsOK then SocketStatus.Connecting
            else SocketStatus.Disconnected) ∧
      s1.outQueues = s.outQueues := by
  have hE : EnableLink env s path = some
      (loopStatus env (EnableLink.resolve env s).1 (workList env s).reverse,
        loopStream env (EnableLink.prefer env (EnableLink.resolve env s).2) d0
          (workList env s).reverse, path) := by
    rw [EnableLink_of_disconnected env s path d0 h0 hd, if_neg (not_lt.mpr hw),
      EnableLink.connect_ok env s path d0 h0 hr]
  obtain ⟨hp1, -, hp3, hp4⟩ := EnableLink.prefer_frame env (EnableLink.resolve env s).2
  have h3 : (EnableLink.prefer env (EnableLink.resolve env s).2).pSubStreams[0]? =
      some d0 := by
    rw [hp1]; exact h0
  refine ⟨_, ([Event.GetHostAddresses s.pUrl] ++
      (if (EnableLink.resolve env s).2.pPrefer.IsValid then
        [Event.GetHostAddresses (EnableLink.resolve env s).2.pPrefer] else [])) ++
      attemptCalls (EnableLink.prefer env (EnableLink.resolve env s).2).pConnectionWindow
        (attempted env (workList env s).reverse),
      { d0 with
        socketAddress :=
          (match (attempted env (workList env s).reverse).getLast? with
            | none => d0.socketAddress
            | some a => some a),
        status :=
          (match (attempted env (workList env s).reverse).getLast? with
            | none => d0.status
            | some a =>
              if (env.Connect 0 a).IsOK then SocketStatus.Connecting else d0.status) },
      hE, ?_, ?_, ?_, ?_, ?_, ?_⟩
  · simp only [loopStream]
    rw [hp4]
    simp [EnableLink.resolve, Stream.emit]
  · rw [List.filterMap_append, filterMap_address_attemptCalls]
    have : (([Event.GetHostAddresses s.pUrl] ++
        (if (EnableLink.resolve env s).2.pPrefer.IsValid then
          [Event.GetHostAddresses (EnableLink.resolve env s).2.pPrefer] else [])).filterMap
        Event.address?) = [] := by
      split <;> rfl
    rw [this]
    rfl
  · simp only [loopStream]
    by_cases hnil : (workList env s).reverse = []
    · simp only [hnil, if_true, attempted]
      have hW : workList env s = [] := List.reverse_eq_nil_iff.mp hnil
      simp only [List.length_nil, List.drop_nil, List.reverse_nil]
      exact hW
    · simp only [hnil, if_false]
  · simp only [loopStream]
    exact getElem?_set_zero _ _ _ h3
  · simp only [hd]
  · exact EnableLink_outQueues env s path _ _ _ hE

/-- C11: when `EnableLink` runs its connect loop (substream 0 disconnected, error
window passed, primary resolution OK) on the work-list `a1..an`: if `ak` is the last
address of the list on which `Connect` succeeds after failing on all of
`a(k+1)..an`, the addresses handed to the socket are `an, .., ak` in that order, the
result is the OK status of that attempt, substream 0 is `Connecting` and the
work-list left is `a1..a(k-1)`; if `Connect` fails on every address, all of them are
tried in reverse order, the work-list ends empty, substream 0 stays `Disconnected`,
and for a non-empty list the status returned is the error of the attempt on `a1`. -/
theorem EnableLink_connect_order (env : Env) (s : Stream) (path : PathID)
    (d0 : SubStreamData) (h0 : s.pSubStreams[0]? = some d0)
    (hd : d0.status = SocketStatus.Disconnected)
    (hw : (s.pStreamErrorWindow : Int) ≤ env.now - s.pLastStreamError)
    (hr : (env.GetHostAddresses s.pUrl s.pAddressType).1.IsOK = true) :
    (∀ pre ak post, workList env s = pre ++ ak :: post →
      (∀ x ∈ post, (env.Connect 0 x).IsOK = false) → (env.Connect 0 ak).IsOK = true →
      ∃ s1 evs d1, EnableLink env s path = some (env.Connect 0 ak, s1, path) ∧
        s1.trace = s.trace ++ evs ∧
        evs.filterMap Event.address? = post.reverse ++ [ak] ∧
        s1.pAddresses = pre ∧
        s1.pSubStreams[0]? = some d1 ∧ d1.status = SocketStatus.Connecting) ∧
    ((∀ x ∈ workList env s, (env.Connect 0 x).IsOK = false) →
      ∃ st s1 evs d1, EnableLink env s path = some (st, s1, path) ∧
        s1.trace = s.trace ++ evs ∧
        evs.filterMap Event.address? = (workList env s).reverse ∧
        s1.pAddresses = [] ∧
        s1.pSubStreams[0]? = some d1 ∧ d1.status = SocketStatus.Disconnected ∧
        (∀ a1 rest, workList env s = a1 :: rest → st = env.Connect 0 a1 ∧ st.IsOK = false)) := by
  obtain ⟨s1, evs, d1, hE, htr, hfm, had, h10, hst, -⟩ :=
    EnableLink_resolved env s path d0 h0 hd hw hr
  constructor
  · intro pre ak post hW hf hok
    have hrev : (workList env s).reverse = post.reverse ++ ak :: pre.reverse := by
      rw [hW]; simp
    have hf2 : ∀ x ∈ post.reverse, (env.Connect 0 x).IsOK = false :=
      fun x hx => hf x (List.mem_reverse.mp hx)
    have hat := attempted_of_first_ok env post.reverse ak pre.reverse hf2 hok
    rw [hrev] at hE hfm had hst
    rw [hat] at hfm had hst
    refine ⟨s1, evs, d1, ?_, htr, hfm, ?_, h10, ?_⟩
    · rw [hE]
      simp [loopStatus, hat]
    · rw [had]
      have hdrop : List.drop (post.reverse ++ [ak]).length
          (post.reverse ++ ak :: pre.reverse) = pre.reverse := by
        have : post.reverse ++ ak :: pre.reverse = (post.reverse ++ [ak]) ++ pre.reverse := by
          simp
        rw [this, List.drop_left]
      rw [hdrop, List.reverse_reverse]
    · rw [hst]
      simp [hok]
  · intro hf
    have hf2 : ∀ x ∈ (workList env s).reverse, (env.Connect 0 x).IsOK = false :=
      fun x hx => hf x (List.mem_reverse.mp hx)
    have hat := attempted_of_all_fail env _ hf2
    rw [hat] at hfm had hst
    refine ⟨_, s1, evs, d1, hE, htr, hfm, ?_, h10, ?_, ?_⟩
    · rw [had]; simp
    · rw [hst]
      cases hl : (workList env s).reverse.getLast? with
      | none => rfl
      | some a =>
        have hm : a ∈ (workList env s).reverse := List.mem_of_getLast?_eq_some hl
        simp [hf2 a hm]
    · intro a1 rest hW
      have hl : (workList env s).reverse.getLast? = some a1 := by
        rw [hW]; simp
      have h1 : (env.Connect 0 a1).IsOK = false := hf a1 (by rw [hW]; simp)
      simp only [loopStatus, hat, hl]
      exact ⟨trivial, h1⟩

theorem EnableLink_connect_order_witness :
    (∃ s1 evs d1, EnableLink exEnvSecond exIdle { up := 0, down := 0 } =
        some (exEnvSecond.Connect 0 12, s1, { up := 0, down := 0 }) ∧
      s1.trace = exIdle.trace ++ evs ∧
      evs.filterMap Event.address? = [13].reverse ++ [12] ∧
      s1.pAddresses = [11] ∧
      s1.pSubStreams[0]? = some d1 ∧ d1.status = SocketStatus.Connecting) ∧
    (∃ st s1 evs d1, EnableLink exEnvNone exIdle { up := 0, down := 0 } =
        some (st, s1, { up := 0, down := 0 }) ∧
      s1.trace = exIdle.trace ++ evs ∧
      evs.filterMap Event.address? = (workList exEnvNone exIdle).reverse ∧
      s1.pAddresses = [] ∧
      s1.pSubStreams[0]? = some d1 ∧ d1.status = SocketStatus.Disconnected ∧
      (∀ a1 rest, workList exEnvNone exIdle = a1 :: rest →
        st = exEnvNone.Connect 0 a1 ∧ st.IsOK = false)) :=
  ⟨(EnableLink_connect_order exEnvSecond exIdle { up := 0, down := 0 } _ rfl rfl
      (by decide) rfl).1 [11] 12 [13] rfl (by decide) rfl,
   (EnableLink_connect_order exEnvNone exIdle { up := 0, down := 0 } _ rfl rfl
      (by decide) rfl).2 (by decide)⟩

/-- The two calls of C11's witness, evaluated: with only 12 connecting, 13 then 12 are
tried and 11 is left; with nothing connecting, 13, 12, 11 are tried and the status is
the error of the attempt on 11. -/
theorem EnableLink_connect_order_example :
    (EnableLink exEnvSecond exIdle { up := 0, down := 0 }).map
      (fun r => (r.1, r.2.1.pAddresses, r.2.1.trace.filterMap Event.address?,
        r.2.1.pSubStreams.map (fun d => d.status))) =
      some ({}, [11], [13, 12], [SocketStatus.Connecting]) ∧
    (EnableLink exEnvNone exIdle { up := 0, down := 0 }).map
      (fun r => (r.1, r.2.1.pAddresses, r.2.1.trace.filterMap Event.address?,
        r.2.1.pSubStreams.map (fun d => d.status))) =
      some ({ status := stError, code := errConnectionError, errNo := 11 }, [],
        [13, 12, 11], [SocketStatus.Disconnected]) := by
  constructor <;> rfl

/-! ## Path fall-back when substream 0 is connected -/

/-- With substream 0 connected, `EnableLink` is its uplink part. -/
theorem EnableLink_of_connected (env : Env) (s : Stream) (path : PathID)
    (d0 : SubStreamData) (h0 : s.pSubStreams[0]? = some d0)
    (hd : d0.status = SocketStatus.Connected) :
    EnableLink env s path = EnableLink.uplink env s path := by
  unfold EnableLink
  rw [h0]
  simp [hd]

/-- C13, as stated, fails: substream 0 is connected and substream 1 is connecting;
`EnableLink` on the path (1, 1) sets `down` to 0 but keeps `up = 1`, although
substream 1 is not connected, and enables no uplink: the stream and its trace are
unchanged. -/
theorem EnableLink_connecting_up_kept :
    exBusy.pSubStreams.map (fun d => d.status) =
      [SocketStatus.Connected, SocketStatus.Connecting] ∧
    EnableLink exEnv exBusy { up := 1, down := 1 } =
      some ({}, exBusy, { up := 1, down := 0 }) := by
  constructor <;> rfl

/-- C13, amended: when substream 0 is connected and `path` names two existing
substreams, `EnableLink(path)` returns with `down` replaced by 0 exactly when
substream `path.down` is not connected and `up` replaced by 0 exactly when substream
`path.up` is disconnected.  If substream `path.up` is disconnected the uplink of
substream 0 is enabled, if it is connected its own uplink is enabled, and the status is
that of the call; if it is connecting, `up` is kept, nothing is called and the status
is OK.  No other part of the stream changes. -/
theorem EnableLink_path_fallback (env : Env) (s : Stream) (path : PathID)
    (d0 dDown dUp : SubStreamData) (h0 : s.pSubStreams[0]? = some d0)
    (hd : d0.status = SocketStatus.Connected)
    (hdown : s.pSubStreams[path.down]? = some dDown)
    (hup : s.pSubStreams[path.up]? = some dUp) :
    ∃ st s1 p, EnableLink env s path = some (st, s1, p) ∧
      p.down = (if dDown.status = SocketStatus.Connected then path.down else 0) ∧
      p.up = (if dUp.status = SocketStatus.Disconnected then 0 else path.up) ∧
      (dUp.status = SocketStatus.Disconnected →
        st = env.EnableUplink 0 ∧ s1 = s.emit [Event.EnableUplink 0]) ∧
      (dUp.status = SocketStatus.Connected →
        st = env.EnableUplink path.up ∧ s1 = s.emit [Event.EnableUplink path.up]) ∧
      (dUp.status = SocketStatus.Connecting → st = {} ∧ s1 = s) := by
  rw [EnableLink_of_connected env s path d0 h0 hd]
  unfold EnableLink.uplink
  rw [hdown]
  dsimp only
  have hup1 : s.pSubStreams[(if dDown.status ≠ SocketStatus.Connected then
      ({ path with down := 0 } : PathID) else path).up]? = some dUp := by
    split <;> exact hup
  rw [hup1]
  cases hs : dUp.status <;> cases hs2 : dDown.status <;> simp [hs, hs2] <;>
    exact ⟨_, _, _, ⟨rfl, rfl, rfl⟩, rfl, rfl, rfl, rfl⟩

theorem EnableLink_path_fallback_witness :
    ∃ st s1 p, EnableLink exEnv exBoth { up := 1, down := 1 } = some (st, s1, p) ∧
      p.down = 1 ∧ p.up = 1 ∧
      st = exEnv.EnableUplink 1 ∧ s1 = exBoth.emit [Event.EnableUplink 1] := by
  obtain ⟨st, s1, p, h1, h2, h3, -, h5, -⟩ :=
    EnableLink_path_fallback exEnv exBoth { up := 1, down := 1 }
      _ _ _ rfl rfl rfl rfl
  exact ⟨st, s1, p, h1, h2, h3, (h5 rfl).1, (h5 rfl).2⟩

/-! ## Sending on a path the stream does not have -/

theorem EnableLink.uplink_up_zero (env : Env) (s : Stream) (path : PathID)
    (st : XRootDStatus) (s1 : Stream) (p : PathID) (hz : path.up = 0)
    (h : EnableLink.uplink env s path = some (st, s1, p)) : p.up = 0 := by
  unfold EnableLink.uplink at h
  split at h
  · simp at h
  · dsimp only at h
    split at h
    · simp at h
    · split at h
      · simp only [Option.some.injEq, Prod.mk.injEq] at h
        rw [← h.2.2]
      · split at h
        · simp only [Option.some.injEq, Prod.mk.injEq] at h
          rw [← h.2.2]
          split <;> exact hz
        · simp only [Option.some.injEq, Prod.mk.injEq] at h
          rw [← h.2.2]
          split <;> exact hz

theorem EnableLink.connect_path (env : Env) (s : Stream) (path : PathID)
    (st : XRootDStatus) (s1 : Stream) (p : PathID)
    (h : EnableLink.connect env s path = some (st, s1, p)) : p = path := by
  unfold EnableLink.connect at h
  dsimp only at h
  split at h
  · simp only [Option.some.injEq, Prod.mk.injEq] at h
    exact h.2.2.symm
  · split at h
    · simp at h
    · simp only [Option.some.injEq, Prod.mk.injEq] at h
      exact h.2.2.symm

/-- The method `EnableLink` leaves an `up` index of 0 at 0. -/
theorem EnableLink_up_zero (env : Env) (s : Stream) (path : PathID)
    (st : XRootDStatus) (s1 : Stream) (p : PathID) (hz : path.up = 0)
    (h : EnableLink env s path = some (st, s1, p)) : p.up = 0 := by
  unfold EnableLink at h
  split at h
  · simp at h
  · split at h
    · simp only [Option.some.injEq, Prod.mk.injEq] at h
      rw [← h.2.2]; exact hz
    · split at h
      · exact EnableLink.uplink_up_zero env s path st s1 p hz h
      · split at h
        · simp only [Option.some.injEq, Prod.mk.injEq] at h
          rw [← h.2.2]; exact hz
        · rw [EnableLink.connect_path env s path st s1 p h]; exact hz

/-- C14: when the transport picks an `up` index that is not the index of a substream
and its finalising call leaves the path as it is, a `Send` that returns an OK status
has appended the entry `(msg, handler, expires, stateful)` at the back of out-queue 0
and left every other out-queue as it was. -/
theorem Send_invalid_up (env : Env) (s : Stream) (msg : Message) (handler : Nat)
    (stateful : Bool) (expires : Int) (st : XRootDStatus) (s1 : Stream)
    (hup : s.pSubStreams.length ≤ (env.MultiplexSubStream msg).up)
    (hhint : ∀ p, env.MultiplexSubStreamHint msg p = p)
    (hS : Send env s msg handler stateful expires = some (st, s1))
    (hok : st.IsOK = true) :
    ∃ q0, s.outQueues[0]? = some q0 ∧
      s1.outQueues = s.outQueues.set 0
        (q0 ++ [{ msg := some msg, handler := handler, expires := expires,
                  stateful := stateful }]) := by
  unfold Send at hS
  split at hS
  · simp at hS
  · simp only [Option.some.injEq, Prod.mk.injEq] at hS
    rw [← hS.1] at hok
    exact absurd hok (by decide)
  · unfold Send.enqueue at hS
    have hpath : (Send.path env s msg).up = 0 := by
      unfold Send.path
      simp [hup]
    split at hS
    · simp at hS
    · rename_i st2 s2 p2 hE
      have hp2 : p2.up = 0 := EnableLink_up_zero env s _ st2 s2 p2 hpath hE
      have hq2 := EnableLink_outQueues env s _ st2 s2 p2 hE
      split at hS
      · dsimp only at hS
        rw [hhint, hp2] at hS
        split at hS
        · simp at hS
        · rename_i d hd0
          simp only [Option.some.injEq, Prod.mk.injEq] at hS
          refine ⟨d.outQueue, ?_, ?_⟩
          · rw [← hq2]
            simp [Stream.outQueues, hd0]
          · rw [← hS.2, ← hq2]
            simp [Stream.outQueues, Stream.setSub, List.map_set, OutQueue.PushBack]
      · simp only [Option.some.injEq, Prod.mk.injEq] at hS
        rw [← hS.1] at hok
        simp [XRootDStatus.IsOK] at hok

theorem Send_invalid_up_witness :
    ∃ st s1, Send exEnvUp5 exBoth { id := 9 } 9 true 190 = some (st, s1) ∧
      st.IsOK = true ∧
      ∃ q0, exBoth.outQueues[0]? = some q0 ∧
        s1.outQueues = exBoth.outQueues.set 0
          (q0 ++ [{ msg := some { id := 9 }, handler := 9, expires := 190,
                    stateful := true }]) :=
  ⟨_, _, rfl, rfl,
    Send_invalid_up exEnvUp5 exBoth { id := 9 } 9 true 190 _ _ (by decide) (fun _ => rfl)
      rfl rfl⟩

/-! ## An error on a peripheral substream while substream 0 is connecting -/

/-- C15 at a failing input.  Both substreams of `exBoth` are connected with one
stateless entry each.  Substream 0 is lost: the entries stay queued and substream 0 is
connecting again.  Then substream 1 fails: its entry is moved to out-queue 0 and, with
substream 0 connecting, `OnError` goes on to `OnFatalError`: both out-queues are
drained and both handlers get a failure report of severity `stFatal`. -/
theorem OnError_peripheral_while_connecting :
    (OnError exEnvDns exBoth 0 { status := stError, code := errConnectionError }).map
      (fun s1 => (s1.pSubStreams.map (fun d => d.status), s1.outQueues,
        s1.trace.filter Event.isStatusReady)) =
      some ([SocketStatus.Connecting, SocketStatus.Connected], exBoth.outQueues, []) ∧
    ((OnError exEnvDns exBoth 0 { status := stError, code := errConnectionError }).bind
      (fun s1 => OnError exEnvDns s1 1
        { status := stError, code := errConnectionError })).map
      (fun s2 => (s2.pSubStreams.map (fun d => d.status), s2.outQueues,
        s2.trace.filter Event.isStatusReady)) =
      some ([SocketStatus.Connecting, SocketStatus.Disconnected], [[], []],
        [Event.OnStatusReady 1 (some { id := 1 })
           { status := stFatal, code := errConnectionError },
         Event.OnStatusReady 2 (some { id := 2 })
           { status := stFatal, code := errConnectionError }]) := by
  constructor <;> rfl

/-! ## Timed expiry -/

theorem grabLoop_GrabExpired (now : Int) (l : List SubStreamData) :
    ∀ q : OutQueue, grabLoop (OutQueue.GrabExpired now) q l =
      (q ++ (l.map (fun d => d.outQueue.filter (fun e => decide (e.expires ≤ now)))).flatten,
       l.map (fun d =>
         { d with outQueue := d.outQueue.filter (fun e => !decide (e.expires ≤ now)) })) := by
  induction l with
  | nil => intro q; simp [grabLoop]
  | cons d rest ih =>
    intro q
    simp [grabLoop, OutQueue.GrabExpired, ih]

/-- C17: `Tick(now)` leaves in every out-queue exactly the entries with `expires > now`,
in their order, and the handler callbacks it makes are exactly one per entry with
`expires ≤ now` (in substream order, front first), each with the error status
`errOperationExpired`; the only other call is `ReportTimeout(now)` on the incoming
queue. -/
theorem Tick_expired (s : Stream) (now : Int) :
    (Tick s now).outQueues =
      s.outQueues.map (fun q => q.filter (fun e => decide (now < e.expires))) ∧
    (Tick s now).trace = s.trace ++
      ((s.outQueues.flatten.filter (fun e => decide (e.expires ≤ now))).map
          (fun e => Event.OnStatusReady e.handler e.msg
            { status := stError, code := errOperationExpired }) ++
        [Event.ReportTimeout now]) ∧
    ((s.outQueues.flatten.filter (fun e => decide (e.expires ≤ now))).map
          (fun e => Event.OnStatusReady e.handler e.msg
            { status := stError, code := errOperationExpired }) ++
        [Event.ReportTimeout now]).filter Event.isStatusReady =
      (s.outQueues.flatten.filter (fun e => decide (e.expires ≤ now))).map
        (fun e => Event.OnStatusReady e.handler e.msg
          { status := stError, code := errOperationExpired }) := by
  refine ⟨?_, ?_, ?_⟩
  · unfold Tick
    simp only [grabLoop_GrabExpired, Stream.emit, Stream.outQueues, List.map_map]
    apply List.map_congr_left
    intro d _
    simp only [Function.comp]
    apply List.filter_congr
    intro e _
    by_cases h : e.expires ≤ now
    · simp [h, not_lt.mpr h]
    · simp [h, lt_of_not_le h]
  · unfold Tick
    simp only [grabLoop_GrabExpired, Stream.emit, Stream.outQueues]
    simp [OutQueue.Report, List.filter_flatten, List.map_map, Function.comp]
    rfl
  · rw [List.filter_append]
    have := filter_isStatusReady_Report
      (s.outQueues.flatten.filter (fun e => decide (e.expires ≤ now)))
      { status := stError, code := errOperationExpired }
    unfold OutQueue.Report at this
    rw [this]
    simp [Event.isStatusReady]

/-- `Tick` at time 65 on the two-substream example: the entry expiring at 60 is
reported as expired, those expiring at 70 and 80 stay queued. -/
theorem Tick_example :
    ((Tick exBusy 65).outQueues, (Tick exBusy 65).trace) =
      ([[{ msg := some { id := 2, sessionId := 7 }, handler := 2, expires := 70,
           stateful := true }],
        [{ msg := some { id := 3 }, handler := 3, expires := 80 }]],
       [Event.OnStatusReady 1 (some { id := 1 })
          { status := stError, code := errOperationExpired },
        Event.ReportTimeout 65]) := by
  rfl

/-! ## Partial responses and the dispatch of incoming messages -/

/-- C19: `IsPartial(msg)` is true if and only if the header status is `kXR_oksofar`, or
the header status is `kXR_status` and the body-level response type is
`kXR_PartialResult`. -/
theorem IsPartial_iff (msg : Message) :
    IsPartial msg = true ↔
      msg.hdrStatus = kXR_oksofar ∨
      (msg.hdrStatus = kXR_status ∧ msg.resptype = kXR_PartialResult) := by
  unfold IsPartial
  by_cases h1 : msg.hdrStatus = kXR_oksofar
  · simp [h1]
  · by_cases h2 : msg.hdrStatus = kXR_status
    · by_cases h3 : msg.resptype = kXR_PartialResult
      · simp [h1, h2, h3]
      · simp [h2, h3, kXR_status, kXR_oksofar]
    · simp [h1, h2]

theorem IsPartial_sessionId (msg : Message) (n : Nat) :
    IsPartial { msg with sessionId := n } = IsPartial msg := rfl

theorem lor_eq_zero (a b : Nat) : a ||| b = 0 ↔ a = 0 ∧ b = 0 := by
  constructor
  · intro h
    constructor
    · apply Nat.eq_of_testBit_eq
      intro i
      have := congrArg (fun n => Nat.testBit n i) h
      simp [Nat.testBit_or] at this
      simp [this.1]
    · apply Nat.eq_of_testBit_eq
      intro i
      have := congrArg (fun n => Nat.testBit n i) h
      simp [Nat.testBit_or] at this
      simp [this.2]
  · rintro ⟨rfl, rfl⟩
    rfl

theorem land_lor_eq_zero (a b c : Nat) :
    a &&& (b ||| c) = 0 ↔ a &&& b = 0 ∧ a &&& c = 0 := by
  rw [Nat.and_or_distrib_left, lor_eq_zero]

/-- What lines 501-538 of `OnIncoming` add to the trace: a job for the handler exactly
when there is a handler and its action has neither `NoProcess` nor `Ignore`. -/
theorem OnIncoming.dispatch_shape (env : Env) (s : Stream) (msg : Message)
    (handler action : Nat) :
    ∃ evs, OnIncoming.dispatch env s msg handler action = { s with trace := s.trace ++ evs } ∧
      evs.filter Event.isQueueJob =
        (if handler ≠ 0 ∧ action &&& MsgHandler.NoProcess = 0 ∧
            action &&& MsgHandler.Ignore = 0
          then [Event.QueueJob handler] else []) ∧
      evs.filter Event.isStatusReady = [] := by
  unfold OnIncoming.dispatch
  by_cases hh : handler = 0
  · exact ⟨[], by simp [hh], by simp [hh], rfl⟩
  · by_cases ha : action &&& (MsgHandler.NoProcess ||| MsgHandler.Ignore) = 0
    · have ha2 := (land_lor_eq_zero _ _ _).mp ha
      refine ⟨[Event.QueueJob handler], ?_, ?_, rfl⟩
      · simp [hh, ha, Stream.emit]
      · simp [hh, ha2.1, ha2.2, Event.isQueueJob]
    · have ha2 : ¬ (action &&& MsgHandler.NoProcess = 0 ∧ action &&& MsgHandler.Ignore = 0) :=
        fun h => ha ((land_lor_eq_zero _ _ _).mpr h)
      by_cases hp : IsPartial msg = true
      · by_cases hx : env.isXRootDMsgHandler handler = true
        · refine ⟨[Event.PartialReceived handler], ?_, ?_, rfl⟩
          · simp [hh, ha, hp, hx, Stream.emit]
          · simp only [ne_eq, hh, not_false_eq_true, true_and, ha2, if_false]
            rfl
        · refine ⟨[], ?_, ?_, rfl⟩
          · simp [hh, ha, hp, hx]
          · simp only [ne_eq, hh, not_false_eq_true, true_and, ha2, if_false]
            rfl
      · refine ⟨[], ?_, ?_, rfl⟩
        · simp [hh, ha, hp]
        · simp only [ne_eq, hh, not_false_eq_true, true_and, ha2, if_false]
          rfl

theorem getElem?_set_of_some {α : Type} (l : List α) (i : Nat) (d d1 : α)
    (h : l[i]? = some d) : (l.set i d1)[i]? = some d1 := by
  induction l generalizing i with
  | nil => simp at h
  | cons x xs ih =>
    cases i with
    | zero => simp
    | succ n =>
      simp at h
      simp [ih n h]

/-- C18: `OnIncoming` on an existing substream returns; it queues a job for the in-slot
handler (exactly one) if and only if (1) the message is partial or the transport's
action mask has neither `DigestMsg` nor `RequestClose`, (2) the in-slot held a handler
and (3) the slot's action has neither `NoProcess` nor `Ignore`; in every case the
in-slot of the substream is reset afterwards and the message carries the stream's
session id. -/
theorem OnIncoming_queues_job (env : Env) (s : Stream) (subStream : Nat) (msg : Message)
    (bytesReceived : Nat) (d : SubStreamData) (h : s.pSubStreams[subStream]? = some d) :
    ∃ s1 evs d1, OnIncoming env s subStream msg bytesReceived =
        some (s1, { msg with sessionId := s.pSessionId }) ∧
      s1.trace = s.trace ++ evs ∧
      evs.filter Event.isQueueJob =
        (if (IsPartial msg = true ∨
              ((env.MessageReceived { msg with sessionId := s.pSessionId } subStream) &&&
                  TransportHandler.DigestMsg = 0 ∧
               (env.MessageReceived { msg with sessionId := s.pSessionId } subStream) &&&
                  TransportHandler.RequestClose = 0)) ∧
            d.inMsgHelper.handler ≠ 0 ∧
            (d.inMsgHelper.action &&& MsgHandler.NoProcess = 0 ∧
             d.inMsgHelper.action &&& MsgHandler.Ignore = 0)
          then [Event.QueueJob d.inMsgHelper.handler] else []) ∧
      s1.pSubStreams[subStream]? = some d1 ∧
      d1.inMsgHelper = {} ∧
      s1.pSessionId = s.pSessionId := by
  have hset : (s.pSubStreams.set subStream
      { d with inMsgHelper := d.inMsgHelper.Reset })[subStream]? =
      some { d with inMsgHelper := d.inMsgHelper.Reset } :=
    getElem?_set_of_some _ _ _ _ h
  have h1 : ({ s with pBytesReceived := s.pBytesReceived + bytesReceived } :
      Stream).pSubStreams[subStream]? = some d := h
  unfold OnIncoming
  dsimp only
  rw [h1]
  dsimp only
  rw [IsPartial_sessionId]
  generalize hs2 : Stream.setSub
    { s with pBytesReceived := s.pBytesReceived + bytesReceived } subStream
    { d with inMsgHelper := d.inMsgHelper.Reset } = s2
  have ht2 : s2.trace = s.trace := by rw [← hs2]; rfl
  have hd2 : s2.pSubStreams[subStream]? =
      some { d with inMsgHelper := d.inMsgHelper.Reset } := by
    rw [← hs2]; exact hset
  have hi2 : s2.pSessionId = s.pSessionId := by rw [← hs2]; rfl
  generalize hm1 : ({ msg with sessionId := s.pSessionId } : Message) = msg1
  by_cases hp : IsPartial msg = true
  · simp only [hp, Bool.not_true, Bool.false_eq_true, if_false]
    obtain ⟨evs, he, hj, -⟩ := OnIncoming.dispatch_shape env s2 msg1
      d.inMsgHelper.handler d.inMsgHelper.action
    rw [he]
    refine ⟨_, evs, _, rfl, ?_, ?_, hd2, rfl, hi2⟩
    · rw [ht2]
    · rw [hj]
      simp
  · simp only [hp, Bool.not_false, if_true]
    by_cases hdg : (env.MessageReceived msg1 subStream) &&& TransportHandler.DigestMsg = 0
    · by_cases hrc : (env.MessageReceived msg1 subStream) &&&
          TransportHandler.RequestClose = 0
      · simp only [hdg, hrc, ne_eq, not_true_eq_false, if_false]
        obtain ⟨evs, he, hj, -⟩ := OnIncoming.dispatch_shape env
          (s2.emit [Event.MessageReceived subStream msg1]) msg1
          d.inMsgHelper.handler d.inMsgHelper.action
        rw [he]
        refine ⟨_, Event.MessageReceived subStream msg1 :: evs, _, rfl, ?_, ?_, hd2, rfl,
          hi2⟩
        · simp [Stream.emit, ht2]
        · rw [List.filter_cons]
          simp only [Event.isQueueJob, Bool.false_eq_true, if_false]
          rw [hj]
          simp
      · simp only [hdg, hrc, ne_eq, not_true_eq_false, not_false_eq_true, if_false, if_true]
        refine ⟨_, Event.MessageReceived subStream msg1 ::
          (RequestClose env (s2.emit [Event.MessageReceived subStream msg1]) msg1).2,
          _, rfl, ?_, ?_, hd2, rfl, hi2⟩
        · simp [Stream.emit, ht2]
        · have hcl : ∀ s0 : Stream,
              (RequestClose env s0 msg1).2.filter Event.isQueueJob = [] := by
            intro s0
            unfold RequestClose
            split <;> rfl
          rw [List.filter_cons]
          simp only [Event.isQueueJob, Bool.false_eq_true, if_false]
          rw [hcl]
          simp [hp, hrc]
    · simp only [hdg, ne_eq, not_false_eq_true, if_true]
      refine ⟨_, [Event.MessageReceived subStream msg1], _, rfl, ?_, ?_, hd2, rfl, hi2⟩
      · simp [Stream.emit, ht2]
      · simp [hp, hdg, Event.isQueueJob]

theorem OnIncoming_queues_job_witness :
    ∃ s1 evs d1, OnIncoming exEnv exInSlot 0 { id := 8 } 64 =
        some (s1, { id := 8, sessionId := 7 }) ∧
      s1.trace = exInSlot.trace ++ evs ∧
      evs.filter Event.isQueueJob = [Event.QueueJob 4] ∧
      s1.pSubStreams[0]? = some d1 ∧
      d1.inMsgHelper = ({} : InMessageHelper) ∧
      s1.pSessionId = 7 := by
  obtain ⟨s1, evs, d1, h1, h2, h3, h4, h5, h6⟩ :=
    OnIncoming_queues_job exEnv exInSlot 0 { id := 8 } 64 _ rfl
  exact ⟨s1, evs, d1, h1, h2, h3, h4, h5, h6⟩

/-- Three responses on the in-slot example: a final one is dispatched (one job), a
final one the transport digests is not, and a partial one whose handler asked for
`NoProcess` only lowers the handler's time-out fence. -/
theorem OnIncoming_example :
    (OnIncoming exEnv exInSlot 0 { id := 8 } 64).map (fun r => r.1.trace) =
      some [Event.MessageReceived 0 { id := 8, sessionId := 7 }, Event.QueueJob 4] ∧
    (OnIncoming { exEnv with MessageReceived := fun _ _ => TransportHandler.DigestMsg }
        exInSlot 0 { id := 8 } 64).map (fun r => r.1.trace) =
      some [Event.MessageReceived 0 { id := 8, sessionId := 7 }] ∧
    (OnIncoming exEnv
        { exInSlot with pSubStreams :=
            [{ status := SocketStatus.Connected,
               inMsgHelper := { handler := 4, expires := 150,
                                action := MsgHandler.NoProcess } }] }
        0 { id := 8, hdrStatus := kXR_oksofar } 64).map (fun r => r.1.trace) =
      some [Event.PartialReceived 4] := by
  refine ⟨rfl, rfl, rfl⟩

/-! ## Idle time-out -/

theorem foldl_size_mod (l : List SubStreamData) :
    ∀ n0 : Nat, n0 < 2 ^ 32 →
      l.foldl (fun n d => (n + d.outQueue.GetSize) % 2 ^ 32) n0 =
        (n0 + ((l.map (fun d => d.outQueue)).map List.length).sum) % 2 ^ 32 := by
  induction l with
  | nil =>
    intro n0 h
    simp only [List.foldl_nil, List.map_nil, List.sum_nil, Nat.add_zero]
    exact (Nat.mod_eq_of_lt h).symm
  | cons d rest ih =>
    intro n0 _
    simp only [List.foldl_cons, List.map_cons, List.sum_cons]
    rw [ih _ (Nat.mod_lt _ (by decide)), Nat.mod_add_mod, OutQueue.GetSize, Nat.add_assoc]

/-- Below 2^32 queued messages, the 32-bit count is zero exactly when every out-queue
is empty. -/
theorem outgoingMessages_eq_zero (s : Stream)
    (hsize : (s.outQueues.map List.length).sum < 2 ^ 32) :
    outgoingMessages s = 0 ↔ ∀ q ∈ s.outQueues, q = [] := by
  unfold outgoingMessages
  rw [foldl_size_mod _ 0 (by decide), Nat.zero_add]
  have hs : ((s.pSubStreams.map (fun d => d.outQueue)).map List.length).sum =
      (s.outQueues.map List.length).sum := rfl
  rw [hs, Nat.mod_eq_of_lt hsize, List.sum_eq_zero_iff]
  constructor
  · intro h q hq
    have := h q.length (List.mem_map.mpr ⟨q, hq, rfl⟩)
    exact List.length_eq_zero.mp this
  · intro h n hn
    obtain ⟨q, hq, rfl⟩ := List.mem_map.mp hn
    rw [h q hq]; rfl

theorem sub_zero_of_outQueues (s1 s2 : Stream) (d : SubStreamData)
    (hq : s1.outQueues = s2.outQueues) (h : s2.pSubStreams[0]? = some d) :
    ∃ d1, s1.pSubStreams[0]? = some d1 := by
  have hl : s1.pSubStreams.length = s2.pSubStreams.length := by
    have := congrArg List.length hq
    simpa [Stream.outQueues] using this
  cases h1 : s1.pSubStreams with
  | nil =>
    rw [h1] at hl
    cases h2 : s2.pSubStreams with
    | nil => rw [h2] at h; simp at h
    | cons x xs => rw [h2] at hl; simp at hl
  | cons x xs => exact ⟨x, by simp⟩

/-- On an initialised stream `OnError(0, status)` returns. -/
theorem OnError_zero_total (env : Env) (s : Stream) (status : XRootDStatus)
    (d : SubStreamData) (h0 : s.pSubStreams[0]? = some d) :
    ∃ s1, OnError env s 0 status = some s1 := by
  obtain ⟨d1, evs1, hr, hst, -, -, -, -, -⟩ := OnError.recover_shape env s 0 d h0
  unfold OnError
  rw [hr]
  simp only [gt_iff_lt, lt_self_iff_false, if_false]
  split
  · have h10 : (Stream.emit
        { s with pSubStreams := s.pSubStreams.set 0 d1, trace := s.trace ++ evs1 }
        [Event.MonitorDisconnection status]).pSubStreams[0]? = some d1 :=
      getElem?_set_zero _ _ _ h0
    obtain ⟨st, s3, evs3, hE, -, -⟩ := EnableLink_disconnected_total env _
      { up := 0, down := 0 } d1 h10 hst
    rw [hE]
    dsimp only
    split
    · obtain ⟨d3, hd3⟩ := sub_zero_of_outQueues s3 _ d1
        (EnableLink_outQueues env _ _ st s3 _ hE) h10
      obtain ⟨s4, h4, -⟩ := OnFatalError_shape env s3 0 st d3 hd3
      exact ⟨s4, h4⟩
    · exact ⟨_, rfl⟩
  · exact ⟨_, rfl⟩

/-- C20: `OnReadTimeout(sub)` returns true and changes nothing for `sub ≠ 0`.  For
`sub = 0` on an initialised stream (with fewer than 2^32 queued messages), `idle`
being the time since the last socket activity: (a) if all out-queues are empty and the
transport reports the TTL elapsed, it returns false and the only thing done is the
call `ForceDisconnect(url)`; (b) otherwise, if the transport reports the stream broken,
it returns false and the stream is what `OnError(0, st)` leaves; (c) otherwise it
returns true and nothing changes. -/
theorem OnReadTimeout_cases (env : Env) (s : Stream) (d : SubStreamData)
    (h0 : s.pSubStreams[0]? = some d)
    (hsize : (s.outQueues.map List.length).sum < 2 ^ 32) :
    (∀ sub, sub ≠ 0 → OnReadTimeout env s sub = some (true, s)) ∧
    ((∀ q ∈ s.outQueues, q = []) ∧
        env.IsStreamTTLElapsed (env.now - lastActivityLoop env 0 0 s.pSubStreams) = true →
      OnReadTimeout env s 0 = some (false, s.emit [Event.ForceDisconnect s.pUrl])) ∧
    (¬ ((∀ q ∈ s.outQueues, q = []) ∧
        env.IsStreamTTLElapsed (env.now - lastActivityLoop env 0 0 s.pSubStreams) = true) →
      (env.IsStreamBroken (env.now - lastActivityLoop env 0 0 s.pSubStreams)).IsOK = false →
      ∃ s1, OnError env s 0
          (env.IsStreamBroken (env.now - lastActivityLoop env 0 0 s.pSubStreams)) = some s1 ∧
        OnReadTimeout env s 0 = some (false, s1)) ∧
    (¬ ((∀ q ∈ s.outQueues, q = []) ∧
        env.IsStreamTTLElapsed (env.now - lastActivityLoop env 0 0 s.pSubStreams) = true) →
      (env.IsStreamBroken (env.now - lastActivityLoop env 0 0 s.pSubStreams)).IsOK = true →
      OnReadTimeout env s 0 = some (true, s)) := by
  have hz := outgoingMessages_eq_zero s hsize
  refine ⟨?_, ?_, ?_, ?_⟩
  · intro sub hsub
    unfold OnReadTimeout
    rw [if_pos hsub]
  · intro ha
    unfold OnReadTimeout
    simp only [ne_eq, not_true_eq_false, if_false]
    rw [if_pos ⟨hz.mpr ha.1, ha.2⟩]
  · intro hna hb
    obtain ⟨s1, h1⟩ := OnError_zero_total env s
      (env.IsStreamBroken (env.now - lastActivityLoop env 0 0 s.pSubStreams)) d h0
    refine ⟨s1, h1, ?_⟩
    unfold OnReadTimeout
    simp only [ne_eq, not_true_eq_false, if_false]
    rw [if_neg (fun hc => hna ⟨hz.mp hc.1, hc.2⟩)]
    simp only [hb, Bool.not_false, if_true]
    rw [h1]
  · intro hna hb
    unfold OnReadTimeout
    simp only [ne_eq, not_true_eq_false, if_false]
    rw [if_neg (fun hc => hna ⟨hz.mp hc.1, hc.2⟩)]
    simp [hb]

theorem OnReadTimeout_cases_witness :
    OnReadTimeout exEnvTTL exConnected 3 = some (true, exConnected) ∧
    OnReadTimeout exEnvTTL exConnected 0 =
      some (false, exConnected.emit [Event.ForceDisconnect exConnected.pUrl]) ∧
    (∃ s1, OnError exEnvTTL exBoth 0
        (exEnvTTL.IsStreamBroken
          (exEnvTTL.now - lastActivityLoop exEnvTTL 0 0 exBoth.pSubStreams)) = some s1 ∧
      OnReadTimeout exEnvTTL exBoth 0 = some (false, s1)) ∧
    OnReadTimeout exEnv exBoth 0 = some (true, exBoth) :=
  ⟨(OnReadTimeout_cases exEnvTTL exConnected _ rfl (by decide)).1 3 (by decide),
   (OnReadTimeout_cases exEnvTTL exConnected _ rfl (by decide)).2.1
     ⟨by decide, rfl⟩,
   (OnReadTimeout_cases exEnvTTL exBoth _ rfl (by decide)).2.2.1
     (by decide) rfl,
   (OnReadTimeout_cases exEnv exBoth _ rfl (by decide)).2.2.2
     (by decide) rfl⟩

/-! ## Spawning and connecting the extra substreams -/

theorem OnConnect.extras_queue (env : Env) (window : Nat) (addr : Option XrdNetAddr)
    (l : List SubStreamData) :
    ∀ (i : Nat) (q0 : OutQueue),
      (OnConnect.extras env window addr i q0 l).1 = q0 ++ OnConnect.moved env addr i l := by
  induction l with
  | nil => intro i q0; simp [OnConnect.extras, OnConnect.moved]
  | cons d rest ih =>
    intro i q0
    simp only [OnConnect.extras, OnConnect.moved]
    by_cases hok : (env.Connect i (addr.getD 0)).IsOK = true
    · simp [hok, ih]
    · simp [hok, ih, OutQueue.GrabItems]

theorem OnConnect.extras_length (env : Env) (window : Nat) (addr : Option XrdNetAddr)
    (l : List SubStreamData) :
    ∀ (i : Nat) (q0 : OutQueue),
      (OnConnect.extras env window addr i q0 l).2.1.length = l.length := by
  induction l with
  | nil => intro i q0; simp [OnConnect.extras]
  | cons d rest ih =>
    intro i q0
    simp only [OnConnect.extras]
    by_cases hok : (env.Connect i (addr.getD 0)).IsOK = true
    · simp [hok, ih]
    · simp [hok, ih]

theorem OnConnect.extras_get (env : Env) (window : Nat) (addr : Option XrdNetAddr)
    (l : List SubStreamData) :
    ∀ (i : Nat) (q0 : OutQueue) (j : Nat) (dj : SubStreamData), l[j]? = some dj →
      (OnConnect.extras env window addr i q0 l).2.1[j]? =
        some (if (env.Connect (i + j) (addr.getD 0)).IsOK then
            { dj with socketAddress := addr, status := SocketStatus.Connecting }
          else { dj with socketAddress := addr, outQueue := [] }) := by
  induction l with
  | nil => intro i q0 j dj h; simp at h
  | cons d rest ih =>
    intro i q0 j dj h
    cases j with
    | zero =>
      simp at h
      subst h
      simp only [OnConnect.extras]
      by_cases hok : (env.Connect i (addr.getD 0)).IsOK = true
      · simp [hok]
      · simp [hok, OutQueue.GrabItems]
    | succ n =>
      simp at h
      simp only [OnConnect.extras]
      have hidx : i + (n + 1) = i + 1 + n := by omega
      by_cases hok : (env.Connect i (addr.getD 0)).IsOK = true
      · simp only [hok, Bool.not_true, Bool.false_eq_true, if_false, List.getElem?_cons_succ]
        rw [ih (i + 1) _ n dj h, hidx]
      · simp only [hok, Bool.not_false, if_true, List.getElem?_cons_succ]
        rw [ih (i + 1) _ n dj h, hidx]

/-- What the completion of substream 0 leaves behind: the substreams, the session id
and the reset error bookkeeping. -/
theorem OnConnect.main_shape (env : Env) (cnt : Nat) (s : Stream) (d0 : SubStreamData)
    (rest : List SubStreamData) (hs : s.pSubStreams = d0 :: rest) :
    ∃ s1, OnConnect.main env cnt s = some (s1, (cnt + 1) % 2 ^ 64) ∧
      s1.pSubStreams =
        { d0 with outQueue := d0.outQueue ++
            OnConnect.moved env d0.socketAddress 1 (OnConnect.extrasBefore env rest) } ::
        (OnConnect.extras env s.pConnectionWindow d0.socketAddress 1 d0.outQueue
          (OnConnect.extrasBefore env rest)).2.1 ∧
      s1.pSessionId = (cnt + 1) % 2 ^ 64 ∧
      s1.pLastStreamError = 0 ∧ s1.pLastFatalError = {} ∧ s1.pConnectionCount = 0 := by
  unfold OnConnect.main
  dsimp only
  by_cases hc : rest = [] ∧ 1 < env.SubStreamNumber % 2 ^ 16
  · have hl : s.pSubStreams.length = 1 ∧ env.SubStreamNumber % 2 ^ 16 > 1 := by
      rw [hs, hc.1]; exact ⟨rfl, hc.2⟩
    simp only [hl, and_self, if_true]
    rw [hs, hc.1]
    simp only [List.cons_append, List.nil_append]
    refine ⟨_, rfl, ?_, rfl, rfl, rfl, rfl⟩
    simp only [Stream.emit, OnConnect.extrasBefore, hc, and_self, if_true,
      OnConnect.extras_queue]
  · have hl : ¬ (s.pSubStreams.length = 1 ∧ env.SubStreamNumber % 2 ^ 16 > 1) := by
      intro h
      apply hc
      refine ⟨?_, h.2⟩
      have := h.1
      rw [hs] at this
      simpa using this
    simp only [hl, if_false]
    rw [hs]
    dsimp only
    refine ⟨_, rfl, ?_, rfl, rfl, rfl, rfl⟩
    simp only [Stream.emit, OnConnect.extrasBefore, hc, if_false, OnConnect.extras_queue]

/-- C16: `OnConnect(0)` on an initialised stream returns.  If the stream had substream
0 only and the transport asks for `n > 1` substreams, it has exactly `n` substreams
afterwards; if extras existed already their number is unchanged.  Every extra
substream `i` afterwards is the extra before the connect loop with the address of
socket 0 and: either its `Connect` succeeded and its status is `Connecting` (its out-queue
untouched), or its `Connect` failed and its out-queue is empty, its entries being at
the back of out-queue 0, which is its old content followed by the out-queues of the
failed extras in substream order. -/
theorem OnConnect_extras (env : Env) (cnt : Nat) (s : Stream) (d0 : SubStreamData)
    (rest : List SubStreamData) (hs : s.pSubStreams = d0 :: rest) :
    ∃ s1 c1 d1, OnConnect env cnt s 0 = some (s1, c1) ∧
      (rest = [] → 1 < env.SubStreamNumber % 2 ^ 16 →
        s1.pSubStreams.length = env.SubStreamNumber % 2 ^ 16) ∧
      (rest ≠ [] → s1.pSubStreams.length = s.pSubStreams.length) ∧
      s1.pSubStreams[0]? = some d1 ∧
      d1.status = SocketStatus.Connected ∧
      d1.outQueue = d0.outQueue ++
        OnConnect.moved env d0.socketAddress 1 (OnConnect.extrasBefore env rest) ∧
      (∀ i di, 0 < i → s1.pSubStreams[i]? = some di →
        ∃ ei, (OnConnect.extrasBefore env rest)[i - 1]? = some ei ∧
          (((env.Connect i (d0.socketAddress.getD 0)).IsOK = true ∧
              di.status = SocketStatus.Connecting ∧ di.outQueue = ei.outQueue) ∨
           ((env.Connect i (d0.socketAddress.getD 0)).IsOK = false ∧
              di.outQueue = [] ∧ di.status = ei.status))) := by
  have hsub : (s.setSub 0 { d0 with status := SocketStatus.Connected }).pSubStreams =
      { d0 with status := SocketStatus.Connected } :: rest := by
    simp [Stream.setSub, hs]
  obtain ⟨s1, h1, hsubs, -, -, -, -⟩ := OnConnect.main_shape env cnt _ _ rest hsub
  have hE : OnConnect env cnt s 0 = some (s1, (cnt + 1) % 2 ^ 64) := by
    unfold OnConnect
    rw [hs]
    simp only [List.getElem?_cons_zero, if_true]
    exact h1
  refine ⟨s1, _,
    { d0 with status := SocketStatus.Connected,
              outQueue := d0.outQueue ++
                OnConnect.moved env d0.socketAddress 1 (OnConnect.extrasBefore env rest) },
    hE, ?_, ?_, ?_, rfl, rfl, ?_⟩
  · intro hr hn
    rw [hsubs]
    simp only [List.length_cons, OnConnect.extras_length, OnConnect.extrasBefore, hr, hn,
      and_self, if_true, List.length_replicate]
    omega
  · intro hr
    rw [hsubs, hs]
    simp only [List.length_cons, OnConnect.extras_length, OnConnect.extrasBefore, hr,
      false_and, if_false]
  · rw [hsubs]
    simp
  · intro i di hi hdi
    rw [hsubs] at hdi
    obtain ⟨j, rfl⟩ : ∃ j, i = j + 1 := ⟨i - 1, by omega⟩
    simp only [List.getElem?_cons_succ] at hdi
    have hlen := OnConnect.extras_length env
      (s.setSub 0 { d0 with status := SocketStatus.Connected }).pConnectionWindow
      d0.socketAddress (OnConnect.extrasBefore env rest) 1 d0.outQueue
    cases hej : (OnConnect.extrasBefore env rest)[j]? with
    | none =>
      have hj := List.getElem?_eq_none_iff.mp hej
      have : (OnConnect.extras env
          (s.setSub 0 { d0 with status := SocketStatus.Connected }).pConnectionWindow
          d0.socketAddress 1 d0.outQueue (OnConnect.extrasBefore env rest)).2.1[j]? = none :=
        List.getElem?_eq_none_iff.mpr (by rw [hlen]; exact hj)
      rw [this] at hdi
      exact absurd hdi (by simp)
    | some ej =>
      have hget := OnConnect.extras_get env
        (s.setSub 0 { d0 with status := SocketStatus.Connected }).pConnectionWindow
        d0.socketAddress (OnConnect.extrasBefore env rest) 1 d0.outQueue j ej hej
      rw [hget] at hdi
      have hdi2 := (Option.some.inj hdi).symm
      have hidx : 1 + j = j + 1 := by omega
      rw [hidx] at hdi2
      refine ⟨ej, by simpa using hej, ?_⟩
      by_cases hok : (env.Connect (j + 1) (d0.socketAddress.getD 0)).IsOK = true
      · left
        rw [hdi2]
        simp [hok]
      · right
        rw [hdi2]
        simp [hok]

theorem OnConnect_extras_witness :
    ∃ s1 c1 d1, OnConnect exEnvFour 41 exSingle 0 = some (s1, c1) ∧
      s1.pSubStreams.length = 4 ∧
      s1.pSubStreams[0]? = some d1 ∧
      d1.status = SocketStatus.Connected ∧
      (∀ i di, 0 < i → s1.pSubStreams[i]? = some di →
        ∃ ei, (OnConnect.extrasBefore exEnvFour [])[i - 1]? = some ei ∧
          (((exEnvFour.Connect i 12).IsOK = true ∧
              di.status = SocketStatus.Connecting ∧ di.outQueue = ei.outQueue) ∨
           ((exEnvFour.Connect i 12).IsOK = false ∧
              di.outQueue = [] ∧ di.status = ei.status))) := by
  obtain ⟨s1, c1, d1, h1, h2, -, h4, h5, -, h7⟩ :=
    OnConnect_extras exEnvFour 41 exSingle _ [] rfl
  exact ⟨s1, c1, d1, h1, h2 rfl (by decide), h4, h5, h7⟩

/-- The call of C16's witness, evaluated: four substreams afterwards, the extras 1 and
3 connecting, the extra 2 (whose connect failed) disconnected, and the session id taken
from the counter. -/
theorem OnConnect_example :
    (OnConnect exEnvFour 41 exSingle 0).map
      (fun r => (r.2, r.1.pSessionId, r.1.pSubStreams.map (fun d => d.status),
        r.1.trace)) =
    some (42, 42,
      [SocketStatus.Connected, SocketStatus.Connecting, SocketStatus.Disconnected,
       SocketStatus.Connecting],
      [Event.SetAddress 1 12, Event.Connect 1 30,
       Event.SetAddress 2 12, Event.Connect 2 30, Event.Close 2,
       Event.SetAddress 3 12, Event.Connect 3 30,
       Event.MonitorConnect 4, Event.NotifyConnectHandler { host := 1 }]) := by
  rfl

/-! ## The session id -/

theorem connectStep_sessionId (env : Env) (s : Stream) (addr : XrdNetAddr)
    (rest : List XrdNetAddr) (st : XRootDStatus) (s1 : Stream)
    (h : connectStep env s addr rest = some (st, s1)) : s1.pSessionId = s.pSessionId := by
  unfold connectStep at h
  split at h
  · simp at h
  · simp only [Option.some.injEq, Prod.mk.injEq] at h
    rw [← h.2]
    rfl

theorem connectLoop_sessionId (env : Env) (rev : List XrdNetAddr) :
    ∀ (st0 : XRootDStatus) (s : Stream) (st : XRootDStatus) (s1 : Stream),
      connectLoop env st0 s rev = some (st, s1) → s1.pSessionId = s.pSessionId := by
  induction rev with
  | nil =>
    intro st0 s st s1 h
    simp [connectLoop] at h
    rw [h.2]
  | cons a rest ih =>
    intro st0 s st s1 h
    simp only [connectLoop] at h
    split at h
    · simp at h
    · rename_i st1 s2 hstep
      have hq := connectStep_sessionId env s a rest st1 s2 hstep
      split at h
      · split at h
        · simp at h
        · simp only [Option.some.injEq, Prod.mk.injEq] at h
          rw [← h.2, ← hq]
          rfl
      · rw [ih st1 s2 st s1 h, hq]

theorem EnableLink.prefer_sessionId (env : Env) (s : Stream) :
    (EnableLink.prefer env s).pSessionId = s.pSessionId := by
  unfold EnableLink.prefer
  split
  · dsimp only
    split <;> rfl
  · rfl

/-- The method `EnableLink` leaves the session id alone. -/
theorem EnableLink_sessionId (env : Env) (s : Stream) (path : PathID)
    (st : XRootDStatus) (s1 : Stream) (p : PathID)
    (h : EnableLink env s path = some (st, s1, p)) : s1.pSessionId = s.pSessionId := by
  unfold EnableLink at h
  split at h
  · simp at h
  · split at h
    · simp only [Option.some.injEq, Prod.mk.injEq] at h
      rw [← h.2.1]
    · split at h
      · unfold EnableLink.uplink at h
        split at h
        · simp at h
        · dsimp only at h
          split at h
          · simp at h
          · split at h
            · simp only [Option.some.injEq, Prod.mk.injEq] at h
              rw [← h.2.1]; rfl
            · split at h
              · simp only [Option.some.injEq, Prod.mk.injEq] at h
                rw [← h.2.1]; rfl
              · simp only [Option.some.injEq, Prod.mk.injEq] at h
                rw [← h.2.1]
      · split at h
        · simp only [Option.some.injEq, Prod.mk.injEq] at h
          rw [← h.2.1]
        · unfold EnableLink.connect at h
          dsimp only at h
          split at h
          · simp only [Option.some.injEq, Prod.mk.injEq] at h
            rw [← h.2.1]; rfl
          · split at h
            · simp at h
            · rename_i st4 s4 hloop
              simp only [Option.some.injEq, Prod.mk.injEq] at h
              rw [← h.2.1, connectLoop_sessionId env _ _ _ _ _ hloop,
                EnableLink.prefer_sessionId]
              rfl

theorem Send_sessionId (env : Env) (s : Stream) (msg : Message) (handler : Nat)
    (stateful : Bool) (expires : Int) (st : XRootDStatus) (s1 : Stream)
    (h : Send env s msg handler stateful expires = some (st, s1)) :
    s1.pSessionId = s.pSessionId := by
  unfold Send at h
  split at h
  · simp at h
  · simp only [Option.some.injEq, Prod.mk.injEq] at h
    rw [← h.2]
  · unfold Send.enqueue at h
    split at h
    · simp at h
    · rename_i st2 s2 p2 hE
      have h2 := EnableLink_sessionId env s _ st2 s2 p2 hE
      split at h
      · dsimp only at h
        split at h
        · simp at h
        · simp only [Option.some.injEq, Prod.mk.injEq] at h
          rw [← h.2, ← h2]
          rfl
      · simp only [Option.some.injEq, Prod.mk.injEq] at h
        rw [← h.2, h2]

theorem OnFatalError_sessionId (env : Env) (s : Stream) (subStream : Nat)
    (status : XRootDStatus) (s1 : Stream)
    (h : OnFatalError env s subStream status = some s1) : s1.pSessionId = s.pSessionId := by
  unfold OnFatalError at h
  split at h
  · simp at h
  · simp only [Option.some.injEq] at h
    rw [← h]
    simp only [Stream.emit, Stream.setSub]
    split <;> rfl

theorem OnError.recover_sessionId (env : Env) (s : Stream) (subStream : Nat) (s1 : Stream)
    (h : OnError.recover env s subStream = some s1) : s1.pSessionId = s.pSessionId := by
  unfold OnError.recover at h
  split at h
  · simp at h
  · simp only [Option.some.injEq] at h
    rw [← h]
    rfl

theorem OnError_sessionId (env : Env) (s : Stream) (subStream : Nat)
    (status : XRootDStatus) (s1 : Stream)
    (h : OnError env s subStream status = some s1) : s1.pSessionId = s.pSessionId := by
  unfold OnError at h
  split at h
  · simp at h
  · rename_i s0 hrec
    have h0 := OnError.recover_sessionId env s subStream s0 hrec
    split at h
    · split at h
      · split at h
        · simp only [Option.some.injEq] at h
          rw [← h, h0]
        · split at h
          · dsimp only at h
            split at h
            · split at h
              · rw [OnFatalError_sessionId env _ 0 _ s1 h, ← h0]; rfl
              · simp only [Option.some.injEq] at h
                rw [← h, ← h0]; rfl
            · rw [OnFatalError_sessionId env _ _ _ s1 h, ← h0]; rfl
          · rw [OnFatalError_sessionId env _ _ _ s1 h, h0]
      · simp at h
    · dsimp only at h
      split at h
      · split at h
        · simp at h
        · rename_i st3 s3 p3 hE
          have h3 := EnableLink_sessionId env _ _ st3 s3 p3 hE
          split at h
          · rw [OnFatalError_sessionId env _ 0 _ s1 h, h3, ← h0]; rfl
          · simp only [Option.some.injEq] at h
            rw [← h]
            show s3.pSessionId = s.pSessionId
            rw [h3, ← h0]; rfl
      · simp only [Option.some.injEq] at h
        rw [← h, ← h0]
        rfl

theorem OnConnectError.retry_sessionId (env : Env) (rev : List XrdNetAddr) :
    ∀ (s : Stream) (st : XRootDStatus) (s1 : Stream),
      OnConnectError.retry env s rev = some (st, s1) → s1.pSessionId = s.pSessionId := by
  induction rev with
  | nil =>
    intro s st s1 h
    simp [OnConnectError.retry] at h
    rw [h.2]
  | cons a rest ih =>
    intro s st s1 h
    simp only [OnConnectError.retry] at h
    split at h
    · simp at h
    · rename_i st1 s2 hstep
      have hq := connectStep_sessionId env s a rest st1 s2 hstep
      split at h
      · rw [ih s2 st s1 h, hq]
      · simp only [Option.some.injEq, Prod.mk.injEq] at h
        rw [← h.2, hq]

theorem OnConnectError_sessionId (env : Env) (s : Stream) (subStream : Nat)
    (status : XRootDStatus) (s1 : Stream)
    (h : OnConnectError env s subStream status = some s1) :
    s1.pSessionId = s.pSessionId := by
  unfold OnConnectError at h
  split at h
  · simp at h
  · dsimp only at h
    split at h
    · split at h
      · simp at h
      · split at h
        · split at h
          · rw [OnFatalError_sessionId env _ 0 _ s1 h]; rfl
          · simp only [Option.some.injEq] at h
            rw [← h]; rfl
        · split at h
          · simp only [Option.some.injEq] at h
            rw [← h]; rfl
          · rw [OnFatalError_sessionId env _ _ _ s1 h]; rfl
    · split at h
      · split at h
        · simp at h
        · rename_i st2 s2 hr
          have h2 := OnConnectError.retry_sessionId env _ _ st2 s2 hr
          split at h
          · rw [OnFatalError_sessionId env _ _ _ s1 h, h2]; rfl
          · simp only [Option.some.injEq] at h
            rw [← h, h2]; rfl
      · split at h
        · simp only [Option.some.injEq] at h
          rw [← h]; rfl
        · split at h
          · split at h
            · simp at h
            · rename_i st3 s3 p3 hE
              have h3 := EnableLink_sessionId env _ _ st3 s3 p3 hE
              split at h
              · rw [OnFatalError_sessionId env _ _ _ s1 h, h3]; rfl
              · simp only [Option.some.injEq] at h
                rw [← h, h3]; rfl
          · rw [OnFatalError_sessionId env _ _ _ s1 h]; rfl

theorem ForceConnect_sessionId (env : Env) (s s1 : Stream)
    (h : ForceConnect env s = some s1) : s1.pSessionId = s.pSessionId := by
  unfold ForceConnect at h
  split at h
  · simp at h
  · split at h
    · dsimp only at h
      split at h
      · simp at h
      · rename_i st2 s2 p2 hE
        have h2 := EnableLink_sessionId env _ _ st2 s2 p2 hE
        split at h
        · rw [OnConnectError_sessionId env s2 0 st2 s1 h, h2]; rfl
        · simp only [Option.some.injEq] at h
          rw [← h, h2]; rfl
    · simp only [Option.some.injEq] at h
      rw [← h]

theorem OnIncoming.dispatch_sessionId (env : Env) (s : Stream) (msg : Message)
    (handler action : Nat) :
    (OnIncoming.dispatch env s msg handler action).pSessionId = s.pSessionId := by
  obtain ⟨evs, he, -, -⟩ := OnIncoming.dispatch_shape env s msg handler action
  rw [he]

theorem OnIncoming_sessionId (env : Env) (s : Stream) (subStream : Nat) (msg : Message)
    (bytesReceived : Nat) (s1 : Stream) (m1 : Message)
    (h : OnIncoming env s subStream msg bytesReceived = some (s1, m1)) :
    s1.pSessionId = s.pSessionId := by
  unfold OnIncoming at h
  dsimp only at h
  split at h
  · simp at h
  · split at h
    · split at h
      · simp only [Option.some.injEq, Prod.mk.injEq] at h
        rw [← h.1]; rfl
      · split at h
        · simp only [Option.some.injEq, Prod.mk.injEq] at h
          rw [← h.1]; rfl
        · simp only [Option.some.injEq, Prod.mk.injEq] at h
          rw [← h.1, OnIncoming.dispatch_sessionId]; rfl
    · simp only [Option.some.injEq, Prod.mk.injEq] at h
      rw [← h.1, OnIncoming.dispatch_sessionId]; rfl

theorem OnReadyToWrite_sessionId (s : Stream) (subStream : Nat)
    (r : Option Message × Nat) (s1 : Stream)
    (h : OnReadyToWrite s subStream = some (r, s1)) : s1.pSessionId = s.pSessionId := by
  unfold OnReadyToWrite at h
  split at h
  · simp at h
  · split at h
    · simp only [Option.some.injEq, Prod.mk.injEq] at h
      rw [← h.2]; rfl
    · simp only [Option.some.injEq, Prod.mk.injEq] at h
      rw [← h.2]; rfl

theorem DisableIfEmpty_sessionId (s : Stream) (subStream : Nat) (s1 : Stream)
    (h : DisableIfEmpty s subStream = some s1) : s1.pSessionId = s.pSessionId := by
  unfold DisableIfEmpty at h
  split at h
  · simp at h
  · split at h
    · simp only [Option.some.injEq] at h
      rw [← h]; rfl
    · simp only [Option.some.injEq] at h
      rw [← h]

theorem OnMessageSent_sessionId (s : Stream) (subStream : Nat) (msg : Message)
    (bytesSent : Nat) (s1 : Stream)
    (h : OnMessageSent s subStream msg bytesSent = some s1) :
    s1.pSessionId = s.pSessionId := by
  unfold OnMessageSent at h
  split at h
  · simp at h
  · simp only [Option.some.injEq] at h
    rw [← h]
    simp only [Stream.setSub]
    split <;> rfl

theorem OnReadTimeout_sessionId (env : Env) (s : Stream) (substream : Nat) (b : Bool)
    (s1 : Stream) (h : OnReadTimeout env s substream = some (b, s1)) :
    s1.pSessionId = s.pSessionId := by
  unfold OnReadTimeout at h
  split at h
  · simp only [Option.some.injEq, Prod.mk.injEq] at h
    rw [← h.2]
  · dsimp only at h
    split at h
    · simp only [Option.some.injEq, Prod.mk.injEq] at h
      rw [← h.2]; rfl
    · split at h
      · split at h
        · simp at h
        · rename_i s2 hE
          simp only [Option.some.injEq, Prod.mk.injEq] at h
          rw [← h.2]
          exact OnError_sessionId env s _ _ s2 hE
      · simp only [Option.some.injEq, Prod.mk.injEq] at h
        rw [← h.2]

theorem InstallIncHandler_sessionId (env : Env) (s : Stream) (msg : Message) (stream : Nat)
    (r : Nat) (s1 : Stream) (h : InstallIncHandler env s msg stream = some (r, s1)) :
    s1.pSessionId = s.pSessionId := by
  unfold InstallIncHandler at h
  split at h
  · simp at h
  · dsimp only at h
    repeat' split at h
    all_goals
      simp only [Option.some.injEq, Prod.mk.injEq] at h
      rw [← h.2]
      rfl

theorem InspectStatusRsp_sessionId (env : Env) (s : Stream) (stream incHandler : Nat)
    (r : Nat × Nat) (s1 : Stream)
    (h : InspectStatusRsp env s stream incHandler = some (r.1, r.2, s1)) :
    s1.pSessionId = s.pSessionId := by
  unfold InspectStatusRsp at h
  split at h
  · simp at h
  · dsimp only at h
    have hs2 : ∀ (c : Prop) [Decidable c] (a : Stream) (evs : List Event),
        a.pSessionId = s.pSessionId →
        (if c then a.emit evs else a).pSessionId = s.pSessionId := by
      intro c _ a evs ha
      split
      · exact ha
      · exact ha
    split at h
    · simp only [Option.some.injEq, Prod.mk.injEq] at h
      rw [← h.2.2]
    · split at h
      · simp only [Option.some.injEq, Prod.mk.injEq] at h
        rw [← h.2.2]
        exact hs2 _ _ _ rfl
      · split at h
        · simp only [Option.some.injEq, Prod.mk.injEq] at h
          rw [← h.2.2]
          exact hs2 _ _ _ rfl
        · split at h
          · simp only [Option.some.injEq, Prod.mk.injEq] at h
            rw [← h.2.2]
            exact hs2 _ _ _ rfl
          · simp only [Option.some.injEq, Prod.mk.injEq] at h
            rw [← h.2.2]
            exact hs2 _ _ _ rfl

theorem Initialize_sessionId (attached : Bool) (s : Stream) (st : XRootDStatus)
    (s1 : Stream) (h : Initialize attached s = some (st, s1)) :
    s1.pSessionId = s.pSessionId := by
  unfold Initialize at h
  split at h
  · simp only [Option.some.injEq, Prod.mk.injEq] at h
    rw [← h.2]
  · dsimp only at h
    split at h
    · simp at h
    · simp only [Option.some.injEq, Prod.mk.injEq] at h
      rw [← h.2]

/-- What `OnConnect` does to the session id and to the counter. -/
theorem OnConnect_sessionId (env : Env) (cnt : Nat) (s : Stream) (subStream : Nat)
    (s1 : Stream) (cnt1 : Nat) (h : OnConnect env cnt s subStream = some (s1, cnt1)) :
    (subStream = 0 → cnt1 = (cnt + 1) % 2 ^ 64 ∧ s1.pSessionId = (cnt + 1) % 2 ^ 64) ∧
    (subStream ≠ 0 → cnt1 = cnt ∧ s1.pSessionId = s.pSessionId) := by
  unfold OnConnect at h
  split at h
  · simp at h
  · rename_i d hd
    dsimp only at h
    split at h
    · rename_i hz
      refine ⟨fun _ => ?_, fun hn => absurd hz hn⟩
      cases hsub : (s.setSub subStream { d with status := SocketStatus.Connected }).pSubStreams
        with
      | nil =>
        have hnil : s.pSubStreams = [] := by
          simpa [Stream.setSub] using hsub
        rw [hnil] at hd
        simp at hd
      | cons x xs =>
        obtain ⟨s2, h2, -, hid, -, -, -⟩ := OnConnect.main_shape env cnt _ x xs hsub
        rw [h2] at h
        simp only [Option.some.injEq, Prod.mk.injEq] at h
        rw [← h.1, ← h.2]
        exact ⟨rfl, hid⟩
    · rename_i hz
      refine ⟨fun h0 => absurd h0 hz, fun _ => ?_⟩
      split at h
      · simp only [Option.some.injEq, Prod.mk.injEq] at h
        rw [← h.1, ← h.2]
        exact ⟨rfl, rfl⟩
      · simp only [Option.some.injEq, Prod.mk.injEq] at h
        rw [← h.1, ← h.2]
        exact ⟨rfl, rfl⟩

/-- Every call other than `OnConnect(0)` leaves the session id and the session counter
as they are; `OnConnect(0)` moves both to the next counter value. -/
theorem step_sessionId (env : Env) (cnt : Nat) (s : Stream) (call : Call)
    (cnt1 : Nat) (s1 : Stream) (hstep : step env cnt s call = some (cnt1, s1)) :
    (call = Call.OnConnect 0 →
      cnt1 = (cnt + 1) % 2 ^ 64 ∧ s1.pSessionId = (cnt + 1) % 2 ^ 64) ∧
    (call ≠ Call.OnConnect 0 → cnt1 = cnt ∧ s1.pSessionId = s.pSessionId) := by
  cases call with
  | Initialize attached =>
    simp only [step, Option.map_eq_some', Prod.mk.injEq] at hstep
    obtain ⟨r, hr, hc, hs⟩ := hstep
    refine ⟨fun h => by simp at h, fun _ => ⟨hc.symm, ?_⟩⟩
    rw [← hs]
    exact Initialize_sessionId attached s r.1 r.2 hr
  | EnableLink path =>
    simp only [step, Option.map_eq_some', Prod.mk.injEq] at hstep
    obtain ⟨r, hr, hc, hs⟩ := hstep
    refine ⟨fun h => by simp at h, fun _ => ⟨hc.symm, ?_⟩⟩
    rw [← hs]
    exact EnableLink_sessionId env s path r.1 r.2.1 r.2.2 hr
  | Send msg handler stateful expires =>
    simp only [step, Option.map_eq_some', Prod.mk.injEq] at hstep
    obtain ⟨r, hr, hc, hs⟩ := hstep
    refine ⟨fun h => by simp at h, fun _ => ⟨hc.symm, ?_⟩⟩
    rw [← hs]
    exact Send_sessionId env s msg handler stateful expires r.1 r.2 hr
  | ForceConnect =>
    simp only [step, Option.map_eq_some', Prod.mk.injEq] at hstep
    obtain ⟨r, hr, hc, hs⟩ := hstep
    refine ⟨fun h => by simp at h, fun _ => ⟨hc.symm, ?_⟩⟩
    rw [← hs]
    exact ForceConnect_sessionId env s r hr
  | Disconnect =>
    simp only [step, Option.some.injEq, Prod.mk.injEq] at hstep
    refine ⟨fun h => by simp at h, fun _ => ⟨hstep.1.symm, ?_⟩⟩
    rw [← hstep.2]
    rfl
  | Tick now =>
    simp only [step, Option.some.injEq, Prod.mk.injEq] at hstep
    refine ⟨fun h => by simp at h, fun _ => ⟨hstep.1.symm, ?_⟩⟩
    rw [← hstep.2]
    rfl
  | OnIncoming subStream msg bytesReceived =>
    simp only [step, Option.map_eq_some', Prod.mk.injEq] at hstep
    obtain ⟨r, hr, hc, hs⟩ := hstep
    refine ⟨fun h => by simp at h, fun _ => ⟨hc.symm, ?_⟩⟩
    rw [← hs]
    exact OnIncoming_sessionId env s subStream msg bytesReceived r.1 r.2 hr
  | OnReadyToWrite subStream =>
    simp only [step, Option.map_eq_some', Prod.mk.injEq] at hstep
    obtain ⟨r, hr, hc, hs⟩ := hstep
    refine ⟨fun h => by simp at h, fun _ => ⟨hc.symm, ?_⟩⟩
    rw [← hs]
    exact OnReadyToWrite_sessionId s subStream r.1 r.2 hr
  | DisableIfEmpty subStream =>
    simp only [step, Option.map_eq_some', Prod.mk.injEq] at hstep
    obtain ⟨r, hr, hc, hs⟩ := hstep
    refine ⟨fun h => by simp at h, fun _ => ⟨hc.symm, ?_⟩⟩
    rw [← hs]
    exact DisableIfEmpty_sessionId s subStream r hr
  | OnMessageSent subStream msg bytesSent =>
    simp only [step, Option.map_eq_some', Prod.mk.injEq] at hstep
    obtain ⟨r, hr, hc, hs⟩ := hstep
    refine ⟨fun h => by simp at h, fun _ => ⟨hc.symm, ?_⟩⟩
    rw [← hs]
    exact OnMessageSent_sessionId s subStream msg bytesSent r hr
  | OnConnect subStream =>
    simp only [step, Option.map_eq_some', Prod.mk.injEq] at hstep
    obtain ⟨r, hr, hc, hs⟩ := hstep
    obtain ⟨hz, hn⟩ := OnConnect_sessionId env cnt s subStream r.1 r.2 hr
    rw [hc, hs] at hz hn
    constructor
    · intro h
      have h0 : subStream = 0 := by
        simpa using h
      exact hz h0
    · intro h
      have h0 : subStream ≠ 0 := by
        intro hc0
        apply h
        rw [hc0]
      exact hn h0
  | OnConnectError subStream status =>
    simp only [step, Option.map_eq_some', Prod.mk.injEq] at hstep
    obtain ⟨r, hr, hc, hs⟩ := hstep
    refine ⟨fun h => by simp at h, fun _ => ⟨hc.symm, ?_⟩⟩
    rw [← hs]
    exact OnConnectError_sessionId env s subStream status r hr
  | OnError subStream status =>
    simp only [step, Option.map_eq_some', Prod.mk.injEq] at hstep
    obtain ⟨r, hr, hc, hs⟩ := hstep
    refine ⟨fun h => by simp at h, fun _ => ⟨hc.symm, ?_⟩⟩
    rw [← hs]
    exact OnError_sessionId env s subStream status r hr
  | ForceError status hush =>
    simp only [step, Option.some.injEq, Prod.mk.injEq] at hstep
    refine ⟨fun h => by simp at h, fun _ => ⟨hstep.1.symm, ?_⟩⟩
    rw [← hstep.2]
    rfl
  | OnFatalError subStream status =>
    simp only [step, Option.map_eq_some', Prod.mk.injEq] at hstep
    obtain ⟨r, hr, hc, hs⟩ := hstep
    refine ⟨fun h => by simp at h, fun _ => ⟨hc.symm, ?_⟩⟩
    rw [← hs]
    exact OnFatalError_sessionId env s subStream status r hr
  | OnReadTimeout substream =>
    simp only [step, Option.map_eq_some', Prod.mk.injEq] at hstep
    obtain ⟨r, hr, hc, hs⟩ := hstep
    refine ⟨fun h => by simp at h, fun _ => ⟨hc.symm, ?_⟩⟩
    rw [← hs]
    exact OnReadTimeout_sessionId env s substream r.1 r.2 hr
  | OnWriteTimeout substream =>
    simp only [step, Option.some.injEq, Prod.mk.injEq] at hstep
    refine ⟨fun h => by simp at h, fun _ => ⟨hstep.1.symm, ?_⟩⟩
    rw [← hstep.2]
    rfl
  | InstallIncHandler msg stream =>
    simp only [step, Option.map_eq_some', Prod.mk.injEq] at hstep
    obtain ⟨r, hr, hc, hs⟩ := hstep
    refine ⟨fun h => by simp at h, fun _ => ⟨hc.symm, ?_⟩⟩
    rw [← hs]
    exact InstallIncHandler_sessionId env s msg stream r.1 r.2 hr
  | InspectStatusRsp stream incHandler =>
    simp only [step, Option.map_eq_some', Prod.mk.injEq] at hstep
    obtain ⟨r, hr, hc, hs⟩ := hstep
    refine ⟨fun h => by simp at h, fun _ => ⟨hc.symm, ?_⟩⟩
    rw [← hs]
    exact InspectStatusRsp_sessionId env s stream incHandler (r.1, r.2.1) r.2.2 hr

/-- C12: `OnConnect(0)` takes the next value of the shared 64-bit counter as the
stream's session id: absent wrap-around, and the stream's session id being one the
counter has handed out (it is at most the counter), the new session id is strictly
greater than the previous one and than every value the counter has taken so far.
`OnConnect(i)` for `i > 0` and every other call leave the session id and the counter
unchanged.  In both cases the session id stays at most the counter, and the counter
does not decrease. -/
theorem sessionId_strictly_increases (env : Env) (cnt : Nat) (s : Stream) (call : Call)
    (cnt1 : Nat) (s1 : Stream) (hstep : step env cnt s call = some (cnt1, s1)) :
    (call = Call.OnConnect 0 →
      cnt1 = (cnt + 1) % 2 ^ 64 ∧ s1.pSessionId = cnt1 ∧
      (cnt + 1 < 2 ^ 64 → s.pSessionId ≤ cnt →
        s.pSessionId < s1.pSessionId ∧ ∀ id, id ≤ cnt → id < s1.pSessionId)) ∧
    (call ≠ Call.OnConnect 0 → s1.pSessionId = s.pSessionId ∧ cnt1 = cnt) ∧
    (cnt + 1 < 2 ^ 64 → s.pSessionId ≤ cnt → s1.pSessionId ≤ cnt1 ∧ cnt ≤ cnt1) := by
  obtain ⟨hz, hn⟩ := step_sessionId env cnt s call cnt1 s1 hstep
  refine ⟨?_, ?_, ?_⟩
  · intro hc
    obtain ⟨h1, h2⟩ := hz hc
    refine ⟨h1, by rw [h2, h1], ?_⟩
    intro hw hinv
    rw [h2, Nat.mod_eq_of_lt hw]
    exact ⟨by omega, fun id hid => by omega⟩
  · intro hc
    exact ⟨(hn hc).2, (hn hc).1⟩
  · intro hw hinv
    by_cases hc : call = Call.OnConnect 0
    · obtain ⟨h1, h2⟩ := hz hc
      rw [h2, h1, Nat.mod_eq_of_lt hw]
      exact ⟨le_refl _, by omega⟩
    · obtain ⟨h1, h2⟩ := hn hc
      rw [h1, h2]
      exact ⟨hinv, le_refl _⟩

theorem sessionId_strictly_increases_witness :
    step exEnvFour 41 exSingle (Call.OnConnect 0) = some (42, exSingleUp) ∧
    exSingle.pSessionId = 3 ∧ exSingleUp.pSessionId = 42 ∧
    exSingle.pSessionId < exSingleUp.pSessionId := by
  have h := sessionId_strictly_increases exEnvFour 41 exSingle (Call.OnConnect 0) 42
    exSingleUp rfl
  exact ⟨rfl, rfl, (h.1 rfl).2.1, ((h.1 rfl).2.2 (by decide) (by decide)).1⟩

/-- Along any sequence of calls that does not wrap the 64-bit counter, the session id
never decreases and stays at most the counter, starting from a state where it is so
(a fresh stream has session id 0 and the counter starts at 0). -/
theorem run_sessionId_mono (env : Env) (cs : List Call) :
    ∀ (cnt : Nat) (s : Stream) (cnt1 : Nat) (s1 : Stream),
      run env cnt s cs = some (cnt1, s1) → cnt + cs.length < 2 ^ 64 → s.pSessionId ≤ cnt →
      s.pSessionId ≤ s1.pSessionId ∧ s1.pSessionId ≤ cnt1 ∧ cnt ≤ cnt1 ∧
      cnt1 ≤ cnt + cs.length := by
  induction cs with
  | nil =>
    intro cnt s cnt1 s1 h _ hinv
    simp only [run, Option.some.injEq, Prod.mk.injEq] at h
    rw [← h.1, ← h.2]
    exact ⟨le_refl _, hinv, le_refl _, by simp⟩
  | cons c cs ih =>
    intro cnt s cnt1 s1 h hw hinv
    unfold run at h
    split at h
    · exact absurd h (by simp)
    · rename_i r hr
      obtain ⟨hz, hn⟩ := step_sessionId env cnt s c r.1 r.2 hr
      simp only [List.length_cons] at hw
      have hstepfacts : s.pSessionId ≤ r.2.pSessionId ∧ r.2.pSessionId ≤ r.1 ∧
          cnt ≤ r.1 ∧ r.1 ≤ cnt + 1 := by
        by_cases hc : c = Call.OnConnect 0
        · obtain ⟨h1, h2⟩ := hz hc
          rw [h1, h2, Nat.mod_eq_of_lt (by omega)]
          omega
        · obtain ⟨h1, h2⟩ := hn hc
          rw [h1, h2]
          omega
      obtain ⟨ha, hb, hc, hd⟩ := ih r.1 r.2 cnt1 s1 h (by omega) hstepfacts.2.1
      simp only [List.length_cons]
      omega

/-! ## Partial responses and the timeout fence -/

/-- A partial response arriving on a substream whose in-slot holds handler 4 with an
action that has neither `NoProcess` nor `Ignore`: the only call made is the queueing of
the handler on the job manager; `PartialReceived` is not called. -/
theorem OnIncoming_partial_is_queued :
    IsPartial exPartial = true ∧
    (exInSlot.pSubStreams[0]?).map (fun d => d.inMsgHelper.handler) = some 4 ∧
    (OnIncoming exEnv exInSlot 0 exPartial 0).map (fun r => r.1.trace) =
      some [Event.QueueJob 4] := by
  refine ⟨rfl, rfl, rfl⟩

/-- C25 (amended): for a partial response arriving on a substream whose in-slot holds a
handler, `OnIncoming` returns and makes these calls only: when the in-slot action
carries `NoProcess` or `Ignore`, `PartialReceived` on the handler (if it is an
`XRootDMsgHandler`; nothing otherwise) and no job is queued; when the action carries
neither, the handler is queued on the job manager, as for a final response, and
`PartialReceived` is not called. -/
theorem OnIncoming_partial (env : Env) (s : Stream) (subStream : Nat) (msg : Message)
    (bytesReceived : Nat) (d : SubStreamData) (h : s.pSubStreams[subStream]? = some d)
    (hp : IsPartial msg = true) (hh : d.inMsgHelper.handler ≠ 0) :
    ∃ s1 evs, OnIncoming env s subStream msg bytesReceived =
        some (s1, { msg with sessionId := s.pSessionId }) ∧
      s1.trace = s.trace ++ evs ∧
      (d.inMsgHelper.action &&& (MsgHandler.NoProcess ||| MsgHandler.Ignore) ≠ 0 →
        evs = (if env.isXRootDMsgHandler d.inMsgHelper.handler
          then [Event.PartialReceived d.inMsgHelper.handler] else [])) ∧
      (d.inMsgHelper.action &&& (MsgHandler.NoProcess ||| MsgHandler.Ignore) = 0 →
        evs = [Event.QueueJob d.inMsgHelper.handler]) := by
  have h1 : ({ s with pBytesReceived := s.pBytesReceived + bytesReceived } :
      Stream).pSubStreams[subStream]? = some d := h
  have hp1 : IsPartial { msg with sessionId := s.pSessionId } = true := by
    rw [IsPartial_sessionId]; exact hp
  unfold OnIncoming
  dsimp only
  rw [h1]
  simp only [hp1, Bool.not_true, Bool.false_eq_true, if_false]
  unfold OnIncoming.dispatch
  rw [if_neg hh]
  by_cases ha : d.inMsgHelper.action &&& (MsgHandler.NoProcess ||| MsgHandler.Ignore) = 0
  · refine ⟨_, [Event.QueueJob d.inMsgHelper.handler], rfl, ?_, fun hc => absurd ha hc,
      fun _ => rfl⟩
    simp [ha, Stream.emit, Stream.setSub]
  · by_cases hx : env.isXRootDMsgHandler d.inMsgHelper.handler = true
    · refine ⟨_, [Event.PartialReceived d.inMsgHelper.handler], rfl, ?_, fun _ => ?_,
        fun hc => absurd hc ha⟩
      · simp [ha, hp1, hx, Stream.emit, Stream.setSub]
      · simp [hx]
    · refine ⟨_, [], rfl, ?_, fun _ => ?_, fun hc => absurd hc ha⟩
      · simp [ha, hp1, hx, Stream.setSub]
      · simp [hx]

theorem OnIncoming_partial_witness :
    ∃ s1 evs, OnIncoming exEnv exInSlotNoProcess 0 exPartial 0 =
        some (s1, { exPartial with sessionId := 7 }) ∧
      s1.trace = exInSlotNoProcess.trace ++ evs ∧
      evs = [Event.PartialReceived 4] := by
  obtain ⟨s1, evs, h1, h2, h3, -⟩ := OnIncoming_partial exEnv exInSlotNoProcess 0 exPartial 0
    { status := SocketStatus.Connected,
      inMsgHelper := { handler := 4, expires := 150, action := MsgHandler.NoProcess } }
    rfl rfl (by decide)
  exact ⟨s1, evs, h1, h2, h3 (by decide)⟩

/-! ## What `EnableLink` leaves alone -/

theorem emit_slots (s : Stream) (evs : List Event) : (s.emit evs).slots = s.slots := rfl

theorem setSub_slots (s : Stream) (i : Nat) (d d1 : SubStreamData)
    (h : s.pSubStreams[i]? = some d) (hq : d1.slots = d.slots) :
    (s.setSub i d1).slots = s.slots := by
  unfold Stream.slots Stream.setSub
  exact map_set_of_eq SubStreamData.slots s.pSubStreams i d d1 h hq

theorem connectStep_slots (env : Env) (s : Stream) (addr : XrdNetAddr)
    (rest : List XrdNetAddr) (st : XRootDStatus) (s1 : Stream)
    (h : connectStep env s addr rest = some (st, s1)) : s1.slots = s.slots := by
  unfold connectStep at h
  split at h
  · simp at h
  · rename_i d0 h0
    simp only [Option.some.injEq, Prod.mk.injEq] at h
    rw [← h.2]
    exact setSub_slots s 0 d0 _ h0 rfl

theorem connectLoop_slots (env : Env) (rev : List XrdNetAddr) :
    ∀ (st0 : XRootDStatus) (s : Stream) (st : XRootDStatus) (s1 : Stream),
      connectLoop env st0 s rev = some (st, s1) → s1.slots = s.slots := by
  induction rev with
  | nil =>
    intro st0 s st s1 h
    simp [connectLoop] at h
    rw [h.2]
  | cons a rest ih =>
    intro st0 s st s1 h
    simp only [connectLoop] at h
    split at h
    · simp at h
    · rename_i st1 s2 hstep
      have hq := connectStep_slots env s a rest st1 s2 hstep
      split at h
      · split at h
        · simp at h
        · rename_i d0 h0
          simp only [Option.some.injEq, Prod.mk.injEq] at h
          rw [← h.2, ← hq]
          exact setSub_slots s2 0 d0 _ h0 rfl
      · rw [ih st1 s2 st s1 h, hq]

theorem EnableLink.uplink_shape (env : Env) (s : Stream) (path : PathID)
    (st : XRootDStatus) (s1 : Stream) (p : PathID)
    (h : EnableLink.uplink env s path = some (st, s1, p)) :
    s1.pSubStreams = s.pSubStreams ∧
      ∃ evs, s1.trace = s.trace ++ evs ∧ ∀ e ∈ evs, ∃ i, e = Event.EnableUplink i := by
  unfold EnableLink.uplink at h
  split at h
  · simp at h
  · dsimp only at h
    split at h
    · simp at h
    · split at h
      · simp only [Option.some.injEq, Prod.mk.injEq] at h
        rw [← h.2.1]
        exact ⟨rfl, [Event.EnableUplink 0], rfl, by simp⟩
      · split at h
        · simp only [Option.some.injEq, Prod.mk.injEq] at h
          rw [← h.2.1]
          exact ⟨rfl, [Event.EnableUplink _], rfl, by simp⟩
        · simp only [Option.some.injEq, Prod.mk.injEq] at h
          rw [← h.2.1]
          exact ⟨rfl, [], by simp, by simp⟩

theorem EnableLink.prefer_slots (env : Env) (s : Stream) :
    (EnableLink.prefer env s).slots = s.slots := by
  unfold EnableLink.prefer
  split
  · dsimp only
    split <;> rfl
  · rfl

theorem EnableLink.connect_slots (env : Env) (s : Stream) (path : PathID)
    (st : XRootDStatus) (s1 : Stream) (p : PathID)
    (h : EnableLink.connect env s path = some (st, s1, p)) : s1.slots = s.slots := by
  unfold EnableLink.connect at h
  dsimp only at h
  split at h
  · simp only [Option.some.injEq, Prod.mk.injEq] at h
    rw [← h.2.1]; rfl
  · split at h
    · simp at h
    · rename_i st4 s4 hloop
      simp only [Option.some.injEq, Prod.mk.injEq] at h
      rw [← h.2.1, connectLoop_slots env _ _ _ _ _ hloop, EnableLink.prefer_slots]
      rfl

/-- The method `EnableLink` never touches an out-queue or an in-flight slot. -/
theorem EnableLink_slots (env : Env) (s : Stream) (path : PathID)
    (st : XRootDStatus) (s1 : Stream) (p : PathID)
    (h : EnableLink env s path = some (st, s1, p)) : s1.slots = s.slots := by
  unfold EnableLink at h
  split at h
  · simp at h
  · split at h
    · simp only [Option.some.injEq, Prod.mk.injEq] at h
      rw [← h.2.1]
    · split at h
      · unfold Stream.slots
        rw [(EnableLink.uplink_shape env s path st s1 p h).1]
      · split at h
        · simp only [Option.some.injEq, Prod.mk.injEq] at h
          rw [← h.2.1]
        · exact EnableLink.connect_slots env s path st s1 p h

theorem outQueues_of_slots (s t : Stream) (h : s.slots = t.slots) :
    s.outQueues = t.outQueues := by
  have := congrArg (List.map (fun x : OutQueue × MsgHelper × InMessageHelper => x.1)) h
  simpa [Stream.slots, Stream.outQueues, List.map_map, Function.comp,
    SubStreamData.slots] using this

/-- The two ways `OnError(0, status)` ends, `s1` being the stream after the recovery of
the in-flight slots: with the report of `status` on the stateful entries of a stream
`s3` that holds what `s1` holds, or, when the reconnect fails with `st`, with the fatal
drain of such a stream. -/
theorem OnError_zero_ends (env : Env) (s : Stream) (status : XRootDStatus)
    (d : SubStreamData) (s1 : Stream)
    (h0 : s.pSubStreams[0]? = some d)
    (hrec : OnError.recover env s 0 = some s1) :
    ∃ s3 evs3 d3, s3.slots = s1.slots ∧ s3.trace = s.trace ++ evs3 ∧
      evs3.filter Event.isStatusReady = [] ∧ s3.pSubStreams[0]? = some d3 ∧
      ((outstanding s1 = 0 ∧ OnError env s 0 status = some (OnError.report s3 status)) ∨
       (outstanding s1 ≠ 0 ∧ ∃ st p,
          EnableLink env (s1.emit [Event.MonitorDisconnection status]) { up := 0, down := 0 } =
            some (st, s3, p) ∧
          OnError env s 0 status =
            (if !st.IsOK then OnFatalError env s3 0 st
             else some (OnError.report s3 status)))) := by
  obtain ⟨d1, evs1, hr, hst, -, -, -, -, hf1⟩ := OnError.recover_shape env s 0 d h0
  rw [hrec] at hr
  have hs1 := Option.some.inj hr
  have h10 : (s1.emit [Event.MonitorDisconnection status]).pSubStreams[0]? = some d1 := by
    rw [hs1]; exact getElem?_set_zero _ _ _ h0
  have ht1 : s1.trace = s.trace ++ evs1 := by rw [hs1]
  unfold OnError
  rw [hrec]
  simp only [gt_iff_lt, lt_self_iff_false, if_false]
  by_cases ho : outstanding (s1.emit [Event.MonitorDisconnection status]) = 0
  · simp only [ho, ne_eq, not_true_eq_false, if_false]
    refine ⟨s1.emit [Event.MonitorDisconnection status],
      evs1 ++ [Event.MonitorDisconnection status], d1, rfl, ?_, ?_, h10,
      Or.inl ⟨ho, rfl⟩⟩
    · simp [Stream.emit, ht1]
    · simp [List.filter_append, hf1, Event.isStatusReady]
  · simp only [ho, ne_eq, not_false_eq_true, if_true]
    obtain ⟨st, s3, evs3, hE, ht3, hf3⟩ := EnableLink_disconnected_total env
      (s1.emit [Event.MonitorDisconnection status]) { up := 0, down := 0 } d1 h10 hst
    have hsl := EnableLink_slots env _ _ st s3 _ hE
    obtain ⟨d3, hd3⟩ := sub_zero_of_outQueues s3 _ d1
      (EnableLink_outQueues env _ _ st s3 _ hE) h10
    refine ⟨s3, evs1 ++ [Event.MonitorDisconnection status] ++ evs3, d3, hsl, ?_, ?_, hd3,
      Or.inr ⟨ho, st, _, hE, ?_⟩⟩
    · rw [ht3]
      simp [Stream.emit, ht1]
    · simp [List.filter_append, hf1, hf3, Event.isStatusReady]
    · rw [hE]

/-- A session loss on substream 0 of `exBusy` with a `ConnectionError`: the two stateful
entries are reported with that very status, whose code is not `StreamBroken`
(`errStreamDisconnect`). -/
theorem OnError_reports_ConnectionError :
    (OnError exEnvDns exBusy 0 { status := stError, code := errConnectionError }).map
        (fun s2 => s2.trace.filter Event.isStatusReady) =
      some [Event.OnStatusReady 5 (some { id := 5, sessionId := 7 })
              { status := stError, code := errConnectionError },
            Event.OnStatusReady 2 (some { id := 2, sessionId := 7 })
              { status := stError, code := errConnectionError }] ∧
    errConnectionError ≠ errStreamDisconnect := by
  refine ⟨rfl, by decide⟩

/-- C26 (amended): when substream 0 is lost through `OnError(0, status)` with status
code `ConnectionError`, `OnError` returns and every handler callback it makes carries
a status taken over unchanged: if the reconnect does not fail, every drained stateful
entry's handler receives `status` itself, whose code is `ConnectionError` (and no other
callback is made), while `Broken` is the kind of the stream event reported, with that
same status, to the incoming queue and the channel event handlers; if the reconnect
fails with `st`, every callback carries `st` with severity fatal. -/
theorem OnError_report_code (env : Env) (s : Stream) (status : XRootDStatus)
    (d : SubStreamData) (s1 : Stream)
    (h0 : s.pSubStreams[0]? = some d)
    (hrec : OnError.recover env s 0 = some s1)
    (hcode : status.code = errConnectionError) :
    ∃ s2 evs, OnError env s 0 status = some s2 ∧ s2.trace = s.trace ++ evs ∧
      ((outstanding s1 ≠ 0 → ∀ st s3 p,
          EnableLink env (s1.emit [Event.MonitorDisconnection status]) { up := 0, down := 0 } =
            some (st, s3, p) → st.IsOK = true) →
        (∀ e ∈ s1.outQueues.flatten, e.stateful = true →
          Event.OnStatusReady e.handler e.msg status ∈ evs) ∧
        (∀ h m st, Event.OnStatusReady h m st ∈ evs →
          st = status ∧ st.code = errConnectionError) ∧
        Event.ReportStreamEvent StreamEvent.Broken status ∈ evs ∧
        Event.ChannelEvent StreamEvent.Broken status ∈ evs) ∧
      (∀ st s3 p, outstanding s1 ≠ 0 →
          EnableLink env (s1.emit [Event.MonitorDisconnection status]) { up := 0, down := 0 } =
            some (st, s3, p) → st.IsOK = false →
        ∀ h m st1, Event.OnStatusReady h m st1 ∈ evs → st1 = { st with status := stFatal }) := by
  obtain ⟨s3, evs3, d3, hsl, ht3, hf3, hd3, hcase⟩ :=
    OnError_zero_ends env s status d s1 h0 hrec
  have hq3 : s3.outQueues = s1.outQueues := outQueues_of_slots _ _ hsl
  have hno : ∀ e ∈ evs3, ¬ Event.isStatusReady e = true := List.filter_eq_nil_iff.mp hf3
  have broken : ∃ evs, (OnError.report s3 status).trace = s.trace ++ evs ∧
      (∀ e ∈ s1.outQueues.flatten, e.stateful = true →
        Event.OnStatusReady e.handler e.msg status ∈ evs) ∧
      (∀ h m st, Event.OnStatusReady h m st ∈ evs →
        st = status ∧ st.code = errConnectionError) ∧
      Event.ReportStreamEvent StreamEvent.Broken status ∈ evs ∧
      Event.ChannelEvent StreamEvent.Broken status ∈ evs := by
    refine ⟨evs3 ++ ((s3.outQueues.flatten.filter (fun e => e.stateful)).map
          (fun e => Event.OnStatusReady e.handler e.msg status) ++
        [Event.ReportStreamEvent StreamEvent.Broken status,
         Event.ChannelEvent StreamEvent.Broken status]), ?_, ?_, ?_, ?_, ?_⟩
    · rw [(OnError.report_shape s3 status).2, ht3, List.append_assoc]
    · intro e he hs
      rw [hq3]
      apply List.mem_append_right
      apply List.mem_append_left
      exact List.mem_map.mpr ⟨e, List.mem_filter.mpr ⟨he, hs⟩, rfl⟩
    · intro h m st hmem
      rcases List.mem_append.mp hmem with h1 | h1
      · exact absurd rfl (hno _ h1)
      · rcases List.mem_append.mp h1 with h2 | h2
        · obtain ⟨e, -, he⟩ := List.mem_map.mp h2
          simp only [Event.OnStatusReady.injEq] at he
          rw [← he.2.2]
          exact ⟨rfl, hcode⟩
        · simp at h2
    · simp
    · simp
  rcases hcase with ⟨ho, hE⟩ | ⟨ho, st, p, hE, hOn⟩
  · obtain ⟨evs, hb1, hb2⟩ := broken
    exact ⟨_, evs, hE, hb1, fun _ => hb2, fun st s4 p hne => absurd ho hne⟩
  · by_cases hok : st.IsOK = true
    · simp only [hok, Bool.not_true, Bool.false_eq_true, if_false] at hOn
      obtain ⟨evs, hb1, hb2⟩ := broken
      refine ⟨_, evs, hOn, hb1, fun _ => hb2, ?_⟩
      intro st2 s4 p2 _ hE2 hbad
      rw [hE] at hE2
      simp only [Option.some.injEq, Prod.mk.injEq] at hE2
      rw [← hE2.1, hok] at hbad
      exact absurd hbad (by simp)
    · have hok2 : st.IsOK = false := by simpa using hok
      simp only [hok2, Bool.not_false, if_true] at hOn
      obtain ⟨s4, h4, -, htr, -⟩ := OnFatalError_shape env s3 0 st d3 hd3
      refine ⟨s4, evs3 ++ ((s3.outQueues.flatten.map (fun e =>
            Event.OnStatusReady e.handler e.msg { st with status := stFatal })) ++
         [Event.ReportStreamEvent StreamEvent.FatalError { st with status := stFatal },
          Event.ChannelEvent StreamEvent.FatalError { st with status := stFatal }]),
        by rw [hOn, h4], by rw [htr, ht3, List.append_assoc], ?_, ?_⟩
      · intro hlink
        have := hlink ho st s3 p hE
        rw [hok2] at this
        exact absurd this (by simp)
      · intro st2 s5 p2 _ hE2 _ h m st1 hmem
        rw [hE] at hE2
        simp only [Option.some.injEq, Prod.mk.injEq] at hE2
        rw [← hE2.1]
        rcases List.mem_append.mp hmem with h1 | h1
        · exact absurd rfl (hno _ h1)
        · rcases List.mem_append.mp h1 with h2 | h2
          · obtain ⟨e, -, he⟩ := List.mem_map.mp h2
            simp only [Event.OnStatusReady.injEq] at he
            exact he.2.2.symm
          · simp at h2

theorem OnError_report_code_witness :
    ∃ s2 evs, OnError exEnvDns exBusy 0 { status := stError, code := errConnectionError } =
        some s2 ∧ s2.trace = exBusy.trace ++ evs ∧
      ∀ h m st, Event.OnStatusReady h m st ∈ evs →
        st = { status := stError, code := errConnectionError } := by
  obtain ⟨s2, evs, h1, h2, h3, -⟩ := OnError_report_code exEnvDns exBusy
    { status := stError, code := errConnectionError }
    _ ((OnError.recover exEnvDns exBusy 0).getD exBusy) rfl rfl rfl
  refine ⟨s2, evs, h1, h2, fun h m st hmem => ?_⟩
  have hlink : outstanding ((OnError.recover exEnvDns exBusy 0).getD exBusy) ≠ 0 →
      ∀ st s3 p,
      EnableLink exEnvDns
        (((OnError.recover exEnvDns exBusy 0).getD exBusy).emit
          [Event.MonitorDisconnection { status := stError, code := errConnectionError }])
        { up := 0, down := 0 } = some (st, s3, p) → st.IsOK = true := by
    intro _ st s3 p hE
    have hv : (EnableLink exEnvDns
        (((OnError.recover exEnvDns exBusy 0).getD exBusy).emit
          [Event.MonitorDisconnection { status := stError, code := errConnectionError }])
        { up := 0, down := 0 }).map (fun r => r.1.IsOK) = some true := rfl
    rw [hE] at hv
    simpa using hv
  exact ((h3 hlink).2.1 h m st hmem).1

/-! ## Trace directives -/

/-- What a directive with a word on it leaves in `OfsTrace.What` does not depend on the
value `OfsTrace.What` had. -/
theorem XrdOfs.xtrace_forgets (opval : String → Nat) (W1 W2 : Nat) (val : String)
    (rest : List String) :
    XrdOfs.xtrace opval W1 (val :: rest) = XrdOfs.xtrace opval W2 (val :: rest) := rfl

/-- C27: the directives `trace open` then `trace read`: the mask left is that of `read`
alone, whatever the masks in the table are; a bit of `open` that is not a bit of `read`
is lost, although the second directive turns nothing off. -/
theorem XrdOfs.xtrace_second_replaces (opval : String → Nat) (What : Nat) :
    (XrdOfs.xtrace opval What ["open"]).2.1 = opval "open" ∧
    XrdOfs.xtraceTwice opval What ["open"] ["read"] = opval "read" ∧
    XrdOfs.xtraceTwice (fun n => if n = "open" then 4 else if n = "read" then 16 else 0)
      What ["open"] ["read"] = 16 := by
  refine ⟨?_, ?_, ?_⟩
  · simp [XrdOfs.xtrace, XrdOfs.xtrace.loop, XrdOfs.xtrace.word, XrdOfs.xtrace.neg,
      XrdOfs.tropts]
  · simp [XrdOfs.xtraceTwice, XrdOfs.xtrace, XrdOfs.xtrace.loop, XrdOfs.xtrace.word,
      XrdOfs.xtrace.neg, XrdOfs.tropts]
  · simp [XrdOfs.xtraceTwice, XrdOfs.xtrace, XrdOfs.xtrace.loop, XrdOfs.xtrace.word,
      XrdOfs.xtrace.neg, XrdOfs.tropts]

/-! ## The substream indices `Send` dereferences -/

/-- With substream 0 connected, a `down` index the stream does not have makes `Send`
index `pSubStreams` out of range (line 206 of `EnableLink`). -/
theorem Send_down_out_of_range (env : Env) (s : Stream) (msg : Message) (handler : Nat)
    (stateful : Bool) (expires : Int) (d0 : SubStreamData)
    (h0 : s.pSubStreams[0]? = some d0) (hc : d0.status = SocketStatus.Connected)
    (hs : msg.GetSessionId = 0 ∨ s.pSessionId = msg.GetSessionId)
    (hd : s.pSubStreams.length ≤ (env.MultiplexSubStream msg).down) :
    Send env s msg handler stateful expires = none := by
  have hb : Send.bounce s msg = some false := by
    unfold Send.bounce
    rcases hs with hs | hs
    · simp [hs]
    · by_cases hz : msg.GetSessionId = 0
      · simp [hz]
      · simp [hz, h0, hc, hs]
  have hdown : (Send.path env s msg).down = (env.MultiplexSubStream msg).down := by
    unfold Send.path
    dsimp only
    split <;> rfl
  have hnone : s.pSubStreams[(Send.path env s msg).down]? = none := by
    rw [hdown]
    exact List.getElem?_eq_none_iff.mpr hd
  unfold Send
  rw [hb]
  dsimp only
  unfold Send.enqueue
  rw [EnableLink_of_connected env s _ d0 h0 hc]
  unfold EnableLink.uplink
  rw [hnone]

/-- C28: on the connected one-substream stream `exConnected`, a message the transport
routes to the path (0, 5) makes `Send` dereference `pSubStreams[5]`: the `down` index is
used unchecked, whereas an `up` index of 5 is replaced by 0 and the message is queued. -/
theorem Send_down_unchecked :
    exConnected.pSubStreams.length = 1 ∧
    exEnvDown5.MultiplexSubStream { id := 1 } = { up := 0, down := 5 } ∧
    Send exEnvDown5 exConnected { id := 1 } 1 false 160 = none ∧
    (Send exEnvUp5Down0 exConnected { id := 1 } 1 false 160).map
        (fun r => (r.1, r.2.outQueues)) =
      some ({}, [[{ msg := some { id := 1 }, handler := 1, expires := 160 }]]) := by
  refine ⟨rfl, rfl, rfl, rfl⟩

/-! ## An OK status from `EnableLink` and the connection attempt behind it -/

/-- On the disconnected stream `exIdle`, error window passed, with a resolver that
answers OK with no address: `EnableLink` returns an OK status, makes no socket call and
leaves substream 0 `Disconnected`; `Send` then queues its message on a stream with no
connection attempt in progress. -/
theorem EnableLink_ok_still_disconnected :
    exIdle.pSubStreams.map (fun d => d.status) = [SocketStatus.Disconnected] ∧
    (EnableLink exEnv exIdle { up := 0, down := 0 }).map
        (fun r => (r.1.IsOK, r.2.1.pSubStreams.map (fun d => d.status), r.2.1.trace)) =
      some (true, [SocketStatus.Disconnected], [Event.GetHostAddresses { host := 1 }]) ∧
    (Send exEnv exIdle { id := 1 } 1 false 160).map
        (fun r => (r.1.IsOK, r.2.outQueues, r.2.pSubStreams.map (fun d => d.status),
          r.2.trace)) =
      some (true, [[{ msg := some { id := 1 }, handler := 1, expires := 160 }]],
        [SocketStatus.Disconnected], [Event.GetHostAddresses { host := 1 }]) := by
  refine ⟨rfl, rfl, rfl⟩

/-- When an OK status from `EnableLink` means a connection attempt: for every state in
which substream 0 is `Disconnected`, if `EnableLink` returns an OK status then substream 0
is `Connecting` afterwards when the error window has passed and the address work-list
resolved is not empty, and is still `Disconnected` in the two other cases (the error
window test passes with an OK status on record, or there is no address to try). -/
theorem EnableLink_ok_connecting (env : Env) (s : Stream) (path : PathID)
    (d0 : SubStreamData) (st : XRootDStatus) (s1 : Stream) (p : PathID)
    (h0 : s.pSubStreams[0]? = some d0) (hd : d0.status = SocketStatus.Disconnected)
    (hE : EnableLink env s path = some (st, s1, p)) (hok : st.IsOK = true) :
    ∃ d1, s1.pSubStreams[0]? = some d1 ∧
      (((s.pStreamErrorWindow : Int) ≤ env.now - s.pLastStreamError ∧ workList env s ≠ []) →
        d1.status = SocketStatus.Connecting) ∧
      (¬ ((s.pStreamErrorWindow : Int) ≤ env.now - s.pLastStreamError ∧
          workList env s ≠ []) →
        d1.status = SocketStatus.Disconnected) := by
  by_cases hw : (s.pStreamErrorWindow : Int) ≤ env.now - s.pLastStreamError
  · cases hr : (env.GetHostAddresses s.pUrl s.pAddressType).1.IsOK with
    | false =>
      rw [EnableLink_of_disconnected env s path d0 h0 hd, if_neg (not_lt.mpr hw)] at hE
      obtain ⟨st2, s2, evs, h1, -, -, -, hbad, -⟩ := EnableLink.connect_shape env s path d0 h0
      rw [h1] at hE
      simp only [Option.some.injEq, Prod.mk.injEq] at hE
      have hst := (hbad hr).2.1
      rw [hE.1] at hst
      rw [hst] at hok
      simp [XRootDStatus.IsOK] at hok
    | true =>
      obtain ⟨s2, evs, d1, h1, -, -, -, h5, h6, -⟩ :=
        EnableLink_resolved env s path d0 h0 hd hw hr
      rw [h1] at hE
      simp only [Option.some.injEq, Prod.mk.injEq] at hE
      rw [hE.2.1] at h5
      refine ⟨d1, h5, ?_, ?_⟩
      · rintro ⟨-, hne⟩
        have hrev : (workList env s).reverse ≠ [] := by simpa using hne
        cases hl : (workList env s).reverse with
        | nil => exact absurd hl hrev
        | cons b rest =>
          rw [hl] at h6
          have hst : st = loopStatus env (env.GetHostAddresses s.pUrl s.pAddressType).1
              (b :: rest) := by rw [← hE.1, hl]
          have hn := attempted_ne_nil env b rest
          cases ha : (attempted env (b :: rest)).getLast? with
          | none => simp [List.getLast?_eq_none_iff] at ha; exact absurd ha hn
          | some a =>
            rw [ha] at h6
            simp only [loopStatus, ha] at hst
            rw [hst] at hok
            simp [h6, hok]
      · intro hnot
        have hnil : workList env s = [] := by
          by_contra hne
          exact hnot ⟨hw, hne⟩
        rw [hnil] at h6
        simpa [attempted] using h6
  · rw [EnableLink_of_disconnected env s path d0 h0 hd, if_pos (not_le.mp hw)] at hE
    simp only [Option.some.injEq, Prod.mk.injEq] at hE
    rw [← hE.2.1]
    exact ⟨d0, h0, fun h => absurd h.1 hw, fun _ => hd⟩

/-- With substream 0 `Disconnected`, the test of line 229 passing and an OK status in
`pLastFatalError`, `Send` of a message without session id is the enqueueing alone: it
returns the status on record and appends the message to the out-queue the transport
names; the resolver and the sockets are not called and no status changes. -/
theorem Send_open_window_ok (env : Env) (s : Stream) (msg : Message) (handler : Nat)
    (stateful : Bool) (expires : Int) (d0 : SubStreamData)
    (h0 : s.pSubStreams[0]? = some d0) (hd : d0.status = SocketStatus.Disconnected)
    (hm : msg.GetSessionId = 0)
    (hw : env.now - s.pLastStreamError < (s.pStreamErrorWindow : Int))
    (hok : s.pLastFatalError.IsOK = true) :
    Send env s msg handler stateful expires =
      (s.pSubStreams[(env.MultiplexSubStreamHint msg (Send.path env s msg)).up]?).map
        (fun d => (s.pLastFatalError,
          s.setSub (env.MultiplexSubStreamHint msg (Send.path env s msg)).up
            { d with outQueue := d.outQueue.PushBack msg handler expires stateful })) := by
  unfold Send Send.bounce
  simp only [hm, ne_eq, not_true_eq_false, if_false]
  unfold Send.enqueue
  rw [EnableLink_of_disconnected env s _ d0 h0 hd, if_pos hw]
  simp only [hok, if_true]
  cases s.pSubStreams[(env.MultiplexSubStreamHint msg (Send.path env s msg)).up]? <;> rfl

/-- A stream that has just been constructed and initialised has met no error, yet while
the clock reads less than `StreamErrorWindow` it is treated as inside the error window:
a `Send` of a message without session id that returns, returns OK with the message
queued on substream 0, which is still `Disconnected`, and with no call made on the
resolver or on a socket. -/
theorem Send_fresh_no_attempt (url prefer : URL) (cw cr w : Nat) (ty : AddressType)
    (env : Env) (msg : Message) (handler : Nat) (stateful : Bool) (expires : Int)
    (st0 : XRootDStatus) (s0 : Stream) (st : XRootDStatus) (s1 : Stream)
    (hI : Initialize true (Stream.Stream url prefer cw cr w ty) = some (st0, s0))
    (hm : msg.GetSessionId = 0) (hnow : env.now < (w : Int))
    (hS : Send env s0 msg handler stateful expires = some (st, s1)) :
    st.IsOK = true ∧ s1.statuses = [SocketStatus.Disconnected] ∧ s1.trace = [] ∧
    s1.outQueues =
      [[{ msg := some msg, handler := handler, expires := expires, stateful := stateful }]] := by
  have hs0 : s0 = { Stream.Stream url prefer cw cr w ty with pSubStreams := [{}] } := by
    simp only [Initialize, Stream.Stream, Bool.not_true, Bool.false_eq_true, if_false,
      List.nil_append, List.getElem?_cons_zero, Option.some.injEq, Prod.mk.injEq] at hI
    rw [← hI.2]
    rfl
  subst hs0
  have hw : env.now - 0 < (w : Int) := by omega
  rw [Send_open_window_ok env { Stream.Stream url prefer cw cr w ty with pSubStreams := [{}] }
    msg handler stateful expires {} rfl rfl hm hw rfl] at hS
  cases hu : (env.MultiplexSubStreamHint msg
      (Send.path env { Stream.Stream url prefer cw cr w ty with pSubStreams := [{}] } msg)).up with
  | zero =>
    rw [hu] at hS
    simp only [List.getElem?_cons_zero, Option.map_some', Option.some.injEq,
      Prod.mk.injEq] at hS
    rw [← hS.1, ← hS.2]
    exact ⟨rfl, rfl, rfl, rfl⟩
  | succ n =>
    rw [hu] at hS
    simp at hS

/-- C24: for substream 0 with a non-empty out-queue holding only stateless entries (the
front one holding a message), `OnReadyToWrite(0)` hands out the front entry, and a
following `OnError(0, status)` in which the reconnect succeeds returns and leaves
out-queue 0 exactly as it was before `OnReadyToWrite` (same entries, same order, same
handler, expiry and stateful flag), leaves the out slot and the in slot of substream 0
empty, and makes failure reports for stateful entries only (those of the other
substreams): none for an entry of out-queue 0, and none to a handler of out-queue 0
that is not also the handler of a stateful entry. -/
theorem pop_requeue_identity (env : Env) (s : Stream) (status : XRootDStatus)
    (d : SubStreamData) (e : MsgHelper) (rest : OutQueue)
    (h0 : s.pSubStreams[0]? = some d)
    (hq : d.outQueue = e :: rest)
    (hless : ∀ x ∈ d.outQueue, x.stateful = false)
    (hmsg : e.msg.isSome = true)
    (hlink : ∀ r s1 s2, OnReadyToWrite s 0 = some (r, s1) →
      OnError.recover env s1 0 = some s2 → ∀ st s3 p,
      EnableLink env (s2.emit [Event.MonitorDisconnection status]) { up := 0, down := 0 } =
        some (st, s3, p) → st.IsOK = true) :
    ∃ s1 s4 d4 evs, OnReadyToWrite s 0 = some ((e.msg, e.handler), s1) ∧
      OnError env s1 0 status = some s4 ∧
      s4.pSubStreams[0]? = some d4 ∧
      d4.outQueue = d.outQueue ∧
      d4.outMsgHelper = ({} : MsgHelper) ∧ d4.inMsgHelper.handler = 0 ∧
      s4.trace = s1.trace ++ evs ∧
      evs.filter Event.isStatusReady =
        (s.outQueues.flatten.filter (fun y => y.stateful)).map
          (fun y => Event.OnStatusReady y.handler y.msg status) ∧
      ∀ x ∈ d.outQueue,
        (∀ y ∈ s.outQueues.flatten, y.stateful = true → y.handler ≠ x.handler) →
        ∀ m st1, Event.OnStatusReady x.handler m st1 ∉ evs := by
  -- the pop
  have hR : ∃ s1, OnReadyToWrite s 0 = some ((e.msg, e.handler), s1) ∧
      s1.pSubStreams = s.pSubStreams.set 0 { d with outQueue := rest, outMsgHelper := e } := by
    unfold OnReadyToWrite
    rw [h0]
    simp only [hq, OutQueue.IsEmpty, List.isEmpty_cons, Bool.false_eq_true, if_false,
      OutQueue.PopMessage]
    exact ⟨_, rfl, rfl⟩
  obtain ⟨s1, hR1, hR2⟩ := hR
  have h10 : s1.pSubStreams[0]? = some { d with outQueue := rest, outMsgHelper := e } := by
    rw [hR2]; exact getElem?_set_zero _ _ _ h0
  -- the recovery of the slots
  obtain ⟨d2, evs2, hrec, -, hq2, ho2, hi2, -, -⟩ := OnError.recover_shape env s1 0 _ h10
  simp only [hmsg, if_true] at hq2 ho2
  have hq2d : d2.outQueue = d.outQueue := by rw [hq2, hq]
  have hin2 : d2.inMsgHelper.handler = 0 := by
    rw [hi2]
    by_cases hh : d.inMsgHelper.handler = 0
    · simp [hh]
    · simp [hh]
  obtain ⟨s3, evs3, d3, hsl, ht3, hf3, hd3, hcase⟩ :=
    OnError_zero_ends env s1 status _ _ h10 hrec
  have h20 : ({ s1 with pSubStreams := s1.pSubStreams.set 0 d2,
                        trace := s1.trace ++ evs2 } : Stream).pSubStreams[0]? = some d2 :=
    getElem?_set_zero _ _ _ h10
  have hd32 : d3.slots = d2.slots := by
    have h := congrArg (fun l : List (OutQueue × MsgHelper × InMessageHelper) => l[0]?) hsl
    simp only [Stream.slots, List.getElem?_map, hd3, h20, Option.map_some',
      Option.some.injEq] at h
    exact h
  simp only [SubStreamData.slots, Prod.mk.injEq] at hd32
  have hq3 : s3.outQueues = s.outQueues := by
    rw [outQueues_of_slots _ _ hsl]
    show (s1.pSubStreams.set 0 d2).map (fun d => d.outQueue) = _
    rw [hR2, List.set_set]
    exact map_set_of_eq (fun d => d.outQueue) s.pSubStreams 0 d d2 h0 hq2d
  have hno : ∀ ev ∈ evs3, ¬ Event.isStatusReady ev = true := List.filter_eq_nil_iff.mp hf3
  have hend : OnError env s1 0 status = some (OnError.report s3 status) := by
    rcases hcase with ⟨-, hE⟩ | ⟨-, st, p, hE, hOn⟩
    · exact hE
    · rw [hOn, hlink _ s1 _ hR1 hrec st s3 p hE]
      rfl
  have hfil : d.outQueue.filter (fun y => !y.stateful) = d.outQueue := by
    rw [List.filter_eq_self]
    intro x hx
    simp [hless x hx]
  have hsub : (OnError.report s3 status).pSubStreams[0]? =
      some { d3 with outQueue := d3.outQueue.filter (fun y => !y.stateful) } := by
    unfold OnError.report
    simp only [grabLoop_GrabStateful, Stream.emit, List.getElem?_map, hd3, Option.map_some']
  refine ⟨s1, _, _, evs3 ++ ((s.outQueues.flatten.filter (fun y => y.stateful)).map
        (fun y => Event.OnStatusReady y.handler y.msg status) ++
      [Event.ReportStreamEvent StreamEvent.Broken status,
       Event.ChannelEvent StreamEvent.Broken status]), hR1, hend, hsub, ?_, ?_, ?_, ?_, ?_, ?_⟩
  · show d3.outQueue.filter (fun y => !y.stateful) = d.outQueue
    rw [hd32.1, hq2d, hfil]
  · show d3.outMsgHelper = ({} : MsgHelper)
    rw [hd32.2.1, ho2]
  · show d3.inMsgHelper.handler = 0
    rw [hd32.2.2]; exact hin2
  · rw [(OnError.report_shape s3 status).2, ht3, hq3, List.append_assoc]
  · rw [List.filter_append, hf3, List.filter_append]
    have := filter_isStatusReady_Report
      (s.outQueues.flatten.filter (fun y => y.stateful)) status
    unfold OutQueue.Report at this
    rw [this]
    simp [Event.isStatusReady]
  · intro x _ hx m st1 hmem
    rcases List.mem_append.mp hmem with h1 | h1
    · exact hno _ h1 rfl
    · rcases List.mem_append.mp h1 with h2 | h2
      · obtain ⟨y, hy, hye⟩ := List.mem_map.mp h2
        simp only [Event.OnStatusReady.injEq] at hye
        obtain ⟨hy1, hy2⟩ := List.mem_filter.mp hy
        exact hx y hy1 hy2 hye.1
      · simp at h2

theorem pop_requeue_identity_witness :
    ∃ s1 s4 d4 evs, OnReadyToWrite exThree 0 = some ((some { id := 1 }, 1), s1) ∧
      OnError exEnvDns s1 0 { status := stError, code := errConnectionError } = some s4 ∧
      s4.pSubStreams[0]? = some d4 ∧
      d4.outQueue = [{ msg := some { id := 1 }, handler := 1, expires := 160 },
                     { msg := some { id := 2 }, handler := 2, expires := 170 },
                     { msg := some { id := 3 }, handler := 3, expires := 180 }] ∧
      d4.outMsgHelper = ({} : MsgHelper) ∧ d4.inMsgHelper.handler = 0 ∧
      s4.trace = s1.trace ++ evs ∧
      evs.filter Event.isStatusReady = [] := by
  have hlink : ∀ r s1 s2, OnReadyToWrite exThree 0 = some (r, s1) →
      OnError.recover exEnvDns s1 0 = some s2 → ∀ st s3 p,
      EnableLink exEnvDns
        (s2.emit [Event.MonitorDisconnection { status := stError, code := errConnectionError }])
        { up := 0, down := 0 } = some (st, s3, p) → st.IsOK = true := by
    intro r s1 s2 h1 h2 st s3 p hE
    have e1 : OnReadyToWrite exThree 0 = some ((some { id := 1 }, 1), exThreePopped) := rfl
    rw [e1] at h1
    simp only [Option.some.injEq, Prod.mk.injEq] at h1
    rw [← h1.2] at h2
    have e2 : OnError.recover exEnvDns exThreePopped 0 = some exThreeRecovered := rfl
    rw [e2] at h2
    simp only [Option.some.injEq] at h2
    rw [← h2] at hE
    have hv : (EnableLink exEnvDns
        (exThreeRecovered.emit
          [Event.MonitorDisconnection { status := stError, code := errConnectionError }])
        { up := 0, down := 0 }).map (fun r => r.1.IsOK) = some true := rfl
    rw [hE] at hv
    simpa using hv
  obtain ⟨s1, s4, d4, evs, h1, h2, h3, h4, h5, h6, h7, h8, -⟩ :=
    pop_requeue_identity exEnvDns exThree { status := stError, code := errConnectionError }
      _ { msg := some { id := 1 }, handler := 1, expires := 160 }
      [{ msg := some { id := 2 }, handler := 2, expires := 170 },
       { msg := some { id := 3 }, handler := 3, expires := 180 }]
      rfl rfl (by decide) rfl hlink
  exact ⟨s1, s4, d4, evs, h1, h2, h3, h4, h5, h6, h7, h8⟩

/-! ## The status of an extra substream whose connect call fails -/

/-- C30: the run `exReconnect` from `Initialize` ends with `OnConnect(0)` returning; the
connect attempt of substream 1 failed in it (its socket is closed: `Close 1` is the call
after `Connect 1`), yet substream 1 still has status `Connected`.  `EnableLink` then
enables the uplink of substream 1 and `Send` queues a message on it. -/
theorem OnConnect_failed_extra_keeps_status :
    exec 0 exNew exReconnect = some (2, exReconnected) ∧
    exReconnected.pSubStreams.map (fun d => d.status) =
      [SocketStatus.Connected, SocketStatus.Connected] ∧
    (exEnvTwoFail.Connect 1 12).IsOK = false ∧
    exReconnected.trace.drop (exReconnected.trace.length - 5) =
      [Event.SetAddress 1 12, Event.Connect 1 30, Event.Close 1,
       Event.MonitorConnect 2, Event.NotifyConnectHandler { host := 1 }] ∧
    (EnableLink exEnvPath1 exReconnected { up := 1, down := 1 }).map
        (fun r => (r.1, r.2.1.trace.drop exReconnected.trace.length, r.2.2)) =
      some ({}, [Event.EnableUplink 1], { up := 1, down := 1 }) ∧
    (Send exEnvPath1 exReconnected { id := 2 } 2 false 900).map
        (fun r => (r.1, r.2.outQueues)) =
      some ({}, [[{ msg := some { id := 1 }, handler := 1, expires := 900 }],
                 [{ msg := some { id := 2 }, handler := 2, expires := 900 }]]) := by
  refine ⟨rfl, rfl, rfl, ?_, rfl, rfl⟩
  decide

/-! ## The status of a substream after an error -/

theorem statuses_setSub (s : Stream) (i : Nat) (d1 : SubStreamData) :
    (s.setSub i d1).statuses = s.statuses.set i d1.status := by
  simp [Stream.statuses, Stream.setSub, List.map_set]

theorem statuses_getElem? (s : Stream) (i : Nat) (d : SubStreamData)
    (h : s.pSubStreams[i]? = some d) : s.statuses[i]? = some d.status := by
  simp [Stream.statuses, List.getElem?_map, h]

theorem statuses_set_self (s : Stream) (i : Nat) (d : SubStreamData)
    (h : s.pSubStreams[i]? = some d) : s.statuses.set i d.status = s.statuses :=
  set_of_getElem? _ _ _ (statuses_getElem? s i d h)

theorem getElem?_set_same {α : Type} (l : List α) (i : Nat) (a b : α)
    (h : l[i]? = some a) : (l.set i b)[i]? = some b := by
  have hlt : i < l.length := by
    by_contra hc
    rw [List.getElem?_eq_none (not_lt.mp hc)] at h
    simp at h
  exact List.getElem?_set_self hlt

/-- The statuses and the calls of `OnFatalError`: the substream is `Disconnected`, the
others keep their status, and no socket is asked to connect. -/
theorem OnFatalError_statuses (env : Env) (s : Stream) (subStream : Nat)
    (status : XRootDStatus) (d : SubStreamData) (h : s.pSubStreams[subStream]? = some d) :
    ∃ s1 evs, OnFatalError env s subStream status = some s1 ∧
      s1.statuses = s.statuses.set subStream SocketStatus.Disconnected ∧
      s1.trace = s.trace ++ evs ∧ ∀ i w, Event.Connect i w ∉ evs := by
  obtain ⟨s1, h1, h2, h3, -⟩ := OnFatalError_shape env s subStream status d h
  refine ⟨s1, _, h1, ?_, h3, ?_⟩
  · rw [Stream.statuses, h2, List.map_map, List.map_set]
    rfl
  · intro i w hmem
    simp at hmem

/-- The statuses and the calls of the recovery part of `OnError`. -/
theorem OnError.recover_statuses (env : Env) (s : Stream) (i : Nat) (d : SubStreamData)
    (h : s.pSubStreams[i]? = some d) :
    ∃ s1 evs, OnError.recover env s i = some s1 ∧
      s1.statuses = s.statuses.set i SocketStatus.Disconnected ∧
      s1.trace = s.trace ++ evs ∧ (∀ j w, Event.Connect j w ∉ evs) ∧
      s1.pAddresses = s.pAddresses := by
  unfold OnError.recover
  rw [h]
  dsimp only
  by_cases hm : d.outMsgHelper.msg.isSome = true <;>
    by_cases hh : d.inMsgHelper.handler = 0 <;>
    by_cases hx : env.isXRootDMsgHandler d.inMsgHelper.handler = true <;>
    simp only [hm, hh, hx, if_true, if_false, ne_eq, not_true_eq_false, not_false_eq_true,
      Bool.false_eq_true] <;>
    refine ⟨_, _, rfl, ?_, rfl, ?_, rfl⟩ <;>
    simp [Stream.statuses, Stream.emit, Stream.setSub, List.map_set]

/-- The reporting part of `OnError` changes no status and asks no socket to connect. -/
theorem OnError.report_statuses (s : Stream) (status : XRootDStatus) :
    (OnError.report s status).statuses = s.statuses ∧
    ∃ evs, (OnError.report s status).trace = s.trace ++ evs ∧
      ∀ i w, Event.Connect i w ∉ evs := by
  constructor
  · unfold OnError.report
    simp [grabLoop_GrabStateful, Stream.emit, Stream.statuses, List.map_map, Function.comp]
  · refine ⟨_, (OnError.report_shape s status).2, ?_⟩
    intro i w hmem
    simp at hmem

theorem mem_attemptCalls (window : Nat) (l : List XrdNetAddr) (h : l ≠ []) :
    Event.Connect 0 window ∈ attemptCalls window l := by
  cases l with
  | nil => exact absurd rfl h
  | cons a rest => simp [attemptCalls]

/-- With substream 0 disconnected, `EnableLink` returns and either leaves every status
as it is, or makes substream 0 `Connecting` after a `Connect` call on socket 0. -/
theorem EnableLink_disconnected_statuses (env : Env) (s : Stream) (path : PathID)
    (d0 : SubStreamData) (h0 : s.pSubStreams[0]? = some d0)
    (hd : d0.status = SocketStatus.Disconnected) :
    ∃ st s1 evs, EnableLink env s path = some (st, s1, path) ∧
      s1.trace = s.trace ++ evs ∧
      (s1.statuses = s.statuses ∨
        (s1.statuses = s.statuses.set 0 SocketStatus.Connecting ∧
          Event.Connect 0 s.pConnectionWindow ∈ evs)) := by
  rw [EnableLink_of_disconnected env s path d0 h0 hd]
  split
  · exact ⟨_, s, [], rfl, by simp, Or.inl rfl⟩
  · cases hr : (env.GetHostAddresses s.pUrl s.pAddressType).1.IsOK with
    | false =>
      obtain ⟨st, s1, evs, h1, -, h3, -, hbad, -⟩ := EnableLink.connect_shape env s path d0 h0
      refine ⟨st, s1, _, h1, h3, Or.inl ?_⟩
      unfold Stream.statuses
      rw [(hbad hr).2.2.2.2]
    | true =>
      rw [EnableLink.connect_ok env s path d0 h0 hr]
      obtain ⟨hp1, -, hp3, hp4⟩ := EnableLink.prefer_frame env (EnableLink.resolve env s).2
      have hw : (EnableLink.prefer env (EnableLink.resolve env s).2).pConnectionWindow =
          s.pConnectionWindow := by rw [hp3]; rfl
      have hsub : (EnableLink.prefer env (EnableLink.resolve env s).2).pSubStreams =
          s.pSubStreams := by rw [hp1]; rfl
      refine ⟨_, _, [Event.GetHostAddresses s.pUrl] ++
          (if (EnableLink.resolve env s).2.pPrefer.IsValid
            then [Event.GetHostAddresses (EnableLink.resolve env s).2.pPrefer] else []) ++
          attemptCalls s.pConnectionWindow (attempted env (workList env s).reverse),
        rfl, ?_, ?_⟩
      · simp only [loopStream, hp4, hw]
        simp [EnableLink.resolve, Stream.emit, List.append_assoc]
      · cases ha : (attempted env (workList env s).reverse).getLast? with
        | none =>
          left
          simp only [loopStream, Stream.statuses, ha, hsub, List.map_set]
          exact statuses_set_self s 0 d0 h0
        | some a =>
          have hne : attempted env (workList env s).reverse ≠ [] := by
            intro hnil
            rw [hnil] at ha
            simp at ha
          by_cases hok : (env.Connect 0 a).IsOK = true
          · right
            refine ⟨?_, ?_⟩
            · simp only [loopStream, Stream.statuses, ha, hsub, List.map_set, hok, if_true]
            · apply List.mem_append_right
              exact mem_attemptCalls _ _ hne
          · left
            simp only [loopStream, Stream.statuses, ha, hsub, List.map_set, hok]
            exact statuses_set_self s 0 d0 h0

theorem statuses_length (s : Stream) : s.statuses.length = s.pSubStreams.length := by
  simp [Stream.statuses]

theorem lt_length_of_getElem? {α : Type} (l : List α) (i : Nat) (a : α)
    (h : l[i]? = some a) : i < l.length := by
  by_contra hc
  rw [List.getElem?_eq_none (not_lt.mp hc)] at h
  simp at h

theorem getElem?_of_lt {α : Type} (l : List α) (i : Nat) (h : i < l.length) :
    ∃ a, l[i]? = some a :=
  ⟨l[i], List.getElem?_eq_getElem h⟩

/-- After `OnFatalError(i, st)` the substream `sub` is `Disconnected` if it is the one
the error is on, or was `Disconnected` before. -/
theorem OnFatalError_keeps (env : Env) (s2 s1 : Stream) (i sub : Nat) (st : XRootDStatus)
    (hF : OnFatalError env s2 i st = some s1) (hi : i < s2.pSubStreams.length)
    (hsub : i = sub ∨ s2.statuses[sub]? = some SocketStatus.Disconnected) :
    ∃ evs, s1.trace = s2.trace ++ evs ∧ (∀ j w, Event.Connect j w ∉ evs) ∧
      s1.statuses[sub]? = some SocketStatus.Disconnected := by
  obtain ⟨d, hd⟩ := getElem?_of_lt _ _ hi
  obtain ⟨s3, evs, h1, h2, h3, h4⟩ := OnFatalError_statuses env s2 i st d hd
  rw [h1] at hF
  simp only [Option.some.injEq] at hF
  rw [← hF]
  refine ⟨evs, h3, h4, ?_⟩
  rw [h2]
  by_cases hs : i = sub
  · rw [← hs]
    exact List.getElem?_set_self (by rw [statuses_length]; exact hi)
  · rw [List.getElem?_set_ne hs]
    rcases hsub with h | h
    · exact absurd h hs
    · exact h

/-- The status after `OnError`: when `OnError(sub, status)` returns, the substream is
`Disconnected` unless a connect call was made on its socket. -/
theorem OnError_statuses (env : Env) (s : Stream) (sub : Nat) (status : XRootDStatus)
    (s1 : Stream) (h : OnError env s sub status = some s1) :
    ∃ evs, s1.trace = s.trace ++ evs ∧ ∃ x, s1.statuses[sub]? = some x ∧
      ((∀ w, Event.Connect sub w ∉ evs) → x = SocketStatus.Disconnected) := by
  cases hl : s.pSubStreams[sub]? with
  | none => simp [OnError, OnError.recover, hl] at h
  | some d =>
    have hlt := lt_length_of_getElem? _ _ _ hl
    obtain ⟨sr, evs1, hrec, hst, htr, hnc, -⟩ := OnError.recover_statuses env s sub d hl
    have hlen : sr.pSubStreams.length = s.pSubStreams.length := by
      have := congrArg List.length hst
      simpa [Stream.statuses] using this
    have hdis : sr.statuses[sub]? = some SocketStatus.Disconnected := by
      rw [hst]
      exact List.getElem?_set_self (by rw [statuses_length]; exact hlt)
    have fatal : ∀ (s2 : Stream) (evs2 : List Event) (i : Nat) (st : XRootDStatus),
        s2.trace = s.trace ++ evs2 → (∀ w, Event.Connect sub w ∉ evs2) →
        OnFatalError env s2 i st = some s1 → i < s2.pSubStreams.length →
        (i = sub ∨ s2.statuses[sub]? = some SocketStatus.Disconnected) →
        ∃ evs, s1.trace = s.trace ++ evs ∧ ∃ x, s1.statuses[sub]? = some x ∧
          ((∀ w, Event.Connect sub w ∉ evs) → x = SocketStatus.Disconnected) := by
      intro s2 evs2 i st ht2 _ hF hi hsub
      obtain ⟨evs, he1, _, he3⟩ := OnFatalError_keeps env s2 s1 i sub st hF hi hsub
      exact ⟨evs2 ++ evs, by rw [he1, ht2, List.append_assoc], _, he3, fun _ => rfl⟩
    unfold OnError at h
    rw [hrec] at h
    dsimp only at h
    split at h
    · -- a peripheral substream
      rename_i hpos
      split at h
      · rename_i dd d0 hdd hd0
        have h0lt := lt_length_of_getElem? _ _ _ hd0
        split at h
        · simp only [Option.some.injEq] at h
          rw [← h]
          exact ⟨evs1, htr, _, hdis, fun _ => rfl⟩
        · split at h
          · have hdd2 : dd.status = SocketStatus.Disconnected := by
              have := statuses_getElem? sr sub dd hdd
              rw [hdis] at this
              simpa using this.symm
            have hst2 : ((sr.setSub 0
                { d0 with outQueue := (OutQueue.GrabItems d0.outQueue dd.outQueue).1 }).setSub
                sub { dd with outQueue := (OutQueue.GrabItems d0.outQueue dd.outQueue).2 }).statuses
                = sr.statuses := by
              rw [statuses_setSub, statuses_setSub]
              have e0 := statuses_set_self sr 0 d0 hd0
              have e1 := statuses_set_self sr sub dd hdd
              dsimp only at e0 e1 ⊢
              rw [e0, e1]
            split at h
            · split at h
              · refine fatal _ (evs1 ++ [Event.EnableUplink 0]) 0 _ ?_ ?_ h ?_ (Or.inr ?_)
                · simp [Stream.emit, Stream.setSub, htr]
                · intro w hmem
                  rcases List.mem_append.mp hmem with hm | hm
                  · exact hnc _ _ hm
                  · simp at hm
                · simpa [Stream.emit, Stream.setSub] using h0lt
                · show (Stream.statuses _)[sub]? = _
                  rw [show ∀ (t : Stream) (e : List Event), (t.emit e).statuses = t.statuses
                    from fun _ _ => rfl, hst2]
                  exact hdis
              · simp only [Option.some.injEq] at h
                rw [← h]
                refine ⟨evs1 ++ [Event.EnableUplink 0], ?_, _, ?_, fun _ => rfl⟩
                · simp [Stream.emit, Stream.setSub, htr]
                · show (Stream.statuses _)[sub]? = _
                  rw [show ∀ (t : Stream) (e : List Event), (t.emit e).statuses = t.statuses
                    from fun _ _ => rfl, hst2]
                  exact hdis
            · refine fatal _ evs1 sub _ ?_ (fun w hm => hnc _ _ hm) h ?_ (Or.inl rfl)
              · simp [Stream.setSub, htr]
              · simpa [Stream.setSub, hlen] using hlt
          · exact fatal sr evs1 sub _ htr (fun w hm => hnc _ _ hm) h
              (by rw [hlen]; exact hlt) (Or.inl rfl)
      · simp at h
    · -- substream 0
      rename_i hpos
      have hz : sub = 0 := by omega
      subst hz
      have hsr0 : ∃ dr, sr.pSubStreams[0]? = some dr ∧ dr.status = SocketStatus.Disconnected := by
        obtain ⟨dr, hdr⟩ := getElem?_of_lt sr.pSubStreams 0 (by rw [hlen]; exact hlt)
        refine ⟨dr, hdr, ?_⟩
        have := statuses_getElem? sr 0 dr hdr
        rw [hdis] at this
        simpa using this.symm
      obtain ⟨dr, hdr, hdrs⟩ := hsr0
      have hrep : ∀ (s3 : Stream) (evs3 : List Event), s3.trace = s.trace ++ evs3 →
          (s3.statuses = sr.statuses ∨
            (s3.statuses = sr.statuses.set 0 SocketStatus.Connecting ∧
              ∃ w, Event.Connect 0 w ∈ evs3)) →
          some (OnError.report s3 status) = some s1 →
          ∃ evs, s1.trace = s.trace ++ evs ∧ ∃ x, s1.statuses[0]? = some x ∧
            ((∀ w, Event.Connect 0 w ∉ evs) → x = SocketStatus.Disconnected) := by
        intro s3 evs3 ht3 hs3 hE
        simp only [Option.some.injEq] at hE
        obtain ⟨hrs, evsr, hrt, -⟩ := OnError.report_statuses s3 status
        rw [← hE]
        rcases hs3 with hs3 | ⟨hs3, w, hw⟩
        · refine ⟨evs3 ++ evsr, by rw [hrt, ht3, List.append_assoc], _, ?_, fun _ => rfl⟩
          rw [hrs, hs3]; exact hdis
        · refine ⟨evs3 ++ evsr, by rw [hrt, ht3, List.append_assoc],
            SocketStatus.Connecting, ?_, ?_⟩
          · rw [hrs, hs3]
            exact List.getElem?_set_self (by rw [statuses_length, hlen]; exact hlt)
          · intro hno
            exact absurd (List.mem_append_left _ hw) (hno w)
      split at h
      · have hdr2 : (sr.emit [Event.MonitorDisconnection status]).pSubStreams[0]? = some dr :=
          hdr
        obtain ⟨st, s3, evs3, hE, ht3, hs3⟩ := EnableLink_disconnected_statuses env
          (sr.emit [Event.MonitorDisconnection status]) { up := 0, down := 0 } dr hdr2 hdrs
        rw [hE] at h
        dsimp only at h
        have ht3s : s3.trace = s.trace ++ (evs1 ++ [Event.MonitorDisconnection status] ++ evs3) := by
          rw [ht3]
          simp [Stream.emit, htr]
        have hlen3 : s3.pSubStreams.length = s.pSubStreams.length := by
          rcases hs3 with hs3 | ⟨hs3, -⟩
          · have := congrArg List.length hs3
            simpa [Stream.statuses, Stream.emit, hlen] using this
          · have := congrArg List.length hs3
            simpa [Stream.statuses, Stream.emit, hlen] using this
        split at h
        · obtain ⟨evs, he1, _, he3⟩ := OnFatalError_keeps env s3 s1 0 0 st h
            (by rw [hlen3]; exact hlt) (Or.inl rfl)
          exact ⟨_, by rw [he1, ht3s, List.append_assoc], _, he3, fun _ => rfl⟩
        · refine hrep s3 _ ht3s ?_ h
          rcases hs3 with hs3 | ⟨hs3, hw⟩
          · left; exact hs3
          · right
            exact ⟨hs3, _, List.mem_append_right _ hw⟩
      · refine hrep (sr.emit [Event.MonitorDisconnection status])
          (evs1 ++ [Event.MonitorDisconnection status]) ?_ (Or.inl rfl) h
        simp [Stream.emit, htr]

/-- The retry loop of `OnConnectError` over a non-empty address list makes a connect
call on socket 0 and keeps the substreams in place. -/
theorem OnConnectError.retry_trace (env : Env) (rev : List XrdNetAddr) :
    ∀ (s : Stream) (st : XRootDStatus) (s1 : Stream), rev ≠ [] →
      OnConnectError.retry env s rev = some (st, s1) →
      ∃ evs, s1.trace = s.trace ++ evs ∧ Event.Connect 0 s.pConnectionWindow ∈ evs ∧
        s1.pSubStreams.length = s.pSubStreams.length ∧
        s1.pConnectionWindow = s.pConnectionWindow := by
  induction rev with
  | nil => intro s st s1 hne; exact absurd rfl hne
  | cons a rest ih =>
    intro s st s1 _ h
    unfold OnConnectError.retry at h
    cases hstep : connectStep env s a rest with
    | none => simp [hstep] at h
    | some r =>
      obtain ⟨st2, s2⟩ := r
      have hs2 : s2.trace = s.trace ++ [Event.SetAddress 0 a, Event.Connect 0 s.pConnectionWindow]
          ∧ s2.pSubStreams.length = s.pSubStreams.length ∧
          s2.pConnectionWindow = s.pConnectionWindow := by
        unfold connectStep at hstep
        split at hstep
        · simp at hstep
        · simp only [Option.some.injEq, Prod.mk.injEq] at hstep
          rw [← hstep.2]
          simp [Stream.emit, Stream.setSub]
      rw [hstep] at h
      dsimp only at h
      split at h
      · rename_i hc
        have hne : rest ≠ [] := by
          intro hnil
          rw [hnil] at hc
          simp at hc
        obtain ⟨evs, h1, h2, h3, h4⟩ := ih s2 st s1 hne h
        refine ⟨[Event.SetAddress 0 a, Event.Connect 0 s.pConnectionWindow] ++ evs, ?_, ?_,
          ?_, ?_⟩
        · rw [h1, hs2.1, List.append_assoc]
        · simp
        · rw [h3, hs2.2.1]
        · rw [h4, hs2.2.2]
      · simp only [Option.some.injEq, Prod.mk.injEq] at h
        rw [← h.2]
        exact ⟨_, hs2.1, by simp, hs2.2.1, hs2.2.2⟩

theorem emit_statuses (s : Stream) (evs : List Event) : (s.emit evs).statuses = s.statuses :=
  rfl

/-- The status after `OnConnectError`: outside the branch that registers the reconnect
task, the substream is `Disconnected` when the call returns unless a connect call was
made on its socket; in that branch nothing is done to any substream. -/
theorem OnConnectError_statuses (env : Env) (s : Stream) (sub : Nat)
    (status : XRootDStatus) (s1 : Stream)
    (h : OnConnectError env s sub status = some s1) :
    ∃ evs, s1.trace = s.trace ++ evs ∧ ∃ x, s1.statuses[sub]? = some x ∧
      (OnConnectError.waits env s sub status = false →
        (∀ w, Event.Connect sub w ∉ evs) → x = SocketStatus.Disconnected) ∧
      (OnConnectError.waits env s sub status = true →
        (∀ i w, Event.Connect i w ∉ evs) ∧ s1.pSubStreams = s.pSubStreams) := by
  cases hl : s.pSubStreams[sub]? with
  | none => simp [OnConnectError, hl] at h
  | some d =>
    have hlt := lt_length_of_getElem? _ _ _ hl
    unfold OnConnectError at h
    rw [hl] at h
    dsimp only at h
    split at h
    · -- a peripheral substream
      rename_i hpos
      have hne : sub ≠ 0 := by omega
      have hwf : OnConnectError.waits env s sub status = false := by
        simp [OnConnectError.waits, hne]
      split at h
      · simp at h
      · rename_i d0 hd0
        have hd0s : s.pSubStreams[0]? = some d0 := hd0
        have hst2 : ∀ (q qq : OutQueue),
            (((s.emit [Event.Close sub, Event.NotifyConnErrHandler s.pUrl status]).setSub sub
              { d with status := SocketStatus.Disconnected, outQueue := q }).setSub 0
              { d0 with outQueue := qq }).statuses =
            s.statuses.set sub SocketStatus.Disconnected := by
          intro q qq
          rw [statuses_setSub, statuses_setSub, emit_statuses]
          apply set_of_getElem?
          rw [List.getElem?_set_ne hne]
          exact statuses_getElem? s 0 d0 hd0s
        have hdis : (s.statuses.set sub SocketStatus.Disconnected)[sub]? =
            some SocketStatus.Disconnected :=
          List.getElem?_set_self (by rw [statuses_length]; exact hlt)
        have h0lt : 0 < s.pSubStreams.length := lt_length_of_getElem? _ _ _ hd0s
        split at h
        · split at h
          · obtain ⟨evs, he1, _, he3⟩ := OnFatalError_keeps env _ s1 0 sub _ h
              (by simpa [Stream.emit, Stream.setSub] using h0lt)
              (Or.inr (by rw [emit_statuses, hst2]; exact hdis))
            refine ⟨[Event.Close sub, Event.NotifyConnErrHandler s.pUrl status,
              Event.EnableUplink 0] ++ evs, ?_, _, he3, fun _ _ => rfl, ?_⟩
            · rw [he1]
              simp [Stream.emit, Stream.setSub]
            · intro hw; rw [hwf] at hw; exact absurd hw (by simp)
          · simp only [Option.some.injEq] at h
            rw [← h]
            refine ⟨[Event.Close sub, Event.NotifyConnErrHandler s.pUrl status,
              Event.EnableUplink 0], ?_, _, ?_, fun _ _ => rfl, ?_⟩
            · simp [Stream.emit, Stream.setSub]
            · rw [emit_statuses, hst2]; exact hdis
            · intro hw; rw [hwf] at hw; exact absurd hw (by simp)
        · split at h
          · simp only [Option.some.injEq] at h
            rw [← h]
            refine ⟨[Event.Close sub, Event.NotifyConnErrHandler s.pUrl status], ?_, _, ?_,
              fun _ _ => rfl, ?_⟩
            · simp [Stream.emit, Stream.setSub]
            · rw [hst2]; exact hdis
            · intro hw; rw [hwf] at hw; exact absurd hw (by simp)
          · obtain ⟨evs, he1, _, he3⟩ := OnFatalError_keeps env _ s1 sub sub _ h
              (by simpa [Stream.emit, Stream.setSub] using hlt) (Or.inl rfl)
            refine ⟨[Event.Close sub, Event.NotifyConnErrHandler s.pUrl status] ++ evs, ?_,
              _, he3, fun _ _ => rfl, ?_⟩
            · rw [he1]
              simp [Stream.emit, Stream.setSub]
            · intro hw; rw [hwf] at hw; exact absurd hw (by simp)
    · -- substream 0
      rename_i hpos
      have hz : sub = 0 := by omega
      subst hz
      split at h
      · -- addresses left
        rename_i haddr
        have hne : s.pAddresses ≠ [] := by
          intro hnil
          simp [Stream.emit, hnil] at haddr
        have hwf : OnConnectError.waits env s 0 status = false := by
          cases hp : s.pAddresses with
          | nil => exact absurd hp hne
          | cons a l => simp [OnConnectError.waits, hp]
        split at h
        · simp at h
        · rename_i st s2 hretry
          have hrev : (s.emit [Event.Close 0, Event.NotifyConnErrHandler s.pUrl
              status]).pAddresses.reverse ≠ [] := by
            simpa [Stream.emit] using hne
          obtain ⟨evs2, ht2, hc2, hl2, -⟩ :=
            OnConnectError.retry_trace env _ _ st s2 hrev hretry
          have hl2s : s2.pSubStreams.length = s.pSubStreams.length := by
            rw [hl2]; rfl
          split at h
          · obtain ⟨evs, he1, _, he3⟩ := OnFatalError_keeps env s2 s1 0 0 st h
              (by rw [hl2s]; exact hlt) (Or.inl rfl)
            refine ⟨[Event.Close 0, Event.NotifyConnErrHandler s.pUrl status] ++ evs2 ++ evs,
              ?_, _, he3, fun _ _ => rfl, ?_⟩
            · rw [he1, ht2]
              simp [Stream.emit]
            · intro hw; rw [hwf] at hw; exact absurd hw (by simp)
          · simp only [Option.some.injEq] at h
            rw [← h]
            obtain ⟨x, hx⟩ := getElem?_of_lt s2.statuses 0
              (by rw [statuses_length, hl2s]; exact hlt)
            refine ⟨[Event.Close 0, Event.NotifyConnErrHandler s.pUrl status] ++ evs2,
              ?_, x, hx, ?_, ?_⟩
            · rw [ht2]
              simp [Stream.emit]
            · intro _ hno
              exact absurd (List.mem_append_right _ hc2) (hno _)
            · intro hw; rw [hwf] at hw; exact absurd hw (by simp)
      · rename_i haddr
        have hnil : s.pAddresses = [] := by
          cases hp : s.pAddresses with
          | nil => rfl
          | cons a l => simp [Stream.emit, hp] at haddr
        split at h
        · -- the reconnect task
          rename_i hc
          have hwt : OnConnectError.waits env s 0 status = true := by
            have hc1 := hc.1
            have hc2 := hc.2.1
            have hc3 := hc.2.2
            simp only [Stream.emit] at hc1 hc2
            simp [OnConnectError.waits, hnil, hc1, hc2]
            simpa using hc3
          simp only [Option.some.injEq] at h
          rw [← h]
          refine ⟨[Event.Close 0, Event.NotifyConnErrHandler s.pUrl status,
            Event.RegisterTask (s.pConnectionInitTime + s.pConnectionWindow)], ?_,
            d.status, statuses_getElem? _ 0 d hl, ?_, fun _ => ⟨?_, rfl⟩⟩
          · simp [Stream.emit]
          · intro hw; rw [hwt] at hw; exact absurd hw (by simp)
          · intro i w hmem
            simp at hmem
        · rename_i hc
          split at h
          · -- a fresh resolution
            rename_i hc2
            have hwf : OnConnectError.waits env s 0 status = false := by
              by_contra hw
              have hw2 : OnConnectError.waits env s 0 status = true := by simpa using hw
              simp only [OnConnectError.waits, Bool.and_eq_true, decide_eq_true_eq] at hw2
              exact hc ⟨hw2.1.1.2, hc2.1, hc2.2⟩
            have hd2 : (Stream.setSub
                { (s.emit [Event.Close 0, Event.NotifyConnErrHandler s.pUrl status]) with
                  pAddresses := [] } 0
                { d with status := SocketStatus.Disconnected }).pSubStreams[0]? =
                some { d with status := SocketStatus.Disconnected } :=
              getElem?_set_zero _ _ _ hl
            obtain ⟨st, s3, evs3, hE, ht3, hs3⟩ := EnableLink_disconnected_statuses env _
              { up := 0, down := 0 } _ hd2 rfl
            rw [hE] at h
            dsimp only at h
            have hlen3 : s3.pSubStreams.length = s.pSubStreams.length := by
              rcases hs3 with hs3 | ⟨hs3, -⟩
              · have := congrArg List.length hs3
                simpa [Stream.statuses, Stream.emit, Stream.setSub] using this
              · have := congrArg List.length hs3
                simpa [Stream.statuses, Stream.emit, Stream.setSub] using this
            split at h
            · obtain ⟨evs, he1, _, he3⟩ := OnFatalError_keeps env s3 s1 0 0 st h
                (by rw [hlen3]; exact hlt) (Or.inl rfl)
              refine ⟨[Event.Close 0, Event.NotifyConnErrHandler s.pUrl status] ++ evs3 ++ evs,
                ?_, _, he3, fun _ _ => rfl, ?_⟩
              · rw [he1, ht3]
                simp [Stream.emit, Stream.setSub]
              · intro hw; rw [hwf] at hw; exact absurd hw (by simp)
            · simp only [Option.some.injEq] at h
              rw [← h]
              rcases hs3 with hs3 | ⟨hs3, hw3⟩
              · refine ⟨[Event.Close 0, Event.NotifyConnErrHandler s.pUrl status] ++ evs3,
                  ?_, SocketStatus.Disconnected, ?_, fun _ _ => rfl, ?_⟩
                · rw [ht3]
                  simp [Stream.emit, Stream.setSub]
                · rw [hs3]
                  exact statuses_getElem? _ 0 _ hd2
                · intro hw; rw [hwf] at hw; exact absurd hw (by simp)
              · refine ⟨[Event.Close 0, Event.NotifyConnErrHandler s.pUrl status] ++ evs3,
                  ?_, SocketStatus.Connecting, ?_, ?_, ?_⟩
                · rw [ht3]
                  simp [Stream.emit, Stream.setSub]
                · rw [hs3]
                  exact List.getElem?_set_self (by
                    rw [statuses_length]
                    simpa [Stream.emit, Stream.setSub] using hlt)
                · intro _ hno
                  exact absurd (List.mem_append_right _ hw3) (hno _)
                · intro hw; rw [hwf] at hw; exact absurd hw (by simp)
          · -- fatal
            rename_i hc2
            have hwf : OnConnectError.waits env s 0 status = false := by
              by_contra hw
              have hw2 : OnConnectError.waits env s 0 status = true := by simpa using hw
              simp only [OnConnectError.waits, Bool.and_eq_true, decide_eq_true_eq] at hw2
              exact hc2 ⟨hw2.1.2, hw2.2⟩
            obtain ⟨evs, he1, _, he3⟩ := OnFatalError_keeps env _ s1 0 0 status h
              (by simpa [Stream.emit] using hlt) (Or.inl rfl)
            refine ⟨[Event.Close 0, Event.NotifyConnErrHandler s.pUrl status] ++ evs,
              ?_, _, he3, fun _ _ => rfl, ?_⟩
            · rw [he1]
              simp [Stream.emit]
            · intro hw; rw [hwf] at hw; exact absurd hw (by simp)

/-- A connect error on substream 0 of `exConnecting`, 12 s into its connection window
of 30 s with no address left and retries remaining: `OnConnectError` registers the
reconnect task, makes no connect call, and substream 0 is still `Connecting` when it
returns. -/
theorem OnConnectError_waits_connecting :
    (OnConnectError exEnv exConnecting 0 { status := stError, code := errConnectionError }).map
        (fun s1 => (s1.statuses, s1.trace)) =
      some ([SocketStatus.Connecting],
        [Event.Close 0,
         Event.NotifyConnErrHandler { host := 1 } { status := stError, code := errConnectionError },
         Event.RegisterTask 118]) ∧
    SocketStatus.Connecting ≠ SocketStatus.Disconnected := by
  refine ⟨rfl, by decide⟩

/-- C21 (amended): when `OnError(sub, status)` returns without a connect call on the
socket of `sub`, the status of `sub` is `Disconnected`.  When `OnConnectError(sub,
status)` returns without such a call, the status of `sub` is `Disconnected` except in
the branch that waits for the reconnect task (`sub = 0`, no address left, connection
window still open, retries remaining, status not fatal): there no connect call is made
and every substream keeps its status. -/
theorem error_resets_status (env : Env) (s : Stream) (sub : Nat) (status : XRootDStatus)
    (s1 : Stream) :
    (OnError env s sub status = some s1 →
      ∃ evs, s1.trace = s.trace ++ evs ∧
        ((∀ w, Event.Connect sub w ∉ evs) →
          s1.statuses[sub]? = some SocketStatus.Disconnected)) ∧
    (OnConnectError env s sub status = some s1 →
      ∃ evs, s1.trace = s.trace ++ evs ∧
        (OnConnectError.waits env s sub status = false →
          (∀ w, Event.Connect sub w ∉ evs) →
          s1.statuses[sub]? = some SocketStatus.Disconnected) ∧
        (OnConnectError.waits env s sub status = true →
          (∀ i w, Event.Connect i w ∉ evs) ∧ s1.statuses = s.statuses)) := by
  constructor
  · intro h
    obtain ⟨evs, h1, x, hx, hd⟩ := OnError_statuses env s sub status s1 h
    refine ⟨evs, h1, fun hno => ?_⟩
    rw [hx, hd hno]
  · intro h
    obtain ⟨evs, h1, x, hx, hd, hw⟩ := OnConnectError_statuses env s sub status s1 h
    refine ⟨evs, h1, fun hwf hno => ?_, fun hwt => ⟨(hw hwt).1, ?_⟩⟩
    · rw [hx, hd hwf hno]
    · unfold Stream.statuses
      rw [(hw hwt).2]

theorem error_resets_status_witness :
    OnError exEnv exConnected 0 { status := stError, code := errConnectionError } =
      some exConnectedLost ∧
    exConnected.statuses = [SocketStatus.Connected] ∧
    exConnectedLost.statuses[0]? = some SocketStatus.Disconnected := by
  obtain ⟨evs, h1, h2⟩ := (error_resets_status exEnv exConnected 0
    { status := stError, code := errConnectionError } exConnectedLost).1 rfl
  refine ⟨rfl, rfl, h2 ?_⟩
  have ht : exConnectedLost.trace =
      [Event.Close 0,
       Event.MonitorDisconnection { status := stError, code := errConnectionError },
       Event.ReportStreamEvent StreamEvent.Broken
         { status := stError, code := errConnectionError },
       Event.ChannelEvent StreamEvent.Broken
         { status := stError, code := errConnectionError }] := rfl
  have he : evs = exConnectedLost.trace := by
    rw [h1]; rfl
  intro w hm
  rw [he, ht] at hm
  simp at hm

/-! ## The mutex at the moment of a report -/

/-- C23: `ForceConnect` on the connecting stream `exConnecting`, called by a thread that
does not hold the mutex, with a host name that does not resolve: the queued entry is
reported fatal, and at that moment the hold count of the calling thread is 1 (the
scoped lock of `ForceConnect` is still held).  `OnConnectError` entered directly with
the same status reports at hold count 0. -/
theorem ForceConnect_reports_under_lock :
    ForceConnect.holds exEnvNoDns exConnecting 0 = some [1] ∧
    (ForceConnect exEnvNoDns exConnecting).map
        (fun s1 => s1.trace.filter Event.isStatusReady) =
      some [Event.OnStatusReady 1 (some { id := 1 })
        { status := stFatal, code := errInvalidAddr }] ∧
    OnConnectError.holds exEnvNoDns exConnecting 0
      { status := stFatal, code := errInvalidAddr } 0 = some [0] := by
  refine ⟨rfl, rfl, rfl⟩

/-- Every report `OnConnectError` makes happens at the hold count it was entered with. -/
theorem OnConnectError_holds_eq (env : Env) (s : Stream) (subStream : Nat)
    (status : XRootDStatus) (held : Nat) (l : List Nat)
    (h : OnConnectError.holds env s subStream status held = some l) :
    ∀ n ∈ l, n = held := by
  have fin : ∀ l1 : List Nat, l1 = [] ∨ l1 = OnFatalError.holds (held + 1) →
      some l1 = some l → ∀ n ∈ l, n = held := by
    intro l1 hl1 he
    simp only [Option.some.injEq] at he
    rw [← he]
    intro n hn
    rcases hl1 with hl1 | hl1
    · rw [hl1] at hn; simp at hn
    · rw [hl1] at hn
      simp [OnFatalError.holds] at hn
      exact hn
  unfold OnConnectError.holds at h
  split at h
  · simp at h
  · dsimp only at h
    split at h
    · split at h
      · simp at h
      · split at h
        · split at h
          · exact fin _ (Or.inr rfl) h
          · exact fin _ (Or.inl rfl) h
        · split at h
          · exact fin _ (Or.inl rfl) h
          · exact fin _ (Or.inr rfl) h
    · split at h
      · split at h
        · simp at h
        · split at h
          · exact fin _ (Or.inr rfl) h
          · exact fin _ (Or.inl rfl) h
      · split at h
        · exact fin _ (Or.inl rfl) h
        · split at h
          · split at h
            · simp at h
            · split at h
              · exact fin _ (Or.inr rfl) h
              · exact fin _ (Or.inl rfl) h
          · exact fin _ (Or.inr rfl) h

/-- Every report made on the way through `ForceConnect` happens with the mutex held once
more than on entry. -/
theorem ForceConnect_holds_eq (env : Env) (s : Stream) (held : Nat) (l : List Nat)
    (h : ForceConnect.holds env s held = some l) : ∀ n ∈ l, n = held + 1 := by
  unfold ForceConnect.holds at h
  split at h
  · simp at h
  · dsimp only at h
    split at h
    · split at h
      · simp at h
      · split at h
        · exact OnConnectError_holds_eq env _ 0 _ _ l h
        · simp only [Option.some.injEq] at h
          rw [← h]
          intro n hn
          simp at hn
    · simp only [Option.some.injEq] at h
      rw [← h]
      intro n hn
      simp at hn

/-! ## At most one completion per message -/

end XrdCl
